import Mathlib

/-!
# Robus core (`network/robus/src/robus.c`): a shallow embedding

The C globals `ctx`, `last_node` and `baudrate` become fields of an explicit
world state that every function takes and returns.  Machine integers are
natural numbers reduced modulo `2^w` wherever the C type can wrap.  A fatal
`LUOS_ASSERT`, an access outside an array, a dereference of a pointer that
does not point into the service table, and running out of loop fuel are the
four ways a run can stop without a result.

Code of the repository that `robus.c` only calls (allocator, reception,
transmission, port manager, HAL, topic lists) is not part of the file; those
functions are fields of the record `Ext`, and compile-time constants whose
headers are absent are fields of the record `Config`.
-/

namespace Robus

/-! ## Outcomes -/

/-- Ways in which a run stops without returning. -/
inductive Fault where
  | assert
  | outOfBounds
  | badPointer
  | fuel
  deriving DecidableEq, Repr

/-- Values of `error_return_t`. -/
inductive error_return_t where
  | SUCCEED
  | PROHIBITED
  | FAILED
  deriving DecidableEq, Repr

export error_return_t (SUCCEED PROHIBITED FAILED)

/-! ## Constants -/

/-- Compile-time constants that `robus.c` takes from headers. -/
structure Config where
  MAX_SERVICE_NUMBER : Nat
  ID_MASK_SIZE : Nat
  LAST_TOPIC : Nat
  TOPIC_MASK_SIZE : Nat
  NBR_PORT : Nat
  MAX_DATA_MSG_SIZE : Nat
  sizeof_header_t : Nat
  sizeof_time_luos_t : Nat
  CRC_SIZE : Nat
  DEFAULTBAUDRATE : Nat
  BASE_PROTOCOL : Nat
  TX_DISABLE : Nat
  WRITE_NODE_ID : Nat
  START_DETECTION : Nat
  END_DETECTION : Nat
  SET_BAUDRATE : Nat
  LUOS_LAST_RESERVED_CMD : Nat
  NO_RTB : Bool
  VERBOSE_LOCALHOST : Bool
  IDENTIFIER_SHIFT : Nat
  deriving Repr

/-- The four protocol commands are distinct enumerators: they are the labels of
one `switch`. -/
def Config.cmds_distinct (K : Config) : Prop :=
  K.WRITE_NODE_ID ≠ K.START_DETECTION ∧ K.WRITE_NODE_ID ≠ K.END_DETECTION ∧
  K.WRITE_NODE_ID ≠ K.SET_BAUDRATE ∧ K.START_DETECTION ≠ K.END_DETECTION ∧
  K.START_DETECTION ≠ K.SET_BAUDRATE ∧ K.END_DETECTION ≠ K.SET_BAUDRATE

instance (K : Config) : Decidable K.cmds_distinct := by
  unfold Config.cmds_distinct; infer_instance

/-- Modelled from the spec: "User commands are ≥ that sentinel"; the four protocol
commands are reserved ones and lie below `LUOS_LAST_RESERVED_CMD`. -/
def Config.cmds_reserved (K : Config) : Prop :=
  K.WRITE_NODE_ID < K.LUOS_LAST_RESERVED_CMD ∧ K.START_DETECTION < K.LUOS_LAST_RESERVED_CMD ∧
  K.END_DETECTION < K.LUOS_LAST_RESERVED_CMD ∧ K.SET_BAUDRATE < K.LUOS_LAST_RESERVED_CMD

instance (K : Config) : Decidable K.cmds_reserved := by
  unfold Config.cmds_reserved; infer_instance

/-- `#define NETWORK_TIMEOUT 10000`. -/
def NETWORK_TIMEOUT : Nat := 10000

/-- Modelled from the spec: `DEFAULTID = 0` (the header that defines it is absent). -/
def DEFAULTID : Nat := 0

/-- Modelled from the spec: `BROADCAST_VAL = 0x0FFF` (the header that defines it is absent). -/
def BROADCAST_VAL : Nat := 0x0FFF

/-- Modelled from the spec: `target_mode` value `SERVICEID=0` (enum of an absent header). -/
def SERVICEID : Nat := 0
/-- Modelled from the spec: `target_mode` value `SERVICEIDACK=1` (enum of an absent header). -/
def SERVICEIDACK : Nat := 1
/-- Modelled from the spec: `target_mode` value `TYPE=2` (enum of an absent header). -/
def TYPE : Nat := 2
/-- Modelled from the spec: `target_mode` value `BROADCAST=3` (enum of an absent header). -/
def BROADCAST : Nat := 3
/-- Modelled from the spec: `target_mode` value `TOPIC=4` (enum of an absent header). -/
def TOPIC : Nat := 4
/-- Modelled from the spec: `target_mode` value `NODEID=5` (enum of an absent header). -/
def NODEID : Nat := 5
/-- Modelled from the spec: `target_mode` value `NODEIDACK=6` (enum of an absent header). -/
def NODEIDACK : Nat := 6

/-- Modelled from the spec: `network_state_t` is the enum
`{ NO_DETECTION, LOCAL_DETECTION, EXTERNAL_DETECTION, DETECTION_OK }` in that
order (the header is absent); a state is kept as its integer value because the
code compares states with `>=` and `Robus_SetNodeDetected` has a `default`
branch. -/
abbrev network_state_t := Nat
/-- Modelled from the spec: first enumerator of `network_state_t`. -/
def NO_DETECTION : network_state_t := 0
/-- Modelled from the spec: second enumerator of `network_state_t`. -/
def LOCAL_DETECTION : network_state_t := 1
/-- Modelled from the spec: third enumerator of `network_state_t`. -/
def EXTERNAL_DETECTION : network_state_t := 2
/-- Modelled from the spec: fourth enumerator of `network_state_t`. -/
def DETECTION_OK : network_state_t := 3

/-- Modelled from the spec: `luos_localhost_t`; `Robus_SetVerboseMode` stores
`mode + 1` with the comment "verbose is localhost or multihost", and
`Robus_SetTxTask` tests a value of this type for truth, so the enumerators are
`EXTERNALHOST = 0`, `LOCALHOST = 1`, `MULTIHOST = 2`. -/
abbrev luos_localhost_t := Nat
/-- Modelled from the spec: the message leaves the node. -/
def EXTERNALHOST : luos_localhost_t := 0
/-- Modelled from the spec: the message targets a service of this node only. -/
def LOCALHOST : luos_localhost_t := 1
/-- Modelled from the spec: the message targets this node and others. -/
def MULTIHOST : luos_localhost_t := 2

/-! ## Data model -/

/-- Modelled from the spec: `header { config, target_mode, target: u16,
source: u16, cmd: u8, size: u16 }` (the header file is absent). -/
structure header_t where
  config : Nat
  target_mode : Nat
  target : Nat
  source : Nat
  cmd : Nat
  size : Nat
  deriving DecidableEq, Repr

/-- A message: its header and the data bytes that have been written.  Bytes of
a `msg_t` that nothing has written are not represented, and reading one stops
the run (`Fault.outOfBounds`). -/
structure msg_t where
  header : header_t
  data : List Nat
  deriving DecidableEq, Repr

/-- The fields of `ll_service_t` that `robus.c` uses. -/
structure ll_service_t where
  id : Nat
  type : Nat
  dead_service_spotted : Nat
  max_retry : Nat
  last_topic_position : Nat
  topic_list : List Nat
  deriving DecidableEq, Repr

/-- The fields of `node_t`. -/
structure node_t where
  node_id : Nat
  certified : Bool
  node_info : Nat
  port_table : List Nat
  deriving DecidableEq, Repr

/-- The field `ctx.node_connected`. -/
structure node_connected_t where
  state : network_state_t
  timeout_run : Bool
  timeout : Nat
  deriving DecidableEq, Repr

/-- The fields of `ctx.port` that `robus.c` uses. -/
structure port_t where
  activ : Nat
  keepLine : Bool
  deriving DecidableEq, Repr

/-- The fields of `ctx.tx` that `robus.c` uses. -/
structure tx_t where
  lock : Bool
  collision : Bool
  status : Nat
  deriving DecidableEq, Repr

/-- The fields of `context_t` that `robus.c` uses.  `rx_status` is the byte
`ctx.rx.status.unmap`; a service pointer is an index into `ll_service_table`. -/
structure context_t where
  ll_service_number : Nat
  ll_service_table : List ll_service_t
  node : node_t
  tx : tx_t
  rx_status : Nat
  IDShiftMask : Nat
  IDMask : List Nat
  TopicMask : List Nat
  node_connected : node_connected_t
  port : port_t
  filter_state : Nat
  filter_id : Nat
  verbose : Nat
  deriving DecidableEq, Repr

/-- A call that hands something to the transmission path, as recorded in the
world's log. -/
inductive Call where
  | SetTxTask (service : Option Nat) (msg : msg_t) (crc : Nat) (size : Nat)
      (localhost : luos_localhost_t) (ack : Nat)
  | Transmit_Process
  deriving DecidableEq, Repr

/-- The whole state: the globals of `robus.c`, the state `env` of the modules it
calls, and the log of calls into the transmission path. -/
structure World (X : Type) where
  ctx : context_t
  last_node : Nat
  baudrate : Nat
  env : X
  log : List Call

/-- A service pointer: `none` is the null pointer, `some i` is
`&ctx.ll_service_table[i]`. -/
abbrev service_ptr := Option Nat

/-- Functions of the repository that `robus.c` calls and whose source is not
part of the file.  Allocator, HAL, reception and transmission act on their own
state `X`; the port manager also owns `ctx.port`; the topic helpers act on the
service they are given; the remaining ones only read their arguments.
`MsgAlloc_PullMsgToInterpret` yields `some msg` when the C function returns
`SUCCEED` and stores `msg`; the flag of `MsgAlloc_Init` tells whether its
argument is a non-null `memory_stats_t *`.  Writes that an interrupt handler
makes to `ctx` while the main loop runs lie outside this sequential model. -/
structure Ext (X : Type) where
  Recep_GetConcernedLLService : context_t → header_t → service_ptr
  Recep_NodeConcerned : context_t → header_t → luos_localhost_t
  Recep_Init : X → X
  Recep_InterpretMsgProtocol : msg_t → X → X
  Timestamp_IsTimestampMsg : msg_t → Bool
  ll_crc_compute : msg_t → Nat → Nat → Nat
  MsgAlloc_Init : Bool → X → X
  MsgAlloc_loop : X → X
  MsgAlloc_PullMsgToInterpret : X → Option msg_t × X
  MsgAlloc_SetTxTask : service_ptr → msg_t → Nat → Nat → luos_localhost_t → Nat → X → error_return_t × X
  MsgAlloc_TxAllComplete : X → error_return_t × X
  MsgAlloc_IsEmpty : X → error_return_t × X
  Transmit_Process : X → X
  LuosHAL_GetSystick : X → Nat × X
  RobusHAL_Init : X → X
  RobusHAL_Loop : X → X
  RobusHAL_ComInit : Nat → X → X
  PortMng_Init : port_t → X → port_t × X
  PortMng_PokeNextPort : port_t → X → error_return_t × port_t × X
  Topic_Subscribe : ll_service_t → Nat → error_return_t × ll_service_t
  Topic_Unsubscribe : ll_service_t → Nat → error_return_t × ll_service_t
  Topic_IsTopicSubscribed : ll_service_t → Nat → Bool

/-! ## Array accesses -/

/-- Read `xs[i]`. -/
def readAt {α : Type} (xs : List α) (i : Nat) : Except Fault α :=
  match xs[i]? with
  | some v => .ok v
  | none => .error .outOfBounds

/-- Write `xs[i] = v`. -/
def writeAt {α : Type} (xs : List α) (i : Nat) (v : α) : Except Fault (List α) :=
  if i < xs.length then .ok (xs.set i v) else .error .outOfBounds

/-- Bit `p % 8` of byte `p / 8` of a bit mask stored as bytes. -/
def maskBit (mask : List Nat) (p : Nat) : Bool :=
  (mask.getD (p / 8) 0).testBit (p % 8)

/-! ## Masks -/

/-- `Robus_MaskInit`: clear the shift and the `ID_MASK_SIZE` bytes of the mask. -/
def Robus_MaskInit (K : Config) (ctx : context_t) : context_t :=
  { ctx with IDShiftMask := 0, IDMask := List.replicate K.ID_MASK_SIZE 0 }

/-- One iteration of the loop of `Robus_IDMaskCalculation`:
`tempo = (service_id - 1) + i - 8 * ctx.IDShiftMask` as a `uint16_t`, then
`ctx.IDMask[tempo / 8] |= 1 << (tempo % 8)` on a `uint8_t`. -/
def Robus_IDMaskCalculation_step (service_id : Nat) (ctx : context_t) (i : Nat) :
    Except Fault context_t := do
  let tempo := (((service_id - 1) + i) - (8 * ctx.IDShiftMask)) % 65536
  let byte ← readAt ctx.IDMask (tempo / 8)
  let mask ← writeAt ctx.IDMask (tempo / 8) ((byte ||| (1 <<< (tempo % 8))) % 256)
  pure { ctx with IDMask := mask }

/-- `Robus_IDMaskCalculation(service_id, service_number)`. -/
def Robus_IDMaskCalculation (K : Config) (service_id service_number : Nat) (ctx : context_t) :
    Except Fault context_t :=
  if ¬ (service_id > 0) then .error .assert
  else if ¬ ((service_id : Int) ≤ 4096 - (K.MAX_SERVICE_NUMBER : Int)) then .error .assert
  else
    let ctx := { ctx with IDShiftMask := (service_id - 1) / 8 }
    (List.range service_number).foldlM (Robus_IDMaskCalculation_step service_id) ctx


/-! ## Network state -/

/-- `LuosHAL_GetSystick()`, a `uint32_t`. -/
def LuosHAL_GetSystick {X : Type} (E : Ext X) (x : X) : Nat × X :=
  ((E.LuosHAL_GetSystick x).1 % 2 ^ 32, (E.LuosHAL_GetSystick x).2)

/-- Difference `a - b` of two `uint32_t`. -/
def sub32 (a b : Nat) : Nat := (a + 2 ^ 32 - b % 2 ^ 32) % 2 ^ 32

/-- `Robus_IsNodeDetected`. -/
def Robus_IsNodeDetected {X : Type} (w : World X) : network_state_t :=
  w.ctx.node_connected.state

/-- `Robus_SetNodeDetected(state)`. -/
def Robus_SetNodeDetected {X : Type} (E : Ext X) (state : network_state_t) (w : World X) :
    World X :=
  let w : World X :=
    if state = NO_DETECTION then
      { w with ctx := { w.ctx with node_connected :=
          { w.ctx.node_connected with timeout_run := false, timeout := 0 } } }
    else if state = LOCAL_DETECTION ∨ state = EXTERNAL_DETECTION then
      { w with
          env := (LuosHAL_GetSystick E w.env).2
          ctx := { w.ctx with node_connected :=
            { w.ctx.node_connected with
                timeout_run := true, timeout := (LuosHAL_GetSystick E w.env).1 } } }
    else if state = DETECTION_OK then
      { w with ctx := { w.ctx with node_connected :=
          { w.ctx.node_connected with timeout_run := false, timeout := 0 } } }
    else w
  { w with ctx := { w.ctx with node_connected := { w.ctx.node_connected with state := state } } }

/-- `Robus_RunNetworkTimeout`. -/
def Robus_RunNetworkTimeout {X : Type} (E : Ext X) (w : World X) : World X :=
  if w.ctx.node_connected.timeout_run then
    let t := (LuosHAL_GetSystick E w.env).1
    let w : World X := { w with env := (LuosHAL_GetSystick E w.env).2 }
    if sub32 t w.ctx.node_connected.timeout > NETWORK_TIMEOUT then
      Robus_SetNodeDetected E NO_DETECTION w
    else w
  else w

/-! ## Services -/

/-- Read `*ll_service`. -/
def deref (ctx : context_t) (ll_service : service_ptr) : Except Fault ll_service_t :=
  match ll_service with
  | none => .error .badPointer
  | some i =>
    match ctx.ll_service_table[i]? with
    | some sv => .ok sv
    | none => .error .badPointer

/-- Write `*ll_service = sv`. -/
def store (ctx : context_t) (ll_service : service_ptr) (sv : ll_service_t) :
    Except Fault context_t :=
  match ll_service with
  | none => .error .badPointer
  | some i =>
    if i < ctx.ll_service_table.length then
      .ok { ctx with ll_service_table := ctx.ll_service_table.set i sv }
    else .error .badPointer

/-- A service whose bytes are all zero, with a topic list of `LAST_TOPIC` entries. -/
def ll_service_zero (K : Config) : ll_service_t :=
  { id := 0, type := 0, dead_service_spotted := 0, max_retry := 0,
    last_topic_position := 0, topic_list := List.replicate K.LAST_TOPIC 0 }

/-- `Robus_ServiceCreate(type)`: returns the pointer to the new service. -/
def Robus_ServiceCreate (K : Config) (type : Nat) (ctx : context_t) :
    Except Fault (service_ptr × context_t) := do
  let sv ← readAt ctx.ll_service_table ctx.ll_service_number
  let sv : ll_service_t :=
    { sv with type := type, id := DEFAULTID, dead_service_spotted := 0, max_retry := 0,
              last_topic_position := 0, topic_list := List.replicate K.LAST_TOPIC 0 }
  let table ← writeAt ctx.ll_service_table ctx.ll_service_number sv
  pure (some ctx.ll_service_number,
    { ctx with ll_service_table := table, ll_service_number := ctx.ll_service_number + 1 })

/-- `Robus_ServicesClear`. -/
def Robus_ServicesClear (K : Config) (ctx : context_t) : context_t :=
  { ctx with
      ll_service_table := List.replicate K.MAX_SERVICE_NUMBER (ll_service_zero K)
      ll_service_number := 0 }

/-! ## Transmission -/

/-- `Robus_SetTxTask(ll_service, msg)`.  The sizes are `uint16_t`. -/
def Robus_SetTxTask {X : Type} (K : Config) (E : Ext X) (ll_service : service_ptr)
    (msg : msg_t) (w : World X) : error_return_t × World X :=
  if msg.header.cmd ≥ K.LUOS_LAST_RESERVED_CMD ∧ Robus_IsNodeDetected w ≠ DETECTION_OK then
    (PROHIBITED, w)
  else
    let data_size :=
      if msg.header.size > K.MAX_DATA_MSG_SIZE then K.MAX_DATA_MSG_SIZE else msg.header.size
    let full_size := (K.sizeof_header_t + data_size + K.CRC_SIZE) % 65536
    let crc_max_index := full_size
    let full_size :=
      if E.Timestamp_IsTimestampMsg msg = true then (full_size + K.sizeof_time_luos_t) % 65536
      else full_size
    let crc_val := E.ll_crc_compute msg (crc_max_index - K.CRC_SIZE) 0xFFFF
    let localhost := E.Recep_NodeConcerned w.ctx msg.header
    let needAck : Bool :=
      (msg.header.target_mode = SERVICEIDACK ∨ msg.header.target_mode = NODEIDACK) ∧
      ((localhost ≠ 0 ∧ msg.header.target ≠ DEFAULTID) ∨ w.ctx.verbose = MULTIHOST)
    let ack := if needAck then w.ctx.rx_status else 0
    let full_size := if needAck then (full_size + 1) % 65536 else full_size
    let r := E.MsgAlloc_SetTxTask ll_service msg crc_val full_size localhost ack w.env
    let error := if r.1 = FAILED then FAILED else SUCCEED
    let w : World X :=
      { w with env := r.2
               log := w.log ++ [Call.SetTxTask ll_service msg crc_val full_size localhost ack] }
    let w : World X :=
      if K.VERBOSE_LOCALHOST = true ∨ localhost ≠ LOCALHOST then
        { w with env := E.Transmit_Process w.env, log := w.log ++ [Call.Transmit_Process] }
      else w
    (error, w)

/-- `Robus_SendMsg(ll_service, msg)`: returns the status, the message as the
call leaves it (its source is written) and the new state. -/
def Robus_SendMsg {X : Type} (K : Config) (E : Ext X) (ll_service : service_ptr)
    (msg : msg_t) (w : World X) : Except Fault (error_return_t × msg_t × World X) := do
  let sv ← deref w.ctx ll_service
  let msg : msg_t :=
    if sv.id ≠ 0 then { msg with header := { msg.header with source := sv.id } }
    else { msg with header := { msg.header with source := w.ctx.node.node_id } }
  let r := Robus_SetTxTask K E ll_service msg w
  if r.1 = FAILED then pure (FAILED, msg, r.2) else pure (SUCCEED, msg, r.2)

/-! ## Busy waits

Every loop whose exit depends on the environment takes a bound on the number
of iterations; when the bound is reached the run stops with `Fault.fuel`. -/

/-- `while (MsgAlloc_TxAllComplete() != SUCCEED);`. -/
def wait_TxAllComplete_ne_SUCCEED {X : Type} (E : Ext X) : Nat → X → Except Fault X
  | 0, _ => .error .fuel
  | fuel + 1, x =>
    if (E.MsgAlloc_TxAllComplete x).1 ≠ SUCCEED then
      wait_TxAllComplete_ne_SUCCEED E fuel (E.MsgAlloc_TxAllComplete x).2
    else .ok (E.MsgAlloc_TxAllComplete x).2

/-- `while (MsgAlloc_TxAllComplete() == FAILED);`. -/
def wait_TxAllComplete_eq_FAILED {X : Type} (E : Ext X) : Nat → X → Except Fault X
  | 0, _ => .error .fuel
  | fuel + 1, x =>
    if (E.MsgAlloc_TxAllComplete x).1 = FAILED then
      wait_TxAllComplete_eq_FAILED E fuel (E.MsgAlloc_TxAllComplete x).2
    else .ok (E.MsgAlloc_TxAllComplete x).2

/-- `while (LuosHAL_GetSystick() - start_tick < 2);`. -/
def wait_2ms {X : Type} (E : Ext X) (start_tick : Nat) : Nat → X → Except Fault X
  | 0, _ => .error .fuel
  | fuel + 1, x =>
    if sub32 (LuosHAL_GetSystick E x).1 start_tick < 2 then
      wait_2ms E start_tick fuel (LuosHAL_GetSystick E x).2
    else .ok (LuosHAL_GetSystick E x).2

/-! ## Detection -/

/-- The message that `Robus_ResetNetworkDetection` broadcasts; `source` is
written by `Robus_SendMsg` before anything reads it. -/
def start_detection_msg (K : Config) : msg_t :=
  { header := { config := K.BASE_PROTOCOL, target := BROADCAST_VAL, target_mode := BROADCAST,
                cmd := K.START_DETECTION, size := 0, source := 0 },
    data := [] }

/-- The `do ... while` loop of `Robus_ResetNetworkDetection`, entered with the
message and `try_nbr` (a `uint8_t`).  The result is `none` when the body
returns `0` from the function, and the final `try_nbr` when the loop is left. -/
def Robus_ResetNetworkDetection_loop {X : Type} (K : Config) (E : Ext X)
    (ll_service : service_ptr) (fuel : Nat) :
    Nat → msg_t → Nat → World X → Except Fault (Option Nat × World X)
  | 0, _, _, _ => .error .fuel
  | n + 1, msg, try_nbr, w => do
    if Robus_IsNodeDetected w ≥ LOCAL_DETECTION then
      pure (none, w)
    else
      let sent ← Robus_SendMsg K E ll_service msg w
      let msg := sent.2.1
      let w := sent.2.2
      let x ← wait_TxAllComplete_ne_SUCCEED E fuel w.env
      let x := E.MsgAlloc_Init false x
      let start_tick := (LuosHAL_GetSystick E x).1
      let x ← wait_2ms E start_tick fuel (LuosHAL_GetSystick E x).2
      let try_nbr := (try_nbr + 1) % 256
      let empty := E.MsgAlloc_IsEmpty x
      let w : World X := { w with env := empty.2 }
      if empty.1 ≠ SUCCEED ∨ try_nbr > 5 then
        Robus_ResetNetworkDetection_loop K E ll_service fuel n msg try_nbr w
      else pure (some try_nbr, w)

/-- `Robus_ResetNetworkDetection(ll_service)`.  The early `return 0;` yields the
enumerator of value 0, which is `SUCCEED`, the first one of `error_return_t`;
the only caller discards the result. -/
def Robus_ResetNetworkDetection {X : Type} (K : Config) (E : Ext X) (fuel : Nat)
    (ll_service : service_ptr) (w : World X) : Except Fault (error_return_t × World X) := do
  let r ← Robus_ResetNetworkDetection_loop K E ll_service fuel fuel (start_detection_msg K) 0 w
  match r with
  | (none, w) => pure (SUCCEED, w)
  | (some try_nbr, w) =>
    let w : World X := { w with ctx := { w.ctx with node := { w.ctx.node with node_id := 0 } } }
    let p := E.PortMng_Init w.ctx.port w.env
    let w : World X := { w with ctx := { w.ctx with port := p.1 }, env := p.2 }
    if try_nbr < 5 then
      pure (SUCCEED, Robus_SetNodeDetected E LOCAL_DETECTION w)
    else pure (FAILED, w)

/-- The message with which `Robus_DetectNextNodes` asks the detector for an ID. -/
def ask_node_id_msg (K : Config) : msg_t :=
  { header := { config := K.BASE_PROTOCOL, target_mode := NODEIDACK, target := 1,
                cmd := K.WRITE_NODE_ID, size := 0, source := 0 },
    data := [] }

/-- Little-endian value of two bytes, as `memcpy` into a `uint16_t` reads them. -/
def le16 (b0 b1 : Nat) : Nat := b0 + 256 * b1

/-- Little-endian value of four bytes, as `memcpy` into a `uint32_t` reads them. -/
def le32 (b0 b1 b2 b3 : Nat) : Nat := b0 + 256 * b1 + 65536 * b2 + 16777216 * b3

/-- The two bytes of a `uint16_t`, as `memcpy` from it writes them. -/
def bytes16 (v : Nat) : List Nat := [v % 256, v / 256 % 256]

mutual

/-- `Robus_MsgHandler(input)`. -/
def Robus_MsgHandler {X : Type} (K : Config) (E : Ext X) :
    Nat → msg_t → World X → Except Fault (error_return_t × World X)
  | fuel, input, w =>
    let ll_service := E.Recep_GetConcernedLLService w.ctx input.header
    if input.header.cmd = K.WRITE_NODE_ID then
      if input.header.size = 0 then do
        let w : World X := { w with last_node := (w.last_node + 1) % 65536 }
        let output_msg : msg_t :=
          { header := { config := K.BASE_PROTOCOL, cmd := K.WRITE_NODE_ID, size := 2,
                        target := input.header.source, target_mode := NODEIDACK, source := 0 },
            data := bytes16 w.last_node }
        let sent ← Robus_SendMsg K E ll_service output_msg w
        pure (SUCCEED, sent.2.2)
      else if input.header.size = 2 then do
        let b0 ← readAt input.data 0
        let b1 ← readAt input.data 1
        let port_table ← writeAt w.ctx.node.port_table w.ctx.port.activ (le16 b0 b1)
        let w : World X :=
          { w with ctx := { w.ctx with node := { w.ctx.node with port_table := port_table } } }
        let nodeid := le16 b0 b1
        let prev_nodeid := w.ctx.node.node_id
        let output_msg : msg_t :=
          { header := { config := K.BASE_PROTOCOL, cmd := K.WRITE_NODE_ID, size := 4,
                        target := 0, target_mode := NODEIDACK, source := 0 },
            data := bytes16 prev_nodeid ++ bytes16 nodeid }
        let sent ← Robus_SendMsg K E ll_service output_msg w
        pure (SUCCEED, sent.2.2)
      else if input.header.size = 4 then do
        let w : World X :=
          if w.ctx.node.node_id ≠ 0 then
            { w with ctx := { w.ctx with node := { w.ctx.node with node_id := 0 } }
                     env := E.MsgAlloc_Init false w.env }
          else w
        let b0 ← readAt input.data 0
        let b1 ← readAt input.data 1
        let b2 ← readAt input.data 2
        let b3 ← readAt input.data 3
        let w : World X :=
          { w with ctx := { w.ctx with node := { w.ctx.node with node_id := le16 b2 b3 } } }
        let port_table ← writeAt w.ctx.node.port_table w.ctx.port.activ (le16 b0 b1)
        let w : World X :=
          { w with ctx := { w.ctx with node := { w.ctx.node with port_table := port_table } } }
        match fuel with
        | 0 => .error .fuel
        | fuel + 1 => do
          let r ← Robus_DetectNextNodes K E fuel ll_service w
          pure (SUCCEED, r.2)
      else pure (SUCCEED, w)
    else if input.header.cmd = K.START_DETECTION then
      pure (SUCCEED, w)
    else if input.header.cmd = K.END_DETECTION then
      pure (FAILED, Robus_SetNodeDetected E DETECTION_OK w)
    else if input.header.cmd = K.SET_BAUDRATE then do
      let x ← wait_TxAllComplete_eq_FAILED E fuel w.env
      let b0 ← readAt input.data 0
      let b1 ← readAt input.data 1
      let b2 ← readAt input.data 2
      let b3 ← readAt input.data 3
      let baudrate := le32 b0 b1 b2 b3
      pure (SUCCEED, { w with env := E.RobusHAL_ComInit baudrate x })
    else pure (FAILED, w)

/-- `Robus_DetectNextNodes(ll_service)`: one call is one test of the outer
`while`, followed by the rest of the loop. -/
def Robus_DetectNextNodes {X : Type} (K : Config) (E : Ext X) :
    Nat → service_ptr → World X → Except Fault (error_return_t × World X)
  | fuel, ll_service, w =>
    let poke := E.PortMng_PokeNextPort w.ctx.port w.env
    let w : World X := { w with ctx := { w.ctx with port := poke.2.1 }, env := poke.2.2 }
    if poke.1 = SUCCEED then
      match fuel with
      | 0 => .error .fuel
      | fuel + 1 => do
        let sv ← deref w.ctx ll_service
        let ctx ← store w.ctx ll_service { sv with dead_service_spotted := 0 }
        let w : World X := { w with ctx := ctx }
        let sent ← Robus_SendMsg K E ll_service (ask_node_id_msg K) w
        let w := sent.2.2
        let x ← wait_TxAllComplete_eq_FAILED E fuel w.env
        let w : World X := { w with env := x }
        let sv ← deref w.ctx ll_service
        if sv.dead_service_spotted ≠ 0 then do
          let port_table ← writeAt w.ctx.node.port_table w.ctx.port.activ 0xFFFF
          let w : World X :=
            { w with ctx := { w.ctx with
                node := { w.ctx.node with port_table := port_table }
                port := { w.ctx.port with activ := K.NBR_PORT, keepLine := false } } }
          Robus_DetectNextNodes K E fuel ll_service w
        else do
          let start_tick := (LuosHAL_GetSystick E w.env).1
          let w : World X := { w with env := (LuosHAL_GetSystick E w.env).2 }
          let r ← Robus_DetectNextNodes_wait K E fuel start_tick w
          if r.1 = true then pure (FAILED, r.2)
          else Robus_DetectNextNodes K E fuel ll_service r.2
    else pure (SUCCEED, w)

/-- The loop `while (ctx.port.keepLine)` of `Robus_DetectNextNodes`; the result
is `true` when the loop leaves the function with `return FAILED`. -/
def Robus_DetectNextNodes_wait {X : Type} (K : Config) (E : Ext X) :
    Nat → Nat → World X → Except Fault (Bool × World X)
  | fuel, start_tick, w =>
    if w.ctx.port.keepLine = true then
      match fuel with
      | 0 => .error .fuel
      | fuel + 1 => do
        let w ← Robus_Loop K E fuel w
        let t := (LuosHAL_GetSystick E w.env).1
        let w : World X := { w with env := (LuosHAL_GetSystick E w.env).2 }
        if sub32 t start_tick > NETWORK_TIMEOUT then pure (true, w)
        else Robus_DetectNextNodes_wait K E fuel start_tick w
    else pure (false, w)

/-- `Robus_Loop`. -/
def Robus_Loop {X : Type} (K : Config) (E : Ext X) : Nat → World X → Except Fault (World X)
  | 0, _ => .error .fuel
  | fuel + 1, w => do
    let w := Robus_RunNetworkTimeout E w
    let w : World X := { w with env := E.MsgAlloc_loop w.env }
    let w ← Robus_Loop_pull K E fuel w
    pure { w with env := E.RobusHAL_Loop w.env }

/-- The loop `while (MsgAlloc_PullMsgToInterpret(&msg) == SUCCEED)` of `Robus_Loop`. -/
def Robus_Loop_pull {X : Type} (K : Config) (E : Ext X) : Nat → World X → Except Fault (World X)
  | fuel, w =>
    match E.MsgAlloc_PullMsgToInterpret w.env with
    | (none, x) => pure { w with env := x }
    | (some msg, x) =>
      match fuel with
      | 0 => .error .fuel
      | fuel + 1 => do
        let r ← Robus_MsgHandler K E fuel msg { w with env := x }
        let w := r.2
        let w : World X :=
          if r.1 = FAILED then { w with env := E.Recep_InterpretMsgProtocol msg w.env } else w
        Robus_Loop_pull K E fuel w

end

/-- The loop `while (detect_enabled)` of `Robus_TopologyDetection`, entered with
`redetect_nb` (a `uint8_t`); the result is the returned node count. -/
def Robus_TopologyDetection_loop {X : Type} (K : Config) (E : Ext X)
    (ll_service : service_ptr) (fuel : Nat) : Nat → Nat → World X → Except Fault (Nat × World X)
  | 0, _, _ => .error .fuel
  | n + 1, redetect_nb, w => do
    let reset ← Robus_ResetNetworkDetection K E fuel ll_service w
    let w := reset.2
    if Robus_IsNodeDetected w = EXTERNAL_DETECTION then
      pure (0, w)
    else
      let w : World X :=
        { w with ctx := { w.ctx with node := { w.ctx.node with node_id := 1 } }, last_node := 1 }
      let sv ← deref w.ctx ll_service
      let ctx ← store w.ctx ll_service { sv with id := 1 }
      let w : World X := { w with ctx := ctx }
      let r ← Robus_DetectNextNodes K E fuel ll_service w
      let w := r.2
      if r.1 = FAILED then
        if ¬ (redetect_nb ≤ 4) then .error .assert
        else Robus_TopologyDetection_loop K E ll_service fuel n ((redetect_nb + 1) % 256) w
      else pure (w.last_node, w)

/-- `Robus_TopologyDetection(ll_service)`: the number of detected nodes. -/
def Robus_TopologyDetection {X : Type} (K : Config) (E : Ext X) (fuel : Nat)
    (ll_service : service_ptr) (w : World X) : Except Fault (Nat × World X) :=
  if Robus_IsNodeDetected w ≥ LOCAL_DETECTION then pure (0, w)
  else Robus_TopologyDetection_loop K E ll_service fuel fuel 0 w

/-! ## Accessors and modes -/

/-- `Robus_GetNode`. -/
def Robus_GetNode {X : Type} (w : World X) : node_t := w.ctx.node

/-- `Robus_SetFilterState(state, service)`. -/
def Robus_SetFilterState (state : Nat) (service : service_ptr) (ctx : context_t) :
    Except Fault context_t := do
  let sv ← deref ctx service
  pure { ctx with filter_state := state, filter_id := sv.id }

/-- `Robus_SetVerboseMode(mode)`. -/
def Robus_SetVerboseMode (mode : Nat) (ctx : context_t) : context_t :=
  { ctx with verbose := mode + 1 }

/-! ## Topics -/

/-- The service a topic call acts on: `&ctx.ll_service_table[0]` when the pointer
it was given is null. -/
def topic_target (ll_service : service_ptr) : service_ptr :=
  if ll_service = none then some 0 else ll_service

/-- `Robus_TopicSubscribe(ll_service, topic_id)`; the mask bytes are `uint8_t`. -/
def Robus_TopicSubscribe {X : Type} (K : Config) (E : Ext X) (ll_service : service_ptr)
    (topic_id : Nat) (ctx : context_t) : Except Fault (error_return_t × context_t) := do
  if ¬ (topic_id ≤ K.LAST_TOPIC) then .error .assert
  else
    let byte ← readAt ctx.TopicMask (topic_id / 8)
    let mask ← writeAt ctx.TopicMask (topic_id / 8)
      ((byte ||| (1 <<< (topic_id - (topic_id / 8) * 8))) % 256)
    let ctx := { ctx with TopicMask := mask }
    let target := topic_target ll_service
    let sv ← deref ctx target
    let r := E.Topic_Subscribe sv topic_id
    let ctx ← store ctx target r.2
    pure (r.1, ctx)

/-- The `for` loop of `Robus_TopicUnsubscribe` over the service indices still to
visit: `true` when it finds a service subscribed to the topic. -/
def Robus_TopicUnsubscribe_scan {X : Type} (E : Ext X) (ctx : context_t) (topic_id : Nat) :
    List Nat → Except Fault Bool
  | [] => pure false
  | i :: rest => do
    let sv ← readAt ctx.ll_service_table i
    if E.Topic_IsTopicSubscribed sv topic_id = true then pure true
    else Robus_TopicUnsubscribe_scan E ctx topic_id rest

/-- `Robus_TopicUnsubscribe(ll_service, topic_id)`; the mask bytes are `uint8_t`. -/
def Robus_TopicUnsubscribe {X : Type} (E : Ext X) (ll_service : service_ptr)
    (topic_id : Nat) (ctx : context_t) : Except Fault (error_return_t × context_t) := do
  let target := topic_target ll_service
  let sv ← deref ctx target
  let r := E.Topic_Unsubscribe sv topic_id
  let ctx ← store ctx target r.2
  let err := r.1
  if err = SUCCEED then
    let found ← Robus_TopicUnsubscribe_scan E ctx topic_id (List.range ctx.ll_service_number)
    if found = true then pure (err, ctx)
    else
      let byte ← readAt ctx.TopicMask (topic_id / 8)
      let mask ← writeAt ctx.TopicMask (topic_id / 8)
        ((byte + 256 - (1 <<< (topic_id - (topic_id / 8) * 8))) % 256)
      pure (err, { ctx with TopicMask := mask })
  else pure (err, ctx)

/-! ## Initialisation -/

/-- `Robus_Init(memory_stats)`.  Writing `0xF` to the four-bit field
`ctx.rx.status.identifier` sets the four bits of the status byte from
`IDENTIFIER_SHIFT` on. -/
def Robus_Init {X : Type} (K : Config) (E : Ext X) (w : World X) : World X :=
  let ctx := w.ctx
  let ctx := { ctx with ll_service_number := 0 }
  let ctx := { ctx with node := { ctx.node with node_id := DEFAULTID } }
  let ctx := { ctx with node := { ctx.node with certified := false } }
  let ctx := { ctx with node := { ctx.node with node_info := 0 } }
  let ctx :=
    if K.NO_RTB = true then
      { ctx with node := { ctx.node with node_info := ctx.node.node_info ||| (1 <<< 0) } }
    else ctx
  let ctx := { ctx with tx := { lock := false, collision := false, status := K.TX_DISABLE } }
  let baudrate := K.DEFAULTBAUDRATE
  let ctx := Robus_MaskInit K ctx
  let ctx := { ctx with TopicMask := List.replicate K.TOPIC_MASK_SIZE 0 }
  let x := E.Recep_Init w.env
  let x := E.MsgAlloc_Init true x
  let x := E.RobusHAL_Init x
  let p := E.PortMng_Init ctx.port x
  let ctx := { ctx with port := p.1 }
  let x := p.2
  let ctx := { ctx with rx_status := 0 }
  let ctx := { ctx with rx_status := (ctx.rx_status ||| (0xF <<< K.IDENTIFIER_SHIFT)) % 256 }
  Robus_SetNodeDetected E NO_DETECTION
    { w with ctx := ctx, baudrate := baudrate, env := x }

/-! ## Observations on a run -/

/-- The messages handed to `MsgAlloc_SetTxTask`, oldest first. -/
def staged (log : List Call) : List msg_t :=
  log.filterMap fun c =>
    match c with
    | Call.SetTxTask _ msg _ _ _ _ => some msg
    | Call.Transmit_Process => none

/-- The node ID that the first two data bytes of a message carry. -/
def carried_id (msg : msg_t) : Nat := le16 (msg.data.getD 0 0) (msg.data.getD 1 0)

/-- The source that `Robus_SendMsg` writes in a message sent by service `sv`. -/
def sender_id (sv : ll_service_t) (ctx : context_t) : Nat :=
  if sv.id ≠ 0 then sv.id else ctx.node.node_id

/-- The reply to a request for a node ID, as the detector is expected to stage
it: `WRITE_NODE_ID` of size 2 in mode `NODEIDACK` to the source of the request,
carrying `id` in little-endian order. -/
def expected_id_reply (K : Config) (request : msg_t) (source id : Nat) : msg_t :=
  { header := { config := K.BASE_PROTOCOL, target_mode := NODEIDACK,
                target := request.header.source, source := source,
                cmd := K.WRITE_NODE_ID, size := 2 },
    data := [id % 256, id / 256 % 256] }

/-- The bootstrap message that a node is expected to forward to its neighbour:
`WRITE_NODE_ID` of size 4 in mode `NODEIDACK` to target 0, carrying
`{prev_nodeid, nodeid}` in little-endian order. -/
def expected_bootstrap (K : Config) (source prev_nodeid nodeid : Nat) : msg_t :=
  { header := { config := K.BASE_PROTOCOL, target_mode := NODEIDACK, target := 0,
                source := source, cmd := K.WRITE_NODE_ID, size := 4 },
    data := [prev_nodeid % 256, prev_nodeid / 256 % 256, nodeid % 256, nodeid / 256 % 256] }

/-- The state of the collaborators after `n` calls of `MsgAlloc_TxAllComplete`. -/
def tx_polls {X : Type} (E : Ext X) : Nat → X → X
  | 0, x => x
  | n + 1, x => tx_polls E n (E.MsgAlloc_TxAllComplete x).2

/-- The state of the collaborators after `n` readings of the tick. -/
def tick_polls {X : Type} (E : Ext X) : Nat → X → X
  | 0, x => x
  | n + 1, x => tick_polls E n (LuosHAL_GetSystick E x).2

/-- The messages of a list handled by `Robus_MsgHandler` one after the other,
as successive turns of the loop of `Robus_Loop` do. -/
def handle_all {X : Type} (K : Config) (E : Ext X) (fuel : Nat) :
    List msg_t → World X → Except Fault (World X)
  | [], w => pure w
  | msg :: rest, w => do
    let r ← Robus_MsgHandler K E fuel msg w
    handle_all K E fuel rest r.2

/-! ## A concrete configuration and environment

Used to evaluate the model on concrete inputs. -/

/-- A configuration to evaluate the model with: the defaults that the spec
lists (`MAX_SERVICE_NUMBER = 5`, `NBR_PORT = 2`, a 2-byte CRC) and, for the
constants it leaves to the implementation (mask sizes, `LAST_TOPIC`, sizes of
the header and of the timestamp, command numbers), values that satisfy the
relations the code relies on. -/
def exampleConfig : Config :=
  { MAX_SERVICE_NUMBER := 5, ID_MASK_SIZE := 2, LAST_TOPIC := 20, TOPIC_MASK_SIZE := 4,
    NBR_PORT := 2, MAX_DATA_MSG_SIZE := 128, sizeof_header_t := 7, sizeof_time_luos_t := 8,
    CRC_SIZE := 2, DEFAULTBAUDRATE := 1000000, BASE_PROTOCOL := 0, TX_DISABLE := 0,
    WRITE_NODE_ID := 0, START_DETECTION := 1, END_DETECTION := 2, SET_BAUDRATE := 3,
    LUOS_LAST_RESERVED_CMD := 42, NO_RTB := false, VERBOSE_LOCALHOST := false,
    IDENTIFIER_SHIFT := 4 }

/-- Modelled from the spec: `Topic_IsTopicSubscribed` of the absent `topic.c`;
the topics of a service are the first `last_topic_position` entries of its
`topic_list`. -/
def Topic_IsTopicSubscribed (sv : ll_service_t) (topic_id : Nat) : Bool :=
  decide (topic_id ∈ sv.topic_list.take sv.last_topic_position)

/-- Modelled from the spec: `Topic_Subscribe` of the absent `topic.c`; adds the
topic to the service's list unless it is there already, and fails when the list
is full. -/
def Topic_Subscribe (sv : ll_service_t) (topic_id : Nat) : error_return_t × ll_service_t :=
  if Topic_IsTopicSubscribed sv topic_id = true then (SUCCEED, sv)
  else if sv.last_topic_position < sv.topic_list.length then
    (SUCCEED, { sv with topic_list := sv.topic_list.set sv.last_topic_position topic_id
                        last_topic_position := sv.last_topic_position + 1 })
  else (FAILED, sv)

/-- Modelled from the spec: `Topic_Unsubscribe` of the absent `topic.c`; removes
the topic from the service's list, and fails when the service does not
subscribe to it. -/
def Topic_Unsubscribe (sv : ll_service_t) (topic_id : Nat) : error_return_t × ll_service_t :=
  if Topic_IsTopicSubscribed sv topic_id = true then
    (SUCCEED, { sv with
      topic_list := (sv.topic_list.take sv.last_topic_position).filter (fun t => t ≠ topic_id)
        ++ List.replicate (sv.topic_list.length
            - ((sv.topic_list.take sv.last_topic_position).filter (fun t => t ≠ topic_id)).length) 0
      last_topic_position :=
        ((sv.topic_list.take sv.last_topic_position).filter (fun t => t ≠ topic_id)).length })
  else (FAILED, sv)

/-- An environment to evaluate the model in: a single node on an idle bus.  The
state of the collaborators is the millisecond tick, which advances at every
reading; the TX queue is always drained, the allocator is empty, no port poke
succeeds, every message concerns the first service and leaves the node, and
the CRC of a message is left at its seed.  The topic helpers are the ones
modelled above. -/
def exampleExt : Ext Nat :=
  { Recep_GetConcernedLLService := fun _ _ => some 0
    Recep_NodeConcerned := fun _ _ => EXTERNALHOST
    Recep_Init := fun x => x
    Recep_InterpretMsgProtocol := fun _ x => x
    Timestamp_IsTimestampMsg := fun _ => false
    ll_crc_compute := fun _ _ seed => seed
    MsgAlloc_Init := fun _ x => x
    MsgAlloc_loop := fun x => x
    MsgAlloc_PullMsgToInterpret := fun x => (none, x)
    MsgAlloc_SetTxTask := fun _ _ _ _ _ _ x => (SUCCEED, x)
    MsgAlloc_TxAllComplete := fun x => (SUCCEED, x)
    MsgAlloc_IsEmpty := fun x => (SUCCEED, x)
    Transmit_Process := fun x => x
    LuosHAL_GetSystick := fun x => (x, x + 1)
    RobusHAL_Init := fun x => x
    RobusHAL_Loop := fun x => x
    RobusHAL_ComInit := fun _ x => x
    PortMng_Init := fun _ x => ({ activ := 2, keepLine := false }, x)
    PortMng_PokeNextPort := fun p x => (FAILED, p, x)
    Topic_Subscribe := Topic_Subscribe
    Topic_Unsubscribe := Topic_Unsubscribe
    Topic_IsTopicSubscribed := Topic_IsTopicSubscribed }

/-- A context with every field zero, `MAX_SERVICE_NUMBER` services of which
`n` are created, `NBR_PORT` ports and masks of the configured sizes. -/
def exampleCtx (K : Config) (n : Nat) : context_t :=
  { ll_service_number := n
    ll_service_table := List.replicate K.MAX_SERVICE_NUMBER (ll_service_zero K)
    node := { node_id := 0, certified := false, node_info := 0,
              port_table := List.replicate K.NBR_PORT 0 }
    tx := { lock := false, collision := false, status := 0 }
    rx_status := 0
    IDShiftMask := 0
    IDMask := List.replicate K.ID_MASK_SIZE 0
    TopicMask := List.replicate K.TOPIC_MASK_SIZE 0
    node_connected := { state := NO_DETECTION, timeout_run := false, timeout := 0 }
    port := { activ := 0, keepLine := false }
    filter_state := 0
    filter_id := 0
    verbose := 0 }

/-- A world around `exampleCtx` at tick `t`, with an empty log. -/
def exampleWorld (K : Config) (n t : Nat) : World Nat :=
  { ctx := exampleCtx K n, last_node := 0, baudrate := 0, env := t, log := [] }

/-- The example context with two created services, the first of which has
subscribed to topic 7. -/
def exampleTopicCtx : context_t :=
  { exampleCtx exampleConfig 2 with
      TopicMask := [128, 0, 0, 0]
      ll_service_table :=
        { ll_service_zero exampleConfig with
            topic_list := 7 :: List.replicate 19 0, last_topic_position := 1 }
          :: List.replicate 4 (ll_service_zero exampleConfig) }

/-- A request for a node ID (`WRITE_NODE_ID` of size 0 to the detector) from `source`. -/
def exampleRequest (source : Nat) : msg_t :=
  { header := { config := 0, target_mode := NODEIDACK, target := 1, source := source,
                cmd := exampleConfig.WRITE_NODE_ID, size := 0 },
    data := [] }

/-- The example node once it has promoted itself to detector: `node_id = 1`,
`last_node = 1`, first service of ID 1. -/
def exampleDetector : World Nat :=
  { exampleWorld exampleConfig 1 0 with
      last_node := 1
      ctx := { exampleCtx exampleConfig 1 with
        node := { (exampleCtx exampleConfig 1).node with node_id := 1 }
        ll_service_table :=
          { ll_service_zero exampleConfig with id := 1 }
            :: List.replicate 4 (ll_service_zero exampleConfig) } }

/-- The condition under which `Robus_SetTxTask` appends the ACK byte, as the code
tests it: a `*ACK` target mode, and either a message that concerns this node
with a target other than `DEFAULTID`, or the verbose mode `MULTIHOST`. -/
def ack_appended {X : Type} (E : Ext X) (msg : msg_t) (ctx : context_t) : Prop :=
  (msg.header.target_mode = SERVICEIDACK ∨ msg.header.target_mode = NODEIDACK) ∧
  ((E.Recep_NodeConcerned ctx msg.header ≠ 0 ∧ msg.header.target ≠ DEFAULTID) ∨
    ctx.verbose = MULTIHOST)

instance {X : Type} (E : Ext X) (msg : msg_t) (ctx : context_t) :
    Decidable (ack_appended E msg ctx) := by
  unfold ack_appended; infer_instance

/-- The example environment with messages that are all timestamped and a CRC
unit whose result tells how many bytes it was asked to cover: the seed plus the
length, as a `uint16_t`. -/
def timestampExt : Ext Nat :=
  { exampleExt with
      Timestamp_IsTimestampMsg := fun _ => true
      ll_crc_compute := fun _ len seed => (seed + len) % 65536 }

/-- A message of a reserved command (`WRITE_NODE_ID`) with the given target
mode, target and size field, and no data written. -/
def exampleMsg (target_mode target size : Nat) : msg_t :=
  { header := { config := 0, target_mode := target_mode, target := target, source := 1,
                cmd := exampleConfig.WRITE_NODE_ID, size := size },
    data := [] }

/-- The context of the example node after this sequence of calls: create a
service, subscribe it to topic 3, and call `Robus_Init` again (which clears the
topic mask and the number of services, not the service table). -/
def exampleReinitCtx : Except Fault context_t := do
  let created ← Robus_ServiceCreate exampleConfig 0 (exampleCtx exampleConfig 0)
  let subscribed ← Robus_TopicSubscribe exampleConfig exampleExt created.1 3 created.2
  pure (Robus_Init exampleConfig exampleExt
    { exampleWorld exampleConfig 0 0 with ctx := subscribed.2 }).ctx

/-- The example environment with an allocator that never reports empty: TX
always drains, the tick advances, `MsgAlloc_IsEmpty` returns `FAILED`. -/
def neverEmptyExt : Ext Nat :=
  { exampleExt with MsgAlloc_IsEmpty := fun x => (FAILED, x) }

/-- One turn of the loop of `Robus_TopologyDetection`, up to the result of the
walk: the reset, the test for a foreign detection, the self-promotion and
`Robus_DetectNextNodes`.  The result is `none` when the turn leaves the
function with `return 0`, and the status of the walk otherwise. -/
def Robus_TopologyDetection_attempt {X : Type} (K : Config) (E : Ext X) (fuel : Nat)
    (ll_service : service_ptr) (w : World X) :
    Except Fault (Option error_return_t × World X) := do
  let reset ← Robus_ResetNetworkDetection K E fuel ll_service w
  let w := reset.2
  if Robus_IsNodeDetected w = EXTERNAL_DETECTION then
    pure (none, w)
  else
    let w : World X :=
      { w with ctx := { w.ctx with node := { w.ctx.node with node_id := 1 } }, last_node := 1 }
    let sv ← deref w.ctx ll_service
    let ctx ← store w.ctx ll_service { sv with id := 1 }
    let w : World X := { w with ctx := ctx }
    let r ← Robus_DetectNextNodes K E fuel ll_service w
    pure (some r.1, r.2)

/-- The example environment with a neighbour that answers every poke and then
never completes its branch: `PortMng_PokeNextPort` succeeds on port 0 and keeps
the line, and the tick advances by 20 s at every reading, so that each walk runs
into `NETWORK_TIMEOUT`. -/
def stuckExt : Ext Nat :=
  { exampleExt with
      LuosHAL_GetSystick := fun x => (x, x + 20000)
      PortMng_PokeNextPort := fun _ x => (SUCCEED, { activ := 0, keepLine := true }, x) }

/-- The worlds that the example node goes through in `stuckExt` when it starts
a detection: world `i + 1` is the one that the `i + 1`-th turn of the loop of
`Robus_TopologyDetection` leaves. -/
def stuckWorlds : Nat → World Nat
  | 0 => exampleWorld exampleConfig 1 0
  | i + 1 =>
    match Robus_TopologyDetection_attempt exampleConfig stuckExt 6 (some 0) (stuckWorlds i) with
    | .ok r => r.2
    | .error _ => stuckWorlds i

/-- The timer of `ctx.node_connected` runs exactly in the two detection states. -/
def timer_matches_state (c : node_connected_t) : Prop :=
  c.timeout_run = true ↔ (c.state = LOCAL_DETECTION ∨ c.state = EXTERNAL_DETECTION)

instance (c : node_connected_t) : Decidable (timer_matches_state c) := by
  unfold timer_matches_state; infer_instance

/-- The worlds reachable from `Robus_Init` by calls of `Robus_SetNodeDetected`
with one of the four values of `network_state_t`, of `Robus_RunNetworkTimeout`,
and of `Robus_MsgHandler` that return. -/
inductive Reachable {X : Type} (K : Config) (E : Ext X) : World X → Prop where
  | init (w0 : World X) : Reachable K E (Robus_Init K E w0)
  | set (w : World X) (state : network_state_t) :
      Reachable K E w → state ≤ DETECTION_OK →
      Reachable K E (Robus_SetNodeDetected E state w)
  | timeout (w : World X) :
      Reachable K E w → Reachable K E (Robus_RunNetworkTimeout E w)
  | handle (w : World X) (fuel : Nat) (input : msg_t) (r : error_return_t) (w2 : World X) :
      Reachable K E w → Robus_MsgHandler K E fuel input w = .ok (r, w2) →
      Reachable K E w2

/-- An `END_DETECTION` message. -/
def exampleEndDetection : msg_t :=
  { header := { config := 0, target_mode := 0, target := 0, source := 1,
                cmd := exampleConfig.END_DETECTION, size := 0 },
    data := [] }

/-- The example node after `Robus_Init`, `Robus_SetNodeDetected(LOCAL_DETECTION)`
and the reception of `exampleEndDetection`. -/
def exampleDetected : World Nat :=
  Robus_SetNodeDetected exampleExt DETECTION_OK
    (Robus_SetNodeDetected exampleExt LOCAL_DETECTION
      (Robus_Init exampleConfig exampleExt (exampleWorld exampleConfig 0 0)))

/-! # Theorems

## Bytes and bit masks -/

theorem testBit_or_bit_mod (b k j : Nat) (hj : j < 8) :
    ((b ||| (1 <<< k)) % 256).testBit j = (b.testBit j || decide (j = k)) := by
  have h256 : (256 : Nat) = 2 ^ 8 := by norm_num
  rw [h256, Nat.testBit_mod_two_pow, Nat.testBit_or, Nat.one_shiftLeft, Nat.testBit_two_pow]
  simp [hj, eq_comm]

theorem readAt_eq_getD (xs : List Nat) (i : Nat) (h : i < xs.length) :
    readAt xs i = .ok (xs.getD i 0) := by
  simp [readAt, List.getD, List.getElem?_eq_getElem h]

theorem writeAt_eq {α : Type} (xs : List α) (i : Nat) (v : α) (h : i < xs.length) :
    writeAt xs i v = .ok (xs.set i v) := by
  simp [writeAt, h]

theorem maskBit_set_or (mask : List Nat) (q p : Nat) (hq : q / 8 < mask.length) :
    maskBit (mask.set (q / 8) ((mask.getD (q / 8) 0 ||| (1 <<< (q % 8))) % 256)) p
      = (maskBit mask p || decide (p = q)) := by
  unfold maskBit
  by_cases h : p / 8 = q / 8
  · rw [h]
    simp only [List.getD_eq_getElem?_getD, List.getElem?_set_self hq, Option.getD_some]
    rw [testBit_or_bit_mod _ _ _ (Nat.mod_lt _ (by norm_num))]
    congr 1
    simp only [decide_eq_decide]
    omega
  · have : p ≠ q := fun e => h (by rw [e])
    simp only [List.getD_eq_getElem?_getD, List.getElem?_set_ne (Ne.symm h)]
    simp [this]

theorem maskBit_replicate_zero (n p : Nat) : maskBit (List.replicate n 0) p = false := by
  unfold maskBit
  by_cases h : p / 8 < n
  · simp [List.getD_eq_getElem?_getD, List.getElem?_replicate, h]
  · simp [List.getD_eq_getElem?_getD, List.getElem?_replicate, h]

theorem maskBit_lt_length (mask : List Nat) (p : Nat) (h : maskBit mask p = true) :
    p / 8 < mask.length := by
  by_contra hlt
  have : mask.getD (p / 8) 0 = 0 := by
    simp [List.getD_eq_getElem?_getD, List.getElem?_eq_none (Nat.le_of_not_lt hlt)]
  unfold maskBit at h
  rw [this] at h
  simp at h

/-! ## The ID mask -/

theorem IDMask_step_spec (base i : Nat) (c : context_t) (hbase : 1 ≤ base)
    (hs : c.IDShiftMask = (base - 1) / 8) (hi : ((base - 1) % 8 + i) / 8 < c.IDMask.length)
    (hsmall : base + i ≤ 65536) :
    ∃ c2, Robus_IDMaskCalculation_step base c i = .ok c2 ∧
      c2.IDShiftMask = c.IDShiftMask ∧ c2.IDMask.length = c.IDMask.length ∧
      ∀ p, maskBit c2.IDMask p = (maskBit c.IDMask p || decide (p = (base - 1) % 8 + i)) := by
  have ht : (((base - 1) + i) - (8 * c.IDShiftMask)) % 65536 = (base - 1) % 8 + i := by
    rw [hs]; omega
  unfold Robus_IDMaskCalculation_step
  simp only [ht]
  rw [readAt_eq_getD _ _ hi]
  simp only [bind, Except.bind]
  rw [writeAt_eq _ _ _ hi]
  refine ⟨_, rfl, rfl, by simp, ?_⟩
  intro p
  exact maskBit_set_or _ _ _ hi

theorem IDMask_loop_spec (base : Nat) (hbase : 1 ≤ base) (n : Nat) (c0 : context_t)
    (hs : c0.IDShiftMask = (base - 1) / 8) (hn : (base - 1) % 8 + n ≤ 8 * c0.IDMask.length)
    (hsmall : base + n ≤ 65536 + 1) :
    ∃ c, (List.range n).foldlM (Robus_IDMaskCalculation_step base) c0 = .ok c ∧
      c.IDShiftMask = c0.IDShiftMask ∧ c.IDMask.length = c0.IDMask.length ∧
      ∀ p, maskBit c.IDMask p =
        (maskBit c0.IDMask p || decide ((base - 1) % 8 ≤ p ∧ p < (base - 1) % 8 + n)) := by
  induction n with
  | zero => exact ⟨c0, rfl, rfl, rfl, by simp⟩
  | succ n ih =>
    obtain ⟨c, hc, hcs, hcl, hcb⟩ := ih (by omega) (by omega)
    have hi : ((base - 1) % 8 + n) / 8 < c.IDMask.length := by
      rw [hcl]; omega
    obtain ⟨c2, h2, h2s, h2l, h2b⟩ := IDMask_step_spec base n c hbase (hcs.trans hs) hi (by omega)
    refine ⟨c2, ?_, h2s.trans hcs, h2l.trans hcl, ?_⟩
    · rw [List.range_succ, List.foldlM_append, hc]
      simp only [bind, Except.bind, List.foldlM_cons, List.foldlM_nil]
      rw [h2]; rfl
    · intro p
      rw [h2b, hcb, Bool.or_assoc]
      congr 1
      rw [← Bool.decide_or, decide_eq_decide]
      omega

/-- C1: from a cleared mask (`Robus_MaskInit`), for `1 ≤ base_id ≤ 4096 - MAX_SERVICE_NUMBER`
and `count ≤ MAX_SERVICE_NUMBER`, `Robus_IDMaskCalculation base_id count` returns, sets
`IDShiftMask = (base_id - 1) / 8` and leaves a mask in which bit `p % 8` of byte `p / 8` is
set exactly when the service ID `8 * IDShiftMask + p + 1` lies in `[base_id, base_id + count)`.
`ID_MASK_SIZE` comes from an absent header; `hroom` says that the mask has a bit for each of
`MAX_SERVICE_NUMBER` IDs at any alignment within the first byte. -/
theorem Robus_IDMaskCalculation_covers_range (K : Config) (ctx : context_t)
    (base_id count : Nat) (hbase : 1 ≤ base_id) (hmax : base_id ≤ 4096 - K.MAX_SERVICE_NUMBER)
    (hcount : count ≤ K.MAX_SERVICE_NUMBER)
    (hroom : K.MAX_SERVICE_NUMBER + 7 ≤ 8 * K.ID_MASK_SIZE) :
    ∃ ctx2, Robus_IDMaskCalculation K base_id count (Robus_MaskInit K ctx) = .ok ctx2 ∧
      ctx2.IDShiftMask = (base_id - 1) / 8 ∧
      ctx2.IDMask.length = K.ID_MASK_SIZE ∧
      ∀ p, p < 8 * K.ID_MASK_SIZE →
        (maskBit ctx2.IDMask p = true ↔
          (base_id ≤ 8 * ctx2.IDShiftMask + p + 1 ∧
            8 * ctx2.IDShiftMask + p + 1 < base_id + count)) := by
  obtain ⟨c, hc, hcs, hcl, hcb⟩ := IDMask_loop_spec base_id hbase count
    { Robus_MaskInit K ctx with IDShiftMask := (base_id - 1) / 8 } rfl
    (by simp [Robus_MaskInit]; omega) (by omega)
  refine ⟨c, ?_, hcs, ?_, ?_⟩
  · unfold Robus_IDMaskCalculation
    rw [if_neg (by omega), if_neg (by omega)]
    exact hc
  · rw [hcl]; simp [Robus_MaskInit]
  · intro p _
    rw [hcb, hcs]
    simp only [Robus_MaskInit, maskBit_replicate_zero, Bool.false_or, decide_eq_true_eq]
    omega

/-- C1 at `base_id = 7`, `count = 5`: the mask bytes are `[0xC0, 0x07]`. -/
theorem Robus_IDMaskCalculation_covers_range_witness :
    ∃ ctx2, Robus_IDMaskCalculation exampleConfig 7 5
        (Robus_MaskInit exampleConfig (exampleCtx exampleConfig 0)) = .ok ctx2 ∧
      ctx2.IDShiftMask = (7 - 1) / 8 ∧
      ctx2.IDMask.length = exampleConfig.ID_MASK_SIZE ∧
      ∀ p, p < 8 * exampleConfig.ID_MASK_SIZE →
        (maskBit ctx2.IDMask p = true ↔
          (7 ≤ 8 * ctx2.IDShiftMask + p + 1 ∧ 8 * ctx2.IDShiftMask + p + 1 < 7 + 5)) :=
  Robus_IDMaskCalculation_covers_range exampleConfig (exampleCtx exampleConfig 0) 7 5
    (by decide) (by decide) (by decide) (by decide)

/-! ## Transmission -/

/-- C2: a user command (`cmd ≥ LUOS_LAST_RESERVED_CMD`) sent while the network state is not
`DETECTION_OK` makes `Robus_SetTxTask` return `PROHIBITED` with the whole state as it was:
context, allocator state and call log (no `MsgAlloc_SetTxTask`, no `Transmit_Process`).
The message is passed by value and is never written. -/
theorem Robus_SetTxTask_prohibited {X : Type} (K : Config) (E : Ext X)
    (ll_service : service_ptr) (msg : msg_t) (w : World X)
    (hcmd : msg.header.cmd ≥ K.LUOS_LAST_RESERVED_CMD)
    (hstate : Robus_IsNodeDetected w ≠ DETECTION_OK) :
    Robus_SetTxTask K E ll_service msg w = (PROHIBITED, w) := by
  unfold Robus_SetTxTask
  rw [if_pos ⟨hcmd, hstate⟩]

/-- C2 on the example node, in `NO_DETECTION`, for command 42. -/
theorem Robus_SetTxTask_prohibited_witness :
    Robus_SetTxTask exampleConfig exampleExt (some 0)
        { header := { config := 0, target_mode := SERVICEID, target := 1, source := 0,
                      cmd := 42, size := 0 }, data := [] }
        (exampleWorld exampleConfig 1 0)
      = (PROHIBITED, exampleWorld exampleConfig 1 0) :=
  Robus_SetTxTask_prohibited exampleConfig exampleExt (some 0) _ _ (by decide) (by decide)

/-! ## Topics -/

set_option maxRecDepth 200000 in
theorem byte_sub_bit_small : ∀ b < 256, ∀ k < 8, Nat.testBit b k = true →
    (b + 256 - 1 <<< k) % 256 = b ^^^ (1 <<< k) := by
  decide

theorem testBit_sub_bit_mod (b k j : Nat) (hk : k < 8) (hj : j < 8) (hb : b.testBit k = true) :
    ((b + 256 - 1 <<< k) % 256).testBit j = (b.testBit j && !decide (j = k)) := by
  have h256 : (256 : Nat) = 2 ^ 8 := by norm_num
  have hle : 1 <<< k ≤ 256 := by
    rw [Nat.one_shiftLeft, h256]; exact Nat.pow_le_pow_right (by norm_num) (by omega)
  have hmod : (b + 256 - 1 <<< k) % 256 = (b % 256 + 256 - 1 <<< k) % 256 := by omega
  have hbm : (b % 256).testBit k = true := by
    rw [h256, Nat.testBit_mod_two_pow]; simp [hk, hb]
  rw [hmod, byte_sub_bit_small (b % 256) (Nat.mod_lt _ (by norm_num)) k hk hbm,
    Nat.testBit_xor, Nat.one_shiftLeft, Nat.testBit_two_pow, h256, Nat.testBit_mod_two_pow]
  simp only [hj, decide_True, Bool.true_and]
  by_cases hjk : j = k
  · subst hjk; simp [hb]
  · have : ¬ k = j := fun e => hjk e.symm
    simp [hjk, this]

theorem topic_shift_eq (t : Nat) : t - (t / 8) * 8 = t % 8 := by omega

theorem maskBit_set_sub (mask : List Nat) (q p : Nat) (hq : maskBit mask q = true) :
    maskBit (mask.set (q / 8) ((mask.getD (q / 8) 0 + 256 - 1 <<< (q % 8)) % 256)) p
      = (maskBit mask p && !decide (p = q)) := by
  have hlen := maskBit_lt_length mask q hq
  unfold maskBit at hq ⊢
  by_cases h : p / 8 = q / 8
  · rw [h]
    simp only [List.getD_eq_getElem?_getD, List.getElem?_set_self hlen, Option.getD_some]
    rw [testBit_sub_bit_mod _ _ _ (Nat.mod_lt _ (by norm_num)) (Nat.mod_lt _ (by norm_num))
      (by simpa [List.getD_eq_getElem?_getD] using hq)]
    congr 2
    simp only [decide_eq_decide]
    omega
  · have : p ≠ q := fun e => h (by rw [e])
    simp only [List.getD_eq_getElem?_getD, List.getElem?_set_ne (Ne.symm h)]
    simp [this]

theorem deref_some_lt (ctx : context_t) (p : service_ptr) (sv : ll_service_t)
    (h : deref ctx p = .ok sv) : ∃ i, p = some i ∧ i < ctx.ll_service_table.length := by
  unfold deref at h
  cases p with
  | none => simp at h
  | some i =>
    refine ⟨i, rfl, ?_⟩
    by_contra hlt
    simp [List.getElem?_eq_none (Nat.le_of_not_lt hlt)] at h

theorem store_eq (ctx : context_t) (i : Nat) (sv : ll_service_t)
    (h : i < ctx.ll_service_table.length) :
    store ctx (some i) sv = .ok { ctx with ll_service_table := ctx.ll_service_table.set i sv } := by
  simp [store, h]

theorem Robus_TopicUnsubscribe_scan_spec {X : Type} (E : Ext X) (ctx : context_t) (T : Nat)
    (l : List Nat) (hl : ∀ i ∈ l, i < ctx.ll_service_table.length) :
    ∃ b, Robus_TopicUnsubscribe_scan E ctx T l = .ok b ∧
      (b = true ↔ ∃ i sv, i ∈ l ∧ ctx.ll_service_table[i]? = some sv ∧
        E.Topic_IsTopicSubscribed sv T = true) := by
  induction l with
  | nil => exact ⟨false, rfl, by simp⟩
  | cons i rest ih =>
    have hi : i < ctx.ll_service_table.length := hl i (List.mem_cons_self _ _)
    obtain ⟨b, hb, hiff⟩ := ih (fun j hj => hl j (List.mem_cons_of_mem _ hj))
    unfold Robus_TopicUnsubscribe_scan
    simp only [readAt, List.getElem?_eq_getElem hi, bind, Except.bind]
    by_cases hsub : E.Topic_IsTopicSubscribed ctx.ll_service_table[i] T = true
    · refine ⟨true, by simp [hsub, pure, Except.pure], ?_⟩
      simp only [true_iff]
      exact ⟨i, _, List.mem_cons_self _ _, List.getElem?_eq_getElem hi, hsub⟩
    · refine ⟨b, by simp [hsub, hb], ?_⟩
      rw [hiff]
      constructor
      · rintro ⟨j, sv, hj, hget, hs⟩
        exact ⟨j, sv, List.mem_cons_of_mem _ hj, hget, hs⟩
      · rintro ⟨j, sv, hj, hget, hs⟩
        rcases List.mem_cons.mp hj with rfl | hj
        · rw [List.getElem?_eq_getElem hi] at hget
          cases hget
          exact absurd hs hsub
        · exact ⟨j, sv, hj, hget, hs⟩

/-- C3: when bit `T` of the node `TopicMask` is set, the service pointer is valid and the
created services lie in the table, `Robus_TopicUnsubscribe service T` returns the status of
the service-level `Topic_Unsubscribe`; when that status is `SUCCEED`, bit `T` of the new
`TopicMask` is set exactly when some created service (index `< ll_service_number`) still
subscribes to `T`; otherwise `TopicMask` is unchanged. -/
theorem Robus_TopicUnsubscribe_node_bit {X : Type} (E : Ext X) (service : service_ptr)
    (T : Nat) (ctx : context_t) (sv : ll_service_t)
    (hbit : maskBit ctx.TopicMask T = true)
    (hsv : deref ctx (topic_target service) = .ok sv)
    (hnum : ctx.ll_service_number ≤ ctx.ll_service_table.length) :
    ∃ ctx2, Robus_TopicUnsubscribe E service T ctx = .ok ((E.Topic_Unsubscribe sv T).1, ctx2) ∧
      ((E.Topic_Unsubscribe sv T).1 = SUCCEED →
        (maskBit ctx2.TopicMask T = true ↔
          ∃ i sv2, i < ctx2.ll_service_number ∧ ctx2.ll_service_table[i]? = some sv2 ∧
            E.Topic_IsTopicSubscribed sv2 T = true)) ∧
      ((E.Topic_Unsubscribe sv T).1 ≠ SUCCEED → ctx2.TopicMask = ctx.TopicMask) := by
  obtain ⟨i, hi, hlt⟩ := deref_some_lt ctx _ sv hsv
  have hlen := maskBit_lt_length _ _ hbit
  rw [hi] at hsv
  unfold Robus_TopicUnsubscribe
  simp only [hi, hsv, bind, Except.bind, store_eq ctx i _ hlt]
  by_cases herr : (E.Topic_Unsubscribe sv T).1 = SUCCEED
  · simp only [herr, if_true]
    obtain ⟨b, hb, hiff⟩ := Robus_TopicUnsubscribe_scan_spec E
      { ctx with ll_service_table := ctx.ll_service_table.set i (E.Topic_Unsubscribe sv T).2 } T
      (List.range ctx.ll_service_number)
      (fun j hj => by simp only [List.length_set]; have := List.mem_range.mp hj; omega)
    simp only [hb]
    cases b with
    | true =>
      refine ⟨_, rfl, fun _ => ?_, fun h => absurd rfl h⟩
      simp only [hbit, true_iff]
      obtain ⟨j, sv2, hj, hget, hs⟩ := hiff.mp rfl
      exact ⟨j, sv2, List.mem_range.mp hj, hget, hs⟩
    | false =>
      simp only [readAt_eq_getD _ _ hlen, writeAt_eq _ _ _ hlen, topic_shift_eq]
      refine ⟨_, rfl, fun _ => ?_, fun h => absurd rfl h⟩
      simp only [maskBit_set_sub _ _ _ hbit, decide_True, Bool.not_true, Bool.and_false]
      refine ⟨fun h => (by cases h), ?_⟩
      rintro ⟨j, sv2, hj, hget, hs⟩
      have := hiff.mpr ⟨j, sv2, List.mem_range.mpr hj, hget, hs⟩
      cases this
  · simp only [herr, if_false]
    exact ⟨_, rfl, fun h => h.elim, fun _ => rfl⟩

/-- C3 on the example node: its only subscriber leaves topic 7 and the node bit is cleared. -/
theorem Robus_TopicUnsubscribe_node_bit_witness :
    ∃ ctx2, Robus_TopicUnsubscribe exampleExt (some 0) 7 exampleTopicCtx = .ok (SUCCEED, ctx2) ∧
      maskBit ctx2.TopicMask 7 = false := by
  obtain ⟨ctx2, hrun, hok, _⟩ := Robus_TopicUnsubscribe_node_bit exampleExt (some 0) 7
    exampleTopicCtx
    { ll_service_zero exampleConfig with
        topic_list := 7 :: List.replicate 19 0, last_topic_position := 1 }
    (by decide) (by rfl) (by decide)
  refine ⟨ctx2, hrun, ?_⟩
  have hctx : ctx2 = { exampleTopicCtx with
      TopicMask := [0, 0, 0, 0]
      ll_service_table := List.replicate 5 (ll_service_zero exampleConfig) } := by
    have h2 : Robus_TopicUnsubscribe exampleExt (some 0) 7 exampleTopicCtx
        = .ok (SUCCEED, { exampleTopicCtx with
            TopicMask := [0, 0, 0, 0]
            ll_service_table := List.replicate 5 (ll_service_zero exampleConfig) }) := by
      rfl
    rw [h2] at hrun
    cases hrun
    rfl
  rw [hctx]
  decide

theorem byte_or_bit_idem (b m : Nat) : ((b ||| m) % 256 ||| m) % 256 = (b ||| m) % 256 := by
  have h256 : (256 : Nat) = 2 ^ 8 := by norm_num
  apply Nat.eq_of_testBit_eq
  intro j
  rw [h256]
  simp only [Nat.testBit_mod_two_pow, Nat.testBit_or]
  cases decide (j < 8) <;> cases b.testBit j <;> cases m.testBit j <;> rfl

theorem deref_store_self (ctx : context_t) (i : Nat) (sv : ll_service_t)
    (h : i < ctx.ll_service_table.length) :
    deref { ctx with ll_service_table := ctx.ll_service_table.set i sv } (some i) = .ok sv := by
  simp [deref, List.getElem?_set_self h]

theorem Robus_TopicSubscribe_eq {X : Type} (K : Config) (E : Ext X)
    (service : service_ptr) (T : Nat) (ctx : context_t) (sv : ll_service_t) (i : Nat)
    (hi : topic_target service = some i) (hsv : deref ctx (some i) = .ok sv)
    (hT : T ≤ K.LAST_TOPIC) (hlen : T / 8 < ctx.TopicMask.length) :
    Robus_TopicSubscribe K E service T ctx = .ok ((E.Topic_Subscribe sv T).1,
      { ctx with
          TopicMask :=
            (ctx.TopicMask.set (T / 8) ((ctx.TopicMask.getD (T / 8) 0 ||| 1 <<< (T % 8)) % 256))
          ll_service_table := ctx.ll_service_table.set i (E.Topic_Subscribe sv T).2 }) := by
  obtain ⟨j, hj, hlt⟩ := deref_some_lt ctx _ sv hsv
  cases hj
  have hsv1 : deref { ctx with TopicMask :=
      (ctx.TopicMask.set (T / 8) ((ctx.TopicMask.getD (T / 8) 0 ||| 1 <<< (T % 8)) % 256)) }
      (some i) = .ok sv := hsv
  unfold Robus_TopicSubscribe
  simp only [hT, not_true_eq_false, if_false, readAt_eq_getD _ _ hlen,
    writeAt_eq _ _ _ hlen, topic_shift_eq, bind, Except.bind, hi, hsv1]
  rw [store_eq _ i _ (by simpa using hlt)]
  rfl

/-- C4: with a valid service pointer and a mask that has a byte for every topic up to
`LAST_TOPIC`, `Robus_TopicSubscribe service T` for `T ≤ LAST_TOPIC` returns and yields the prior
`TopicMask` with bit `T % 8` of byte `T / 8` set and every other bit as it was; subscribing `T`
a second time gives the same `TopicMask` as subscribing once.  For `T > LAST_TOPIC` the call
asserts. -/
theorem Robus_TopicSubscribe_sets_bit {X : Type} (K : Config) (E : Ext X)
    (service : service_ptr) (T : Nat) (ctx : context_t) (sv : ll_service_t)
    (hsv : deref ctx (topic_target service) = .ok sv)
    (hroom : K.LAST_TOPIC / 8 < ctx.TopicMask.length) :
    (T ≤ K.LAST_TOPIC →
      ∃ ctx2, Robus_TopicSubscribe K E service T ctx = .ok ((E.Topic_Subscribe sv T).1, ctx2) ∧
        ctx2.TopicMask.length = ctx.TopicMask.length ∧
        (∀ p, maskBit ctx2.TopicMask p = (maskBit ctx.TopicMask p || decide (p = T))) ∧
        ∃ r3 ctx3, Robus_TopicSubscribe K E service T ctx2 = .ok (r3, ctx3) ∧
          ctx3.TopicMask = ctx2.TopicMask) ∧
    (K.LAST_TOPIC < T → Robus_TopicSubscribe K E service T ctx = .error .assert) := by
  obtain ⟨i, hi, hlt⟩ := deref_some_lt ctx _ sv hsv
  rw [hi] at hsv
  constructor
  · intro hT
    have hlen : T / 8 < ctx.TopicMask.length := by
      have : T / 8 ≤ K.LAST_TOPIC / 8 := Nat.div_le_div_right hT
      omega
    refine ⟨_, Robus_TopicSubscribe_eq K E service T ctx sv i hi hsv hT hlen, by simp,
      fun p => maskBit_set_or _ _ _ hlen, ?_⟩
    refine ⟨_, _, Robus_TopicSubscribe_eq K E service T _ _ i hi
      (deref_store_self _ i _ hlt) hT (by simpa using hlen), ?_⟩
    simp only [List.getD_eq_getElem?_getD, List.getElem?_set_self hlen, Option.getD_some,
      byte_or_bit_idem, List.set_set]
  · intro hT
    unfold Robus_TopicSubscribe
    simp only [Nat.not_le.mpr hT, not_false_eq_true, if_true]

/-- C4 on the example node: subscribing topic 7 from the cleared mask sets bit 7 of byte 0. -/
theorem Robus_TopicSubscribe_sets_bit_witness :
    (7 ≤ exampleConfig.LAST_TOPIC →
      ∃ ctx2, Robus_TopicSubscribe exampleConfig exampleExt (some 0) 7
          (exampleCtx exampleConfig 2)
          = .ok ((exampleExt.Topic_Subscribe (ll_service_zero exampleConfig) 7).1, ctx2) ∧
        ctx2.TopicMask.length = (exampleCtx exampleConfig 2).TopicMask.length ∧
        (∀ p, maskBit ctx2.TopicMask p
          = (maskBit (exampleCtx exampleConfig 2).TopicMask p || decide (p = 7))) ∧
        ∃ r3 ctx3, Robus_TopicSubscribe exampleConfig exampleExt (some 0) 7 ctx2 = .ok (r3, ctx3) ∧
          ctx3.TopicMask = ctx2.TopicMask) ∧
    (exampleConfig.LAST_TOPIC < 7 →
      Robus_TopicSubscribe exampleConfig exampleExt (some 0) 7 (exampleCtx exampleConfig 2)
        = .error .assert) :=
  Robus_TopicSubscribe_sets_bit exampleConfig exampleExt (some 0) 7 (exampleCtx exampleConfig 2)
    (ll_service_zero exampleConfig) (by rfl) (by decide)

/-! ## Sending -/

theorem Robus_SetTxTask_frame {X : Type} (K : Config) (E : Ext X) (ll_service : service_ptr)
    (msg : msg_t) (w : World X) :
    (Robus_SetTxTask K E ll_service msg w).2.ctx = w.ctx ∧
    (Robus_SetTxTask K E ll_service msg w).2.last_node = w.last_node ∧
    (Robus_SetTxTask K E ll_service msg w).2.baudrate = w.baudrate := by
  unfold Robus_SetTxTask
  split
  · exact ⟨rfl, rfl, rfl⟩
  · dsimp only
    split <;> exact ⟨rfl, rfl, rfl⟩

theorem staged_append (l1 l2 : List Call) : staged (l1 ++ l2) = staged l1 ++ staged l2 := by
  simp [staged, List.filterMap_append]

theorem Robus_SetTxTask_staged {X : Type} (K : Config) (E : Ext X) (ll_service : service_ptr)
    (msg : msg_t) (w : World X) (hcmd : msg.header.cmd < K.LUOS_LAST_RESERVED_CMD) :
    staged (Robus_SetTxTask K E ll_service msg w).2.log = staged w.log ++ [msg] := by
  unfold Robus_SetTxTask
  rw [if_neg (by omega)]
  dsimp only
  split
  · simp [staged_append, staged]
  · simp [staged_append, staged]

theorem Robus_SendMsg_eq {X : Type} (K : Config) (E : Ext X) (ll_service : service_ptr)
    (msg : msg_t) (w : World X) (sv : ll_service_t) (hsv : deref w.ctx ll_service = .ok sv) :
    ∃ r, Robus_SendMsg K E ll_service msg w = .ok (r,
      { msg with header := { msg.header with source := sender_id sv w.ctx } },
      (Robus_SetTxTask K E ll_service
        { msg with header := { msg.header with source := sender_id sv w.ctx } } w).2) := by
  unfold Robus_SendMsg sender_id
  simp only [hsv, bind, Except.bind]
  by_cases hid : sv.id ≠ 0
  · simp only [if_pos hid]
    split
    · exact ⟨_, rfl⟩
    · exact ⟨_, rfl⟩
  · simp only [if_neg hid]
    split
    · exact ⟨_, rfl⟩
    · exact ⟨_, rfl⟩

/-! ## Busy waits -/

theorem wait_TxAllComplete_eq_FAILED_returns {X : Type} (E : Ext X) :
    ∀ (n : Nat) (x : X) (fuel : Nat), n < fuel →
      (E.MsgAlloc_TxAllComplete (tx_polls E n x)).1 ≠ FAILED →
      ∃ x2, wait_TxAllComplete_eq_FAILED E fuel x = .ok x2 := by
  intro n
  induction n with
  | zero =>
    intro x fuel hf h
    cases fuel with
    | zero => omega
    | succ f =>
      unfold wait_TxAllComplete_eq_FAILED
      rw [if_neg (by simpa [tx_polls] using h)]
      exact ⟨_, rfl⟩
  | succ n ih =>
    intro x fuel hf h
    cases fuel with
    | zero => omega
    | succ f =>
      unfold wait_TxAllComplete_eq_FAILED
      split
      · exact ih _ f (by omega) h
      · exact ⟨_, rfl⟩

theorem wait_TxAllComplete_ne_SUCCEED_returns {X : Type} (E : Ext X) :
    ∀ (n : Nat) (x : X) (fuel : Nat), n < fuel →
      (E.MsgAlloc_TxAllComplete (tx_polls E n x)).1 = SUCCEED →
      ∃ x2, wait_TxAllComplete_ne_SUCCEED E fuel x = .ok x2 := by
  intro n
  induction n with
  | zero =>
    intro x fuel hf h
    cases fuel with
    | zero => omega
    | succ f =>
      unfold wait_TxAllComplete_ne_SUCCEED
      rw [if_neg (by simpa [tx_polls] using h)]
      exact ⟨_, rfl⟩
  | succ n ih =>
    intro x fuel hf h
    cases fuel with
    | zero => omega
    | succ f =>
      unfold wait_TxAllComplete_ne_SUCCEED
      split
      · exact ih _ f (by omega) h
      · exact ⟨_, rfl⟩

/-! ## The protocol handler -/

theorem Robus_MsgHandler_END {X : Type} (K : Config) (E : Ext X) (fuel : Nat) (input : msg_t)
    (w : World X) (hK : K.cmds_distinct) (hcmd : input.header.cmd = K.END_DETECTION) :
    Robus_MsgHandler K E fuel input w = .ok (FAILED, Robus_SetNodeDetected E DETECTION_OK w) := by
  obtain ⟨h1, h2, h3, h4, h5, h6⟩ := hK
  unfold Robus_MsgHandler
  simp only [hcmd, if_neg h2.symm, if_neg h4.symm, if_true]
  rfl

theorem Robus_MsgHandler_START {X : Type} (K : Config) (E : Ext X) (fuel : Nat) (input : msg_t)
    (w : World X) (hK : K.cmds_distinct) (hcmd : input.header.cmd = K.START_DETECTION) :
    Robus_MsgHandler K E fuel input w = .ok (SUCCEED, w) := by
  obtain ⟨h1, h2, h3, h4, h5, h6⟩ := hK
  unfold Robus_MsgHandler
  simp only [hcmd, if_neg h1.symm, if_true]
  rfl

theorem Robus_MsgHandler_other {X : Type} (K : Config) (E : Ext X) (fuel : Nat) (input : msg_t)
    (w : World X) (h1 : input.header.cmd ≠ K.WRITE_NODE_ID)
    (h2 : input.header.cmd ≠ K.START_DETECTION) (h3 : input.header.cmd ≠ K.END_DETECTION)
    (h4 : input.header.cmd ≠ K.SET_BAUDRATE) :
    Robus_MsgHandler K E fuel input w = .ok (FAILED, w) := by
  unfold Robus_MsgHandler
  simp only [if_neg h1, if_neg h2, if_neg h3, if_neg h4]
  rfl

theorem Robus_MsgHandler_WRITE_ret {X : Type} (K : Config) (E : Ext X) (fuel : Nat)
    (input : msg_t) (w : World X) (hcmd : input.header.cmd = K.WRITE_NODE_ID)
    (r : error_return_t) (w2 : World X)
    (h : Robus_MsgHandler K E fuel input w = .ok (r, w2)) : r = SUCCEED := by
  unfold Robus_MsgHandler at h
  simp only [hcmd, if_true, bind, Except.bind, pure, Except.pure] at h
  repeat' split at h
  all_goals first
    | (cases h; done)
    | (cases h; rfl)

theorem Robus_MsgHandler_SET_BAUDRATE_ret {X : Type} (K : Config) (E : Ext X) (fuel : Nat)
    (input : msg_t) (w : World X) (hK : K.cmds_distinct)
    (hcmd : input.header.cmd = K.SET_BAUDRATE) (r : error_return_t) (w2 : World X)
    (h : Robus_MsgHandler K E fuel input w = .ok (r, w2)) : r = SUCCEED := by
  obtain ⟨h1, h2, h3, h4, h5, h6⟩ := hK
  unfold Robus_MsgHandler at h
  simp only [hcmd, if_neg h3.symm, if_neg h5.symm, if_neg h6.symm, if_true, bind, Except.bind,
    pure, Except.pure] at h
  repeat' split at h
  all_goals first
    | (cases h; done)
    | (cases h; rfl)

theorem readAt_lt {α : Type} (xs : List α) (i : Nat) (h : i < xs.length) :
    readAt xs i = .ok xs[i] := by
  simp [readAt, List.getElem?_eq_getElem h]

theorem Robus_MsgHandler_SET_BAUDRATE {X : Type} (K : Config) (E : Ext X) (fuel : Nat)
    (input : msg_t) (w : World X) (hK : K.cmds_distinct)
    (hcmd : input.header.cmd = K.SET_BAUDRATE) (hdata : 4 ≤ input.data.length) (x : X)
    (hwait : wait_TxAllComplete_eq_FAILED E fuel w.env = .ok x) :
    Robus_MsgHandler K E fuel input w = .ok (SUCCEED,
      { w with env := (E.RobusHAL_ComInit
          (le32 (input.data.getD 0 0) (input.data.getD 1 0) (input.data.getD 2 0)
            (input.data.getD 3 0)) x) }) := by
  obtain ⟨h1, h2, h3, h4, h5, h6⟩ := hK
  unfold Robus_MsgHandler
  simp only [hcmd, if_neg h3.symm, if_neg h5.symm, if_neg h6.symm, if_true, bind, Except.bind,
    hwait, readAt_eq_getD _ _ (show 0 < input.data.length by omega),
    readAt_eq_getD _ _ (show 1 < input.data.length by omega),
    readAt_eq_getD _ _ (show 2 < input.data.length by omega),
    readAt_eq_getD _ _ (show 3 < input.data.length by omega)]
  rfl

theorem Robus_MsgHandler_WRITE_default {X : Type} (K : Config) (E : Ext X) (fuel : Nat)
    (input : msg_t) (w : World X) (hcmd : input.header.cmd = K.WRITE_NODE_ID)
    (h0 : input.header.size ≠ 0) (h2 : input.header.size ≠ 2) (h4 : input.header.size ≠ 4) :
    Robus_MsgHandler K E fuel input w = .ok (SUCCEED, w) := by
  unfold Robus_MsgHandler
  simp only [hcmd, if_true, if_neg h0, if_neg h2, if_neg h4]
  rfl

theorem Robus_MsgHandler_WRITE0 {X : Type} (K : Config) (E : Ext X) (fuel : Nat)
    (input : msg_t) (w : World X) (hcmd : input.header.cmd = K.WRITE_NODE_ID)
    (hsize : input.header.size = 0) (sv : ll_service_t)
    (hsv : deref w.ctx (E.Recep_GetConcernedLLService w.ctx input.header) = .ok sv) :
    Robus_MsgHandler K E fuel input w = .ok (SUCCEED,
      (Robus_SetTxTask K E (E.Recep_GetConcernedLLService w.ctx input.header)
        (expected_id_reply K input (sender_id sv w.ctx) ((w.last_node + 1) % 65536))
        { w with last_node := (w.last_node + 1) % 65536 }).2) := by
  obtain ⟨r, hsend⟩ := Robus_SendMsg_eq K E (E.Recep_GetConcernedLLService w.ctx input.header)
    { header := { config := K.BASE_PROTOCOL, cmd := K.WRITE_NODE_ID, size := 2,
                  target := input.header.source, target_mode := NODEIDACK, source := 0 },
      data := bytes16 ((w.last_node + 1) % 65536) }
    { w with last_node := (w.last_node + 1) % 65536 } sv hsv
  unfold Robus_MsgHandler
  simp only [hcmd, if_true, hsize, bind, Except.bind, hsend]
  rfl

theorem Robus_MsgHandler_WRITE2 {X : Type} (K : Config) (E : Ext X) (fuel : Nat)
    (input : msg_t) (w : World X) (hcmd : input.header.cmd = K.WRITE_NODE_ID)
    (hsize : input.header.size = 2) (sv : ll_service_t)
    (hsv : deref w.ctx (E.Recep_GetConcernedLLService w.ctx input.header) = .ok sv)
    (hdata : 2 ≤ input.data.length) (hport : w.ctx.port.activ < w.ctx.node.port_table.length) :
    Robus_MsgHandler K E fuel input w = .ok (SUCCEED,
      (Robus_SetTxTask K E (E.Recep_GetConcernedLLService w.ctx input.header)
        (expected_bootstrap K (sender_id sv w.ctx) w.ctx.node.node_id (carried_id input))
        { w with ctx := { w.ctx with node := { w.ctx.node with
            port_table := w.ctx.node.port_table.set w.ctx.port.activ (carried_id input) } } }).2)
    := by
  obtain ⟨r, hsend⟩ := Robus_SendMsg_eq K E (E.Recep_GetConcernedLLService w.ctx input.header)
    { header := { config := K.BASE_PROTOCOL, cmd := K.WRITE_NODE_ID, size := 4,
                  target := 0, target_mode := NODEIDACK, source := 0 },
      data := bytes16 w.ctx.node.node_id ++ bytes16 (carried_id input) }
    { w with ctx := { w.ctx with node := { w.ctx.node with
        port_table := w.ctx.node.port_table.set w.ctx.port.activ (carried_id input) } } } sv hsv
  unfold Robus_MsgHandler
  simp only [hcmd, if_true, hsize, bind, Except.bind,
    readAt_eq_getD _ _ (show 0 < input.data.length by omega),
    readAt_eq_getD _ _ (show 1 < input.data.length by omega),
    writeAt_eq _ _ _ hport]
  simp only [show (2 : Nat) ≠ 0 by decide, if_false]
  unfold carried_id at hsend
  simp only [hsend]
  rfl

theorem Robus_DetectNextNodes_no_neighbour {X : Type} (K : Config) (E : Ext X) (fuel : Nat)
    (ll_service : service_ptr) (w : World X)
    (hpoke : (E.PortMng_PokeNextPort w.ctx.port w.env).1 ≠ SUCCEED) :
    Robus_DetectNextNodes K E fuel ll_service w = .ok (SUCCEED,
      { w with ctx := { w.ctx with port := (E.PortMng_PokeNextPort w.ctx.port w.env).2.1 }
               env := (E.PortMng_PokeNextPort w.ctx.port w.env).2.2 }) := by
  unfold Robus_DetectNextNodes
  simp only [if_neg hpoke]
  rfl

theorem Robus_MsgHandler_WRITE4 {X : Type} (K : Config) (E : Ext X) (fuel : Nat)
    (input : msg_t) (w : World X) (hcmd : input.header.cmd = K.WRITE_NODE_ID)
    (hsize : input.header.size = 4) (hdata : 4 ≤ input.data.length)
    (hport : w.ctx.port.activ < w.ctx.node.port_table.length) :
    Robus_MsgHandler K E (fuel + 1) input w =
      (Robus_DetectNextNodes K E fuel (E.Recep_GetConcernedLLService w.ctx input.header)
        { w with
            ctx := { w.ctx with node := { w.ctx.node with
              node_id := le16 (input.data.getD 2 0) (input.data.getD 3 0)
              port_table := w.ctx.node.port_table.set w.ctx.port.activ
                (le16 (input.data.getD 0 0) (input.data.getD 1 0)) } }
            env := if w.ctx.node.node_id ≠ 0 then E.MsgAlloc_Init false w.env else w.env }).bind
        (fun r => .ok (SUCCEED, r.2)) := by
  unfold Robus_MsgHandler
  simp only [hcmd, if_true, hsize, bind, Except.bind,
    readAt_eq_getD _ _ (show 0 < input.data.length by omega),
    readAt_eq_getD _ _ (show 1 < input.data.length by omega),
    readAt_eq_getD _ _ (show 2 < input.data.length by omega),
    readAt_eq_getD _ _ (show 3 < input.data.length by omega)]
  simp only [show (4 : Nat) ≠ 0 by decide, show (4 : Nat) ≠ 2 by decide, if_false]
  by_cases hid : w.ctx.node.node_id ≠ 0
  · simp only [if_pos hid]
    rw [writeAt_eq _ _ _ (by simpa using hport)]
    rfl
  · simp only [if_neg hid]
    rw [writeAt_eq _ _ _ (by simpa using hport)]
    rfl

/-- C5: `Robus_MsgHandler` returns `SUCCEED` ("consumed") exactly for `WRITE_NODE_ID`,
`START_DETECTION` and `SET_BAUDRATE`, and `FAILED` ("pass-through") for every other command,
`END_DETECTION` included.  Whenever the call returns, the status is the one of the command;
it does return, with these results: for a command outside the four, `FAILED` with the state as
it was (nothing written, nothing staged); for `END_DETECTION`, `FAILED`; for
`START_DETECTION`, `SUCCEED`; for `SET_BAUDRATE`, `SUCCEED` once the wait for the TX queue
ends within the fuel; for `WRITE_NODE_ID`, `SUCCEED` for every size: 0 and 2 with a valid
service pointer (and the data and active port that size 2 uses), 4 when no further port
answers the poke, and any other size with the state as it was. -/
theorem Robus_MsgHandler_consumed_iff {X : Type} (K : Config) (E : Ext X) (fuel : Nat)
    (input : msg_t) (w : World X) (hK : K.cmds_distinct) :
    (∀ r w2, Robus_MsgHandler K E fuel input w = .ok (r, w2) →
      ((r = SUCCEED ↔ (input.header.cmd = K.WRITE_NODE_ID ∨
        input.header.cmd = K.START_DETECTION ∨ input.header.cmd = K.SET_BAUDRATE)) ∧
       (r ≠ SUCCEED → r = FAILED))) ∧
    (input.header.cmd ≠ K.WRITE_NODE_ID → input.header.cmd ≠ K.START_DETECTION →
      input.header.cmd ≠ K.END_DETECTION → input.header.cmd ≠ K.SET_BAUDRATE →
      Robus_MsgHandler K E fuel input w = .ok (FAILED, w)) ∧
    (input.header.cmd = K.END_DETECTION →
      ∃ w2, Robus_MsgHandler K E fuel input w = .ok (FAILED, w2)) ∧
    (input.header.cmd = K.START_DETECTION →
      Robus_MsgHandler K E fuel input w = .ok (SUCCEED, w)) ∧
    (input.header.cmd = K.SET_BAUDRATE → 4 ≤ input.data.length →
      (∃ n, n < fuel ∧ (E.MsgAlloc_TxAllComplete (tx_polls E n w.env)).1 ≠ FAILED) →
      ∃ w2, Robus_MsgHandler K E fuel input w = .ok (SUCCEED, w2)) ∧
    (input.header.cmd = K.WRITE_NODE_ID →
      (input.header.size ≠ 0 → input.header.size ≠ 2 → input.header.size ≠ 4 →
        Robus_MsgHandler K E fuel input w = .ok (SUCCEED, w)) ∧
      (input.header.size = 0 →
        (∃ sv, deref w.ctx (E.Recep_GetConcernedLLService w.ctx input.header) = .ok sv) →
        ∃ w2, Robus_MsgHandler K E fuel input w = .ok (SUCCEED, w2)) ∧
      (input.header.size = 2 →
        (∃ sv, deref w.ctx (E.Recep_GetConcernedLLService w.ctx input.header) = .ok sv) →
        2 ≤ input.data.length → w.ctx.port.activ < w.ctx.node.port_table.length →
        ∃ w2, Robus_MsgHandler K E fuel input w = .ok (SUCCEED, w2)) ∧
      (input.header.size = 4 → 4 ≤ input.data.length →
        w.ctx.port.activ < w.ctx.node.port_table.length →
        (∀ x, (E.PortMng_PokeNextPort w.ctx.port x).1 ≠ SUCCEED) →
        ∃ w2, Robus_MsgHandler K E (fuel + 1) input w = .ok (SUCCEED, w2))) := by
  have hK' := hK
  obtain ⟨h1, h2, h3, h4, h5, h6⟩ := hK'
  refine ⟨?_, Robus_MsgHandler_other K E fuel input w, ?_, ?_, ?_, ?_⟩
  · intro r w2 hrun
    by_cases cW : input.header.cmd = K.WRITE_NODE_ID
    · have := Robus_MsgHandler_WRITE_ret K E fuel input w cW r w2 hrun
      subst this
      exact ⟨⟨fun _ => Or.inl cW, fun _ => rfl⟩, fun h => absurd rfl h⟩
    by_cases cS : input.header.cmd = K.START_DETECTION
    · rw [Robus_MsgHandler_START K E fuel input w hK cS] at hrun
      cases hrun
      exact ⟨⟨fun _ => Or.inr (Or.inl cS), fun _ => rfl⟩, fun h => absurd rfl h⟩
    by_cases cB : input.header.cmd = K.SET_BAUDRATE
    · have := Robus_MsgHandler_SET_BAUDRATE_ret K E fuel input w hK cB r w2 hrun
      subst this
      exact ⟨⟨fun _ => Or.inr (Or.inr cB), fun _ => rfl⟩, fun h => absurd rfl h⟩
    by_cases cE : input.header.cmd = K.END_DETECTION
    · rw [Robus_MsgHandler_END K E fuel input w hK cE] at hrun
      cases hrun
      refine ⟨⟨fun h => (by cases h), ?_⟩, fun _ => rfl⟩
      rintro (h | h | h)
      · exact absurd h cW
      · exact absurd h cS
      · exact absurd h cB
    · rw [Robus_MsgHandler_other K E fuel input w cW cS cE cB] at hrun
      cases hrun
      refine ⟨⟨fun h => (by cases h), ?_⟩, fun _ => rfl⟩
      rintro (h | h | h)
      · exact absurd h cW
      · exact absurd h cS
      · exact absurd h cB
  · intro cE
    exact ⟨_, Robus_MsgHandler_END K E fuel input w hK cE⟩
  · exact Robus_MsgHandler_START K E fuel input w hK
  · rintro cB hdata ⟨n, hn, hpoll⟩
    obtain ⟨x, hx⟩ := wait_TxAllComplete_eq_FAILED_returns E n w.env fuel hn hpoll
    exact ⟨_, Robus_MsgHandler_SET_BAUDRATE K E fuel input w hK cB hdata x hx⟩
  · intro cW
    refine ⟨Robus_MsgHandler_WRITE_default K E fuel input w cW, ?_, ?_, ?_⟩
    · rintro hs ⟨sv, hsv⟩
      exact ⟨_, Robus_MsgHandler_WRITE0 K E fuel input w cW hs sv hsv⟩
    · rintro hs ⟨sv, hsv⟩ hdata hport
      exact ⟨_, Robus_MsgHandler_WRITE2 K E fuel input w cW hs sv hsv hdata hport⟩
    · intro hs hdata hport hpoke
      have key : ∀ w1 : World X, w1.ctx.port = w.ctx.port →
          ∃ w2, (Robus_DetectNextNodes K E fuel
            (E.Recep_GetConcernedLLService w.ctx input.header) w1).bind
              (fun r => .ok (SUCCEED, r.2)) = .ok (SUCCEED, w2) := by
        intro w1 hp
        rw [Robus_DetectNextNodes_no_neighbour K E fuel _ w1 (by rw [hp]; exact hpoke _)]
        exact ⟨_, rfl⟩
      rw [Robus_MsgHandler_WRITE4 K E fuel input w cW hs hdata hport]
      exact key _ rfl

/-- C5 on the example node: a user command (42) is passed through with the state as it was. -/
theorem Robus_MsgHandler_consumed_iff_witness :
    Robus_MsgHandler exampleConfig exampleExt 0
        { header := { config := 0, target_mode := SERVICEID, target := 1, source := 2,
                      cmd := 42, size := 0 }, data := [] }
        (exampleWorld exampleConfig 1 0)
      = .ok (FAILED, exampleWorld exampleConfig 1 0) :=
  (Robus_MsgHandler_consumed_iff exampleConfig exampleExt 0 _ _ (by decide)).2.1
    (by decide) (by decide) (by decide) (by decide)

/-- C6: from every network state, handling `END_DETECTION` returns `FAILED` (pass-through) and
leaves the state `DETECTION_OK` with the timer stopped (`timeout_run = false`, `timeout = 0`),
the rest of the world as it was; the loop of `Robus_Loop` then hands the message to
`Recep_InterpretMsgProtocol`. -/
theorem Robus_MsgHandler_END_DETECTION {X : Type} (K : Config) (E : Ext X) (fuel : Nat)
    (input : msg_t) (w : World X) (hK : K.cmds_distinct)
    (hcmd : input.header.cmd = K.END_DETECTION) :
    Robus_MsgHandler K E fuel input w = .ok (FAILED,
      { w with ctx := { w.ctx with node_connected :=
          { state := DETECTION_OK, timeout_run := false, timeout := 0 } } }) ∧
    (∀ x, E.MsgAlloc_PullMsgToInterpret w.env = (some input, x) →
      Robus_Loop_pull K E (fuel + 1) w = Robus_Loop_pull K E fuel
        { w with
            ctx := { w.ctx with node_connected :=
              { state := DETECTION_OK, timeout_run := false, timeout := 0 } }
            env := E.Recep_InterpretMsgProtocol input x }) := by
  have hset : ∀ w0 : World X, Robus_SetNodeDetected E DETECTION_OK w0 =
      { w0 with ctx := { w0.ctx with node_connected :=
          { state := DETECTION_OK, timeout_run := false, timeout := 0 } } } := by
    intro w0
    unfold Robus_SetNodeDetected
    simp [DETECTION_OK, NO_DETECTION, LOCAL_DETECTION, EXTERNAL_DETECTION]
  constructor
  · rw [Robus_MsgHandler_END K E fuel input w hK hcmd, hset]
  · intro x hx
    rw [Robus_Loop_pull]
    simp only [hx, bind, Except.bind]
    rw [Robus_MsgHandler_END K E fuel input _ hK hcmd, hset]
    rfl

/-- C6 on the example node while it is in `LOCAL_DETECTION`. -/
theorem Robus_MsgHandler_END_DETECTION_witness :
    Robus_MsgHandler exampleConfig exampleExt 0
        { header := { config := 0, target_mode := BROADCAST, target := BROADCAST_VAL,
                      source := 1, cmd := 2, size := 0 }, data := [] }
        (Robus_SetNodeDetected exampleExt LOCAL_DETECTION (exampleWorld exampleConfig 1 0))
      = .ok (FAILED,
        { Robus_SetNodeDetected exampleExt LOCAL_DETECTION (exampleWorld exampleConfig 1 0) with
          ctx := { (Robus_SetNodeDetected exampleExt LOCAL_DETECTION
                      (exampleWorld exampleConfig 1 0)).ctx with
            node_connected := { state := DETECTION_OK, timeout_run := false, timeout := 0 } } }) :=
  (Robus_MsgHandler_END_DETECTION exampleConfig exampleExt 0 _ _ (by decide) (by rfl)).1

/-! ## Node IDs handed out by the detector -/

theorem carried_id_expected_id_reply (K : Config) (request : msg_t) (source id : Nat)
    (hid : id < 65536) : carried_id (expected_id_reply K request source id) = id := by
  simp only [carried_id, expected_id_reply, le16, List.getD_eq_getElem?_getD,
    List.getElem?_cons_zero, List.getElem?_cons_succ, Option.getD_some]
  omega

theorem Robus_MsgHandler_WRITE0_step {X : Type} (K : Config) (E : Ext X) (fuel : Nat)
    (input : msg_t) (w : World X) (sv : ll_service_t)
    (hres : K.WRITE_NODE_ID < K.LUOS_LAST_RESERVED_CMD)
    (hcmd : input.header.cmd = K.WRITE_NODE_ID) (hsize : input.header.size = 0)
    (hsv : deref w.ctx (E.Recep_GetConcernedLLService w.ctx input.header) = .ok sv)
    (hln : w.last_node < 65535) :
    ∃ w2, Robus_MsgHandler K E fuel input w = .ok (SUCCEED, w2) ∧
      w2.last_node = w.last_node + 1 ∧ w2.ctx = w.ctx ∧
      staged w2.log = staged w.log ++
        [expected_id_reply K input (sender_id sv w.ctx) (w.last_node + 1)] := by
  have hmod : (w.last_node + 1) % 65536 = w.last_node + 1 := by omega
  refine ⟨_, Robus_MsgHandler_WRITE0 K E fuel input w hcmd hsize sv hsv, ?_, ?_, ?_⟩
  · rw [(Robus_SetTxTask_frame K E _ _ _).2.1, hmod]
  · rw [(Robus_SetTxTask_frame K E _ _ _).1]
  · rw [Robus_SetTxTask_staged K E _ _ _ hres, hmod]

theorem handle_all_requests {X : Type} (K : Config) (E : Ext X) (fuel : Nat)
    (hres : K.WRITE_NODE_ID < K.LUOS_LAST_RESERVED_CMD) (c : context_t)
    (hsvc : ∀ h, ∃ sv, deref c (E.Recep_GetConcernedLLService c h) = .ok sv) :
    ∀ (reqs : List msg_t) (w : World X), w.ctx = c →
      (∀ m ∈ reqs, m.header.cmd = K.WRITE_NODE_ID ∧ m.header.size = 0) →
      w.last_node + reqs.length ≤ 65535 →
      ∃ w2 replies, handle_all K E fuel reqs w = .ok w2 ∧
        w2.last_node = w.last_node + reqs.length ∧
        staged w2.log = staged w.log ++ replies ∧
        replies.length = reqs.length ∧
        (∀ k, k < reqs.length → ∃ request source, reqs[k]? = some request ∧
          replies[k]? = some (expected_id_reply K request source (w.last_node + 1 + k))) ∧
        replies.map carried_id = List.range' (w.last_node + 1) reqs.length := by
  intro reqs
  induction reqs with
  | nil =>
    intro w _ _ _
    exact ⟨w, [], rfl, rfl, by simp, rfl, fun k hk => absurd hk (Nat.not_lt_zero k), rfl⟩
  | cons m rest ih =>
    intro w hc hreq hlen
    simp only [List.length_cons] at hlen
    obtain ⟨hm1, hm2⟩ := hreq m (List.mem_cons_self _ _)
    obtain ⟨sv, hsv⟩ := hsvc m.header
    rw [← hc] at hsv
    obtain ⟨w1, hrun1, hln1, hctx1, hst1⟩ :=
      Robus_MsgHandler_WRITE0_step K E fuel m w sv hres hm1 hm2 hsv (by omega)
    obtain ⟨w2, replies, hrun2, hln2, hst2, hlen2, hk2, hmap2⟩ :=
      ih w1 (hctx1.trans hc) (fun x hx => hreq x (List.mem_cons_of_mem _ hx)) (by omega)
    refine ⟨w2, expected_id_reply K m (sender_id sv w.ctx) (w.last_node + 1) :: replies,
      ?_, ?_, ?_, ?_, ?_, ?_⟩
    · unfold handle_all
      simp only [hrun1, bind, Except.bind]
      exact hrun2
    · rw [hln2, hln1, List.length_cons]; omega
    · rw [hst2, hst1, List.append_assoc]; rfl
    · simp [hlen2]
    · intro k hk
      cases k with
      | zero => exact ⟨m, sender_id sv w.ctx, by simp, by simp⟩
      | succ k =>
        obtain ⟨request, source, hr, hp⟩ := hk2 k (by simpa using hk)
        refine ⟨request, source, by simpa using hr, ?_⟩
        simp only [List.getElem?_cons_succ, hp, hln1]
        congr 2
        omega
    · simp only [List.map_cons, List.length_cons, List.range'_succ, hmap2, hln1]
      rw [carried_id_expected_id_reply _ _ _ _ (by omega)]

/-- C7: a `WRITE_NODE_ID` request of size 0 handled while `last_node < 65535` increments
`last_node` by exactly 1 and stages a reply `WRITE_NODE_ID` of size 2, mode `NODEIDACK`,
target the source of the request, whose two data bytes are the new `last_node` in
little-endian order.  Hence after self-promotion (`last_node = 1`), for requests handled one
after the other with `reqs.length + 1 ≤ 65535`, the `k`-th request (counted from 1) is
answered with ID `k + 1`, `last_node` ends at `reqs.length + 1`, and the answered IDs are
pairwise distinct.  The service pointer that reception gives for a request must be valid, and
`WRITE_NODE_ID` is a reserved command. -/
theorem Robus_MsgHandler_node_ids_fresh {X : Type} (K : Config) (E : Ext X) (fuel : Nat)
    (w : World X) (hres : K.WRITE_NODE_ID < K.LUOS_LAST_RESERVED_CMD)
    (hsvc : ∀ h, ∃ sv, deref w.ctx (E.Recep_GetConcernedLLService w.ctx h) = .ok sv) :
    (∀ input, input.header.cmd = K.WRITE_NODE_ID → input.header.size = 0 →
      w.last_node < 65535 →
      ∃ w2 source, Robus_MsgHandler K E fuel input w = .ok (SUCCEED, w2) ∧
        w2.last_node = w.last_node + 1 ∧
        staged w2.log = staged w.log ++ [expected_id_reply K input source w2.last_node] ∧
        carried_id (expected_id_reply K input source w2.last_node) = w2.last_node) ∧
    (∀ reqs : List msg_t, (∀ m ∈ reqs, m.header.cmd = K.WRITE_NODE_ID ∧ m.header.size = 0) →
      w.last_node = 1 → reqs.length + 1 ≤ 65535 →
      ∃ w2 replies, handle_all K E fuel reqs w = .ok w2 ∧
        w2.last_node = reqs.length + 1 ∧
        staged w2.log = staged w.log ++ replies ∧
        replies.length = reqs.length ∧
        (∀ k, k < reqs.length → ∃ request source, reqs[k]? = some request ∧
          replies[k]? = some (expected_id_reply K request source (k + 2))) ∧
        (∀ k, k < reqs.length → (replies.map carried_id)[k]? = some (k + 2)) ∧
        (replies.map carried_id).Nodup) := by
  constructor
  · intro input hcmd hsize hln
    obtain ⟨sv, hsv⟩ := hsvc input.header
    obtain ⟨w2, hrun, hl, _, hst⟩ :=
      Robus_MsgHandler_WRITE0_step K E fuel input w sv hres hcmd hsize hsv hln
    refine ⟨w2, sender_id sv w.ctx, hrun, hl, by rw [hst, hl], ?_⟩
    exact carried_id_expected_id_reply _ _ _ _ (by omega)
  · intro reqs hreq hstart hlen
    obtain ⟨w2, replies, hrun, hl, hst, hlen2, hk, hmap⟩ :=
      handle_all_requests K E fuel hres w.ctx hsvc reqs w rfl hreq (by omega)
    refine ⟨w2, replies, hrun, by omega, hst, hlen2, ?_, ?_, ?_⟩
    · intro k hklt
      obtain ⟨request, source, hr, hp⟩ := hk k hklt
      refine ⟨request, source, hr, ?_⟩
      rw [hp, hstart]
      congr 2
      omega
    · intro k hklt
      rw [hmap, hstart, List.getElem?_range' _ _ hklt]
      congr 1
      omega
    · rw [hmap]
      exact List.nodup_range' _ _

/-- C7 on the example detector: two requests are answered with the IDs 2 and 3. -/
theorem Robus_MsgHandler_node_ids_fresh_witness :
    ∃ w2 replies, handle_all exampleConfig exampleExt 0
        [exampleRequest 0, exampleRequest 0] exampleDetector = .ok w2 ∧
      w2.last_node = [exampleRequest 0, exampleRequest 0].length + 1 ∧
      staged w2.log = staged exampleDetector.log ++ replies ∧
      replies.length = [exampleRequest 0, exampleRequest 0].length ∧
      (∀ k, k < [exampleRequest 0, exampleRequest 0].length → ∃ request source,
        [exampleRequest 0, exampleRequest 0][k]? = some request ∧
        replies[k]? = some (expected_id_reply exampleConfig request source (k + 2))) ∧
      (∀ k, k < [exampleRequest 0, exampleRequest 0].length →
        (replies.map carried_id)[k]? = some (k + 2)) ∧
      (replies.map carried_id).Nodup :=
  (Robus_MsgHandler_node_ids_fresh exampleConfig exampleExt 0 exampleDetector (by decide)
    (fun _ => ⟨_, rfl⟩)).2 [exampleRequest 0, exampleRequest 0] (by decide) rfl (by decide)

/-! ## The bootstrap handshake -/

theorem le16_bytes (v : Nat) (h : v < 65536) : le16 (v % 256) (v / 256 % 256) = v := by
  unfold le16; omega

theorem Robus_MsgHandler_WRITE4_ex {X : Type} (K : Config) (E : Ext X) (fuel : Nat)
    (input : msg_t) (w : World X) (hcmd : input.header.cmd = K.WRITE_NODE_ID)
    (hsize : input.header.size = 4) (hdata : 4 ≤ input.data.length)
    (hport : w.ctx.port.activ < w.ctx.node.port_table.length) :
    ∃ w1 : World X,
      w1.ctx.node.node_id = le16 (input.data.getD 2 0) (input.data.getD 3 0) ∧
      w1.ctx.node.port_table[w.ctx.port.activ]?
        = some (le16 (input.data.getD 0 0) (input.data.getD 1 0)) ∧
      w1.ctx.port = w.ctx.port ∧
      Robus_MsgHandler K E (fuel + 1) input w =
        (Robus_DetectNextNodes K E fuel (E.Recep_GetConcernedLLService w.ctx input.header)
          w1).bind (fun r => .ok (SUCCEED, r.2)) :=
  ⟨{ w with
      ctx := { w.ctx with node := { w.ctx.node with
        node_id := le16 (input.data.getD 2 0) (input.data.getD 3 0)
        port_table := (w.ctx.node.port_table.set w.ctx.port.activ
          (le16 (input.data.getD 0 0) (input.data.getD 1 0))) } }
      env := if w.ctx.node.node_id ≠ 0 then E.MsgAlloc_Init false w.env else w.env },
    rfl, by simp [List.getElem?_set_self hport], rfl,
    Robus_MsgHandler_WRITE4 K E fuel input w hcmd hsize hdata hport⟩

/-- C8: node `A` (node ID `a`, active port in range, valid service pointer) handling a size-2
`WRITE_NODE_ID` reply that carries the new ID `n` records `port_table[active] = n` and stages
a size-4 `WRITE_NODE_ID` (mode `NODEIDACK`, target 0) whose payload is
`{prev_nodeid = a, nodeid = n}`.  A neighbour `B` handling that message, whatever its
previous node ID, sets `node_id = n` and `port_table[B.active] = a` and then continues the
walk on its other ports from that state; when no further port answers the poke the handler
returns with these two values in place. -/
theorem Robus_MsgHandler_bootstrap_round_trip {X Y : Type} (K : Config) (EA : Ext X)
    (EB : Ext Y) (fuel : Nat) (reply : msg_t) (wA : World X) (wB : World Y)
    (svA : ll_service_t) (n : Nat)
    (hres : K.WRITE_NODE_ID < K.LUOS_LAST_RESERVED_CMD)
    (hcmd : reply.header.cmd = K.WRITE_NODE_ID) (hsize : reply.header.size = 2)
    (hdata : reply.data = [n % 256, n / 256 % 256]) (hn : n < 65536)
    (ha : wA.ctx.node.node_id < 65536)
    (hsvA : deref wA.ctx (EA.Recep_GetConcernedLLService wA.ctx reply.header) = .ok svA)
    (hportA : wA.ctx.port.activ < wA.ctx.node.port_table.length)
    (hportB : wB.ctx.port.activ < wB.ctx.node.port_table.length) :
    ∃ wA2 bootstrap, Robus_MsgHandler K EA fuel reply wA = .ok (SUCCEED, wA2) ∧
      wA2.ctx.node.port_table[wA.ctx.port.activ]? = some n ∧
      bootstrap = expected_bootstrap K (sender_id svA wA.ctx) wA.ctx.node.node_id n ∧
      staged wA2.log = staged wA.log ++ [bootstrap] ∧
      ∃ wB1 : World Y, wB1.ctx.node.node_id = n ∧
        wB1.ctx.node.port_table[wB.ctx.port.activ]? = some wA.ctx.node.node_id ∧
        Robus_MsgHandler K EB (fuel + 1) bootstrap wB =
          (Robus_DetectNextNodes K EB fuel
            (EB.Recep_GetConcernedLLService wB.ctx bootstrap.header) wB1).bind
            (fun r => .ok (SUCCEED, r.2)) ∧
        ((∀ y, (EB.PortMng_PokeNextPort wB.ctx.port y).1 ≠ SUCCEED) →
          ∃ wB2, Robus_MsgHandler K EB (fuel + 1) bootstrap wB = .ok (SUCCEED, wB2) ∧
            wB2.ctx.node.node_id = n ∧
            wB2.ctx.node.port_table[wB.ctx.port.activ]? = some wA.ctx.node.node_id) := by
  have hcar : carried_id reply = n := by
    simp only [carried_id, hdata, List.getD_eq_getElem?_getD, List.getElem?_cons_zero,
      List.getElem?_cons_succ, Option.getD_some]
    exact le16_bytes n hn
  have hA := Robus_MsgHandler_WRITE2 K EA fuel reply wA hcmd hsize svA hsvA
    (by rw [hdata]; simp) hportA
  rw [hcar] at hA
  refine ⟨_, _, hA, ?_, rfl, ?_, ?_⟩
  · rw [(Robus_SetTxTask_frame K EA _ _ _).1]
    simp [List.getElem?_set_self hportA]
  · rw [Robus_SetTxTask_staged K EA _ _ _ hres]
  · obtain ⟨wB1, hid, hpt, hpp, hB⟩ := Robus_MsgHandler_WRITE4_ex K EB fuel
      (expected_bootstrap K (sender_id svA wA.ctx) wA.ctx.node.node_id n) wB rfl rfl
      (by simp [expected_bootstrap]) hportB
    have h01 : le16 ((expected_bootstrap K (sender_id svA wA.ctx) wA.ctx.node.node_id n).data.getD
        0 0) ((expected_bootstrap K (sender_id svA wA.ctx) wA.ctx.node.node_id n).data.getD 1 0)
        = wA.ctx.node.node_id := le16_bytes _ ha
    have h23 : le16 ((expected_bootstrap K (sender_id svA wA.ctx) wA.ctx.node.node_id n).data.getD
        2 0) ((expected_bootstrap K (sender_id svA wA.ctx) wA.ctx.node.node_id n).data.getD 3 0)
        = n := le16_bytes _ hn
    rw [h23] at hid
    rw [h01] at hpt
    refine ⟨wB1, hid, hpt, hB, ?_⟩
    intro hpoke
    rw [hB, Robus_DetectNextNodes_no_neighbour K EB fuel _ wB1 (by rw [hpp]; exact hpoke _)]
    exact ⟨_, rfl, hid, hpt⟩

/-- C8 on two example nodes: the detector (ID 1) receives the new ID 2 for the neighbour on
its port 0 and forwards it; the neighbour adopts ID 2 and records node 1 on its port 0. -/
theorem Robus_MsgHandler_bootstrap_round_trip_witness :
    ∃ wA2 wB2,
      Robus_MsgHandler exampleConfig exampleExt 0
        (expected_id_reply exampleConfig (exampleRequest 1) 1 2) exampleDetector
        = .ok (SUCCEED, wA2) ∧
      wA2.ctx.node.port_table[0]? = some 2 ∧
      Robus_MsgHandler exampleConfig exampleExt 1 (expected_bootstrap exampleConfig 1 1 2)
        (exampleWorld exampleConfig 1 0) = .ok (SUCCEED, wB2) ∧
      wB2.ctx.node.node_id = 2 ∧ wB2.ctx.node.port_table[0]? = some 1 := by
  obtain ⟨wA2, bootstrap, hA, hport, hboot, _, wB1, _, _, _, hB⟩ :=
    Robus_MsgHandler_bootstrap_round_trip exampleConfig exampleExt exampleExt 0
      (expected_id_reply exampleConfig (exampleRequest 1) 1 2) exampleDetector
      (exampleWorld exampleConfig 1 0) { ll_service_zero exampleConfig with id := 1 } 2
      (by decide) (by rfl) (by rfl) (by rfl) (by decide) (by decide) (by rfl) (by decide)
      (by decide)
  obtain ⟨wB2, hB2, hid, hpt⟩ := hB (fun _ => (by decide : FAILED ≠ SUCCEED))
  rw [hboot] at hB2
  exact ⟨wA2, wB2, hA, hport, hB2, hid, hpt⟩

/-! ## The network timeout -/

theorem sub32_eq_emod (a b : Nat) :
    ((sub32 a b : Nat) : Int) = ((a : Int) - (b : Int)) % 4294967296 := by
  unfold sub32
  norm_num
  omega

/-- C9: let the node enter `LOCAL_DETECTION` or `EXTERNAL_DETECTION` through
`Robus_SetNodeDetected` at tick `t0`, and let `ctx.node_connected` be as that call left it
(no `END_DETECTION` handled since).  `Robus_RunNetworkTimeout` called at tick `t` puts the
state back to `NO_DETECTION` with the timer stopped when `(t - t0) mod 2^32` exceeds
`NETWORK_TIMEOUT = 10000`, and leaves state and timer as they were when it is at most 10000. -/
theorem Robus_RunNetworkTimeout_after_detection {X : Type} (E : Ext X) (st : network_state_t)
    (w0 w : World X) (t0 t : Nat)
    (hst : st = LOCAL_DETECTION ∨ st = EXTERNAL_DETECTION)
    (ht0 : (LuosHAL_GetSystick E w0.env).1 = t0)
    (hsince : w.ctx.node_connected = (Robus_SetNodeDetected E st w0).ctx.node_connected)
    (ht : (LuosHAL_GetSystick E w.env).1 = t) :
    (((t : Int) - (t0 : Int)) % 4294967296 > (NETWORK_TIMEOUT : Int) →
      (Robus_RunNetworkTimeout E w).ctx.node_connected
        = { state := NO_DETECTION, timeout_run := false, timeout := 0 }) ∧
    (((t : Int) - (t0 : Int)) % 4294967296 ≤ (NETWORK_TIMEOUT : Int) →
      (Robus_RunNetworkTimeout E w).ctx.node_connected = w.ctx.node_connected ∧
      Robus_IsNodeDetected (Robus_RunNetworkTimeout E w) = st ∧
      (Robus_RunNetworkTimeout E w).ctx.node_connected.timeout_run = true) := by
  have hnc : w.ctx.node_connected = { state := st, timeout_run := true, timeout := t0 } := by
    rw [hsince, ← ht0]
    unfold Robus_SetNodeDetected
    rcases hst with h | h <;> subst h <;>
      simp [NO_DETECTION, LOCAL_DETECTION, EXTERNAL_DETECTION]
  have hsub := sub32_eq_emod t t0
  constructor
  · intro hgt
    have hlt : sub32 t t0 > NETWORK_TIMEOUT := by
      rw [← hsub] at hgt; exact_mod_cast hgt
    unfold Robus_RunNetworkTimeout
    simp only [hnc, if_true, ht, hlt]
    unfold Robus_SetNodeDetected
    simp [NO_DETECTION]
  · intro hle
    have hnot : ¬ sub32 t t0 > NETWORK_TIMEOUT := by
      rw [← hsub] at hle
      have : sub32 t t0 ≤ NETWORK_TIMEOUT := by exact_mod_cast hle
      omega
    unfold Robus_RunNetworkTimeout Robus_IsNodeDetected
    simp [hnc, ht, hnot]

/-- C9 on the example node: detection starts at tick 5; at tick 10006 the timeout has expired. -/
theorem Robus_RunNetworkTimeout_after_detection_witness :
    (Robus_RunNetworkTimeout exampleExt
      { Robus_SetNodeDetected exampleExt LOCAL_DETECTION (exampleWorld exampleConfig 1 5) with
        env := 10006 }).ctx.node_connected
      = { state := NO_DETECTION, timeout_run := false, timeout := 0 } :=
  (Robus_RunNetworkTimeout_after_detection exampleExt LOCAL_DETECTION
    (exampleWorld exampleConfig 1 5)
    { Robus_SetNodeDetected exampleExt LOCAL_DETECTION (exampleWorld exampleConfig 1 5) with
      env := 10006 }
    5 10006 (Or.inl rfl) (by rfl) (by rfl) (by rfl)).1 (by decide)

/-! ## Single-node detection -/

theorem wait_TxAllComplete_ne_SUCCEED_mono {X : Type} (E : Ext X) :
    ∀ (fuel : Nat) (x x2 : X), wait_TxAllComplete_ne_SUCCEED E fuel x = .ok x2 →
      ∀ fuel2, fuel ≤ fuel2 → wait_TxAllComplete_ne_SUCCEED E fuel2 x = .ok x2 := by
  intro fuel
  induction fuel with
  | zero => intro x x2 h; simp [wait_TxAllComplete_ne_SUCCEED] at h
  | succ f ih =>
    intro x x2 h fuel2 hle
    cases fuel2 with
    | zero => omega
    | succ f2 =>
      unfold wait_TxAllComplete_ne_SUCCEED at h ⊢
      split
      · rename_i hc
        rw [if_pos hc] at h
        exact ih _ _ h f2 (by omega)
      · rename_i hc
        rw [if_neg hc] at h
        exact h

theorem wait_2ms_returns {X : Type} (E : Ext X) (start_tick : Nat) :
    ∀ (n : Nat) (x : X) (fuel : Nat), n < fuel →
      ¬ sub32 (LuosHAL_GetSystick E (tick_polls E n x)).1 start_tick < 2 →
      ∃ x2, wait_2ms E start_tick fuel x = .ok x2 := by
  intro n
  induction n with
  | zero =>
    intro x fuel hf h
    cases fuel with
    | zero => omega
    | succ f =>
      unfold wait_2ms
      rw [if_neg (by simpa [tick_polls] using h)]
      exact ⟨_, rfl⟩
  | succ n ih =>
    intro x fuel hf h
    cases fuel with
    | zero => omega
    | succ f =>
      unfold wait_2ms
      split
      · exact ih _ f (by omega) h
      · exact ⟨_, rfl⟩

theorem wait_2ms_mono {X : Type} (E : Ext X) (start_tick : Nat) :
    ∀ (fuel : Nat) (x x2 : X), wait_2ms E start_tick fuel x = .ok x2 →
      ∀ fuel2, fuel ≤ fuel2 → wait_2ms E start_tick fuel2 x = .ok x2 := by
  intro fuel
  induction fuel with
  | zero => intro x x2 h; simp [wait_2ms] at h
  | succ f ih =>
    intro x x2 h fuel2 hle
    cases fuel2 with
    | zero => omega
    | succ f2 =>
      unfold wait_2ms at h ⊢
      split
      · rename_i hc
        rw [if_pos hc] at h
        exact ih _ _ h f2 (by omega)
      · rename_i hc
        rw [if_neg hc] at h
        exact h

theorem Robus_SetNodeDetected_LOCAL {X : Type} (E : Ext X) (w : World X) :
    Robus_SetNodeDetected E LOCAL_DETECTION w =
      { w with
          env := (LuosHAL_GetSystick E w.env).2
          ctx := { w.ctx with node_connected :=
            { state := LOCAL_DETECTION, timeout_run := true,
              timeout := (LuosHAL_GetSystick E w.env).1 } } } := by
  unfold Robus_SetNodeDetected
  simp [NO_DETECTION, LOCAL_DETECTION]

theorem Robus_ResetNetworkDetection_single_pass {X : Type} (K : Config) (E : Ext X)
    (ll_service : service_ptr) (w : World X) (sv : ll_service_t)
    (hstate : Robus_IsNodeDetected w = NO_DETECTION)
    (hsv : deref w.ctx ll_service = .ok sv)
    (hdrain : ∀ x, ∃ n, (E.MsgAlloc_TxAllComplete (tx_polls E n x)).1 = SUCCEED)
    (hempty : ∀ x, (E.MsgAlloc_IsEmpty x).1 = SUCCEED)
    (htick : ∀ x start, ∃ n, ¬ sub32 (LuosHAL_GetSystick E (tick_polls E n x)).1 start < 2) :
    ∃ fuel0, ∀ fuel, fuel0 ≤ fuel →
      ∃ w2, Robus_ResetNetworkDetection K E fuel ll_service w = .ok (SUCCEED, w2) ∧
        Robus_IsNodeDetected w2 = LOCAL_DETECTION ∧
        w2.ctx.ll_service_table = w.ctx.ll_service_table := by
  obtain ⟨r, hsend⟩ := Robus_SendMsg_eq K E ll_service (start_detection_msg K) w sv hsv
  obtain ⟨hfc, -, -⟩ := Robus_SetTxTask_frame K E ll_service
    { start_detection_msg K with
      header := { (start_detection_msg K).header with source := sender_id sv w.ctx } } w
  generalize hw1 : (Robus_SetTxTask K E ll_service
    { start_detection_msg K with
      header := { (start_detection_msg K).header with source := sender_id sv w.ctx } } w).2 = w1
    at hsend hfc
  obtain ⟨n1, hn1⟩ := hdrain w1.env
  obtain ⟨x2, hx2⟩ := wait_TxAllComplete_ne_SUCCEED_returns E n1 w1.env (n1 + 1) (by omega) hn1
  obtain ⟨n2, hn2⟩ := htick (LuosHAL_GetSystick E (E.MsgAlloc_Init false x2)).2
    (LuosHAL_GetSystick E (E.MsgAlloc_Init false x2)).1
  obtain ⟨x4, hx4⟩ := wait_2ms_returns E _ n2 _ (n2 + 1) (by omega) hn2
  refine ⟨n1 + n2 + 1, fun fuel hfuel => ?_⟩
  have hwait1 := wait_TxAllComplete_ne_SUCCEED_mono E _ _ _ hx2 fuel (by omega)
  have hwait2 := wait_2ms_mono E _ _ _ _ hx4 fuel (by omega)
  have hst : ¬ Robus_IsNodeDetected w ≥ LOCAL_DETECTION := by
    rw [hstate]; decide
  have hloop : Robus_ResetNetworkDetection_loop K E ll_service fuel fuel
      (start_detection_msg K) 0 w
      = .ok (some 1, { w1 with env := (E.MsgAlloc_IsEmpty x4).2 }) := by
    obtain ⟨f, rfl⟩ : ∃ f, fuel = f + 1 := ⟨fuel - 1, by omega⟩
    rw [Robus_ResetNetworkDetection_loop]
    simp only [if_neg hst, hsend, bind, Except.bind, hwait1, hwait2, hempty]
    simp [pure, Except.pure]
  unfold Robus_ResetNetworkDetection
  simp only [hloop, bind, Except.bind]
  simp only [show (1 : Nat) < 5 by decide, if_true, pure, Except.pure,
    Robus_SetNodeDetected_LOCAL]
  refine ⟨_, rfl, rfl, ?_⟩
  simp [hfc]

/-- C10: on a node in `NO_DETECTION` with a valid detecting service, where no port poke
succeeds, the TX queue drains, the allocator is empty after the reset broadcast and the tick
advances (so that the 2 ms wait ends), `Robus_TopologyDetection` given enough fuel raises no
assert and returns 1, leaving `node_id = 1`, `last_node = 1`, `service->id = 1` and the
network state `LOCAL_DETECTION`. -/
theorem Robus_TopologyDetection_single_node {X : Type} (K : Config) (E : Ext X)
    (ll_service : service_ptr) (w : World X) (sv : ll_service_t)
    (hstate : Robus_IsNodeDetected w = NO_DETECTION)
    (hsv : deref w.ctx ll_service = .ok sv)
    (hpoke : ∀ p x, (E.PortMng_PokeNextPort p x).1 = FAILED)
    (hdrain : ∀ x, ∃ n, (E.MsgAlloc_TxAllComplete (tx_polls E n x)).1 = SUCCEED)
    (hempty : ∀ x, (E.MsgAlloc_IsEmpty x).1 = SUCCEED)
    (htick : ∀ x start, ∃ n, ¬ sub32 (LuosHAL_GetSystick E (tick_polls E n x)).1 start < 2) :
    ∃ fuel0, ∀ fuel, fuel0 ≤ fuel →
      ∃ w2 sv2, Robus_TopologyDetection K E fuel ll_service w = .ok (1, w2) ∧
        w2.ctx.node.node_id = 1 ∧ w2.last_node = 1 ∧
        deref w2.ctx ll_service = .ok sv2 ∧ sv2.id = 1 ∧
        Robus_IsNodeDetected w2 = LOCAL_DETECTION := by
  obtain ⟨fuel0, hreset⟩ := Robus_ResetNetworkDetection_single_pass K E ll_service w sv
    hstate hsv hdrain hempty htick
  refine ⟨fuel0 + 1, fun fuel hfuel => ?_⟩
  obtain ⟨w1, hrun1, hst1, htab1⟩ := hreset fuel (by omega)
  obtain ⟨i, hi, hlt⟩ := deref_some_lt w.ctx _ sv hsv
  subst hi
  have hst : ¬ Robus_IsNodeDetected w ≥ LOCAL_DETECTION := by
    rw [hstate]; decide
  have hne : ¬ Robus_IsNodeDetected w1 = EXTERNAL_DETECTION := by
    rw [hst1]; decide
  have hsv1 : deref { w1.ctx with node := { w1.ctx.node with node_id := 1 } } (some i)
      = .ok sv := by
    unfold deref at hsv ⊢
    simpa [htab1] using hsv
  have hlt1 : i < w1.ctx.ll_service_table.length := by rw [htab1]; exact hlt
  obtain ⟨f, rfl⟩ : ∃ f, fuel = f + 1 := ⟨fuel - 1, by omega⟩
  unfold Robus_TopologyDetection
  rw [if_neg hst, Robus_TopologyDetection_loop]
  simp only [hrun1, bind, Except.bind, if_neg hne, hsv1]
  rw [store_eq _ i _ (by simpa using hlt1)]
  simp only []
  rw [Robus_DetectNextNodes_no_neighbour K E (f + 1) _ _ (by rw [hpoke]; decide)]
  simp only [show ¬ (SUCCEED = FAILED) by decide, if_false, pure, Except.pure]
  refine ⟨_, { sv with id := 1 }, rfl, rfl, rfl, ?_, rfl, ?_⟩
  · simp [deref, List.getElem?_set_self hlt1]
  · simpa [Robus_IsNodeDetected] using hst1

theorem exampleExt_tick_polls (n x : Nat) : tick_polls exampleExt n x = x + n := by
  induction n generalizing x with
  | zero => rfl
  | succ n ih =>
    unfold tick_polls
    rw [show (LuosHAL_GetSystick exampleExt x).2 = x + 1 from rfl, ih]
    omega

theorem exampleExt_tick_advances (x start : Nat) :
    ∃ n, ¬ sub32 (LuosHAL_GetSystick exampleExt (tick_polls exampleExt n x)).1 start < 2 := by
  have h : ∀ n, (LuosHAL_GetSystick exampleExt (tick_polls exampleExt n x)).1
      = (x + n) % 4294967296 := by
    intro n
    rw [exampleExt_tick_polls]
    rfl
  by_contra hall
  have h0 := not_exists.mp hall 0
  have h1 := not_exists.mp hall 1
  have h2 := not_exists.mp hall 2
  rw [h] at h0 h1 h2
  unfold sub32 at h0 h1 h2
  norm_num at h0 h1 h2
  omega

/-- C10 on the example node: a single node, no neighbour on any port. -/
theorem Robus_TopologyDetection_single_node_witness :
    ∃ fuel0, ∀ fuel, fuel0 ≤ fuel →
      ∃ w2 sv2, Robus_TopologyDetection exampleConfig exampleExt fuel (some 0)
          (exampleWorld exampleConfig 1 0) = .ok (1, w2) ∧
        w2.ctx.node.node_id = 1 ∧ w2.last_node = 1 ∧
        deref w2.ctx (some 0) = .ok sv2 ∧ sv2.id = 1 ∧
        Robus_IsNodeDetected w2 = LOCAL_DETECTION :=
  Robus_TopologyDetection_single_node exampleConfig exampleExt (some 0)
    (exampleWorld exampleConfig 1 0) (ll_service_zero exampleConfig) rfl rfl
    (fun _ _ => rfl) (fun _ => ⟨0, rfl⟩) (fun _ => rfl) exampleExt_tick_advances

/-! ## Topology detection: a detection already in progress -/

/-- C12: when `Robus_TopologyDetection` is called while the network state is at least
`LOCAL_DETECTION` (`LOCAL_DETECTION`, `EXTERNAL_DETECTION`, and also `DETECTION_OK`), it
returns 0 with the whole world as it was: `node_id`, `last_node`, the service table, the
network state, the state of the collaborators and the call log (no message is sent). -/
theorem Robus_TopologyDetection_in_progress {X : Type} (K : Config) (E : Ext X) (fuel : Nat)
    (ll_service : service_ptr) (w : World X)
    (hstate : Robus_IsNodeDetected w ≥ LOCAL_DETECTION) :
    Robus_TopologyDetection K E fuel ll_service w = .ok (0, w) := by
  unfold Robus_TopologyDetection
  rw [if_pos hstate]
  rfl

/-- C12 on the example node while it is in `EXTERNAL_DETECTION`. -/
theorem Robus_TopologyDetection_in_progress_witness :
    Robus_TopologyDetection exampleConfig exampleExt 9 (some 0)
        (Robus_SetNodeDetected exampleExt EXTERNAL_DETECTION (exampleWorld exampleConfig 1 0))
      = .ok (0, Robus_SetNodeDetected exampleExt EXTERNAL_DETECTION
          (exampleWorld exampleConfig 1 0)) :=
  Robus_TopologyDetection_in_progress exampleConfig exampleExt 9 (some 0) _ (by decide)

/-! ## The network timeout and the node ID -/

/-- C17, counterexample: the example detector (`node_id = 1`) enters `LOCAL_DETECTION` at
tick 0; `Robus_RunNetworkTimeout` at tick 10002 reverts the state to `NO_DETECTION` and
`node_id` is still 1, not 0. -/
theorem Robus_RunNetworkTimeout_keeps_node_id_example :
    (Robus_RunNetworkTimeout exampleExt
      { Robus_SetNodeDetected exampleExt LOCAL_DETECTION exampleDetector with
        env := 10002 }).ctx.node_connected.state = NO_DETECTION ∧
    (Robus_RunNetworkTimeout exampleExt
      { Robus_SetNodeDetected exampleExt LOCAL_DETECTION exampleDetector with
        env := 10002 }).ctx.node.node_id = 1 ∧
    ¬ (Robus_RunNetworkTimeout exampleExt
      { Robus_SetNodeDetected exampleExt LOCAL_DETECTION exampleDetector with
        env := 10002 }).ctx.node.node_id = 0 := by
  decide

/-- C17, amended: when `Robus_RunNetworkTimeout` finds the detection timer expired it reverts
the state to `NO_DETECTION` and stops the timer, and in every case it leaves `ctx.node`
(`node_id` included), `last_node` and the service table as they were: `robus.c` does not clear
`node_id` on a network timeout. -/
theorem Robus_RunNetworkTimeout_keeps_node_id {X : Type} (E : Ext X) (w : World X) :
    (Robus_RunNetworkTimeout E w).ctx.node = w.ctx.node ∧
    (Robus_RunNetworkTimeout E w).last_node = w.last_node ∧
    (Robus_RunNetworkTimeout E w).ctx.ll_service_table = w.ctx.ll_service_table ∧
    (w.ctx.node_connected.timeout_run = true →
      sub32 (LuosHAL_GetSystick E w.env).1 w.ctx.node_connected.timeout > NETWORK_TIMEOUT →
      (Robus_RunNetworkTimeout E w).ctx.node_connected
        = { state := NO_DETECTION, timeout_run := false, timeout := 0 } ∧
      (Robus_RunNetworkTimeout E w).ctx.node.node_id = w.ctx.node.node_id) := by
  unfold Robus_RunNetworkTimeout
  by_cases hrun : w.ctx.node_connected.timeout_run = true
  · by_cases hexp :
        sub32 (LuosHAL_GetSystick E w.env).1 w.ctx.node_connected.timeout > NETWORK_TIMEOUT
    · simp only [hrun, if_true, hexp]
      unfold Robus_SetNodeDetected
      simp [NO_DETECTION]
    · simp [hrun, hexp]
  · simp [hrun]

/-- C17, amended, on the example detector timed out at tick 10002. -/
theorem Robus_RunNetworkTimeout_keeps_node_id_witness :
    (Robus_RunNetworkTimeout exampleExt
      { Robus_SetNodeDetected exampleExt LOCAL_DETECTION exampleDetector with
        env := 10002 }).ctx.node_connected
      = { state := NO_DETECTION, timeout_run := false, timeout := 0 } ∧
    (Robus_RunNetworkTimeout exampleExt
      { Robus_SetNodeDetected exampleExt LOCAL_DETECTION exampleDetector with
        env := 10002 }).ctx.node.node_id
      = ({ Robus_SetNodeDetected exampleExt LOCAL_DETECTION exampleDetector with
        env := 10002 } : World Nat).ctx.node.node_id :=
  (Robus_RunNetworkTimeout_keeps_node_id exampleExt
    { Robus_SetNodeDetected exampleExt LOCAL_DETECTION exampleDetector with
      env := 10002 }).2.2.2 (by decide) (by decide)

/-! ## The ID mask: bit positions -/

/-- C16, counterexample: for `base_id = 7` and `count = 5` the claimed range runs from bit
`(7 - 1) mod 8 = 6` up to bit `(7 - 1 + 5 - 1) mod 8 = 2`, yet the code sets the flattened
bits 6 to 10: the mask bytes are `[0xC0, 0x07]`, bits 6 and 8 are set though they are not in
the claimed range, and bit 0 of the first byte is clear. -/
theorem Robus_IDMaskCalculation_bits_example :
    ∃ ctx2, Robus_IDMaskCalculation exampleConfig 7 5
        (Robus_MaskInit exampleConfig (exampleCtx exampleConfig 0)) = .ok ctx2 ∧
      ctx2.IDMask = [192, 7] ∧
      maskBit ctx2.IDMask 6 = true ∧ ¬ ((7 - 1) % 8 ≤ 6 ∧ 6 ≤ (7 - 1 + 5 - 1) % 8) ∧
      maskBit ctx2.IDMask 8 = true ∧ ¬ ((7 - 1) % 8 ≤ 8 ∧ 8 ≤ (7 - 1 + 5 - 1) % 8) ∧
      maskBit ctx2.IDMask 0 = false := by
  refine ⟨{ Robus_MaskInit exampleConfig (exampleCtx exampleConfig 0) with
    IDShiftMask := 0, IDMask := [192, 7] }, ?_, rfl, ?_, ?_, ?_, ?_, ?_⟩
  · rfl
  all_goals decide

/-- C16, amended: for `1 ≤ base_id ≤ 4096 - MAX_SERVICE_NUMBER` and
`count ≤ MAX_SERVICE_NUMBER`, on a cleared mask `Robus_IDMaskCalculation base_id count` sets
`IDShiftMask = (base_id - 1) / 8` and sets exactly the flattened bits (bit `p % 8` of byte
`p / 8`) at the positions from `(base_id - 1) mod 8` up to `(base_id - 1) mod 8 + count - 1`;
no bit is set when `count = 0`.  The upper end is the claimed `(base_id - 1 + count - 1) mod 8`
exactly when the range stays inside the first byte. -/
theorem Robus_IDMaskCalculation_bit_positions (K : Config) (ctx : context_t)
    (base_id count : Nat) (hbase : 1 ≤ base_id) (hmax : base_id ≤ 4096 - K.MAX_SERVICE_NUMBER)
    (hcount : count ≤ K.MAX_SERVICE_NUMBER)
    (hroom : K.MAX_SERVICE_NUMBER + 7 ≤ 8 * K.ID_MASK_SIZE) :
    ∃ ctx2, Robus_IDMaskCalculation K base_id count (Robus_MaskInit K ctx) = .ok ctx2 ∧
      ctx2.IDShiftMask = (base_id - 1) / 8 ∧
      (∀ p, maskBit ctx2.IDMask p = true ↔
        ((base_id - 1) % 8 ≤ p ∧ p < (base_id - 1) % 8 + count)) ∧
      (1 ≤ count →
        ((base_id - 1) % 8 + count - 1 = (base_id - 1 + count - 1) % 8 ↔
          (base_id - 1) % 8 + count ≤ 8)) := by
  obtain ⟨c, hc, hcs, _, hcb⟩ := IDMask_loop_spec base_id hbase count
    { Robus_MaskInit K ctx with IDShiftMask := (base_id - 1) / 8 } rfl
    (by simp [Robus_MaskInit]; omega) (by omega)
  refine ⟨c, ?_, hcs, ?_, ?_⟩
  · unfold Robus_IDMaskCalculation
    rw [if_neg (by omega), if_neg (by omega)]
    exact hc
  · intro p
    rw [hcb]
    simp only [Robus_MaskInit, maskBit_replicate_zero, Bool.false_or, decide_eq_true_eq]
  · intro _
    omega

/-- C16, amended, at `base_id = 7`, `count = 5`: the bits 6 to 10 are set. -/
theorem Robus_IDMaskCalculation_bit_positions_witness :
    ∃ ctx2, Robus_IDMaskCalculation exampleConfig 7 5
        (Robus_MaskInit exampleConfig (exampleCtx exampleConfig 0)) = .ok ctx2 ∧
      ctx2.IDShiftMask = (7 - 1) / 8 ∧
      (∀ p, maskBit ctx2.IDMask p = true ↔ ((7 - 1) % 8 ≤ p ∧ p < (7 - 1) % 8 + 5)) ∧
      (1 ≤ 5 → ((7 - 1) % 8 + 5 - 1 = (7 - 1 + 5 - 1) % 8 ↔ (7 - 1) % 8 + 5 ≤ 8)) :=
  Robus_IDMaskCalculation_bit_positions exampleConfig (exampleCtx exampleConfig 0) 7 5
    (by decide) (by decide) (by decide) (by decide)

/-! ## What `Robus_SetTxTask` hands to the allocator -/

theorem Robus_SetTxTask_accepted_log {X : Type} (K : Config) (E : Ext X)
    (ll_service : service_ptr) (msg : msg_t) (w : World X)
    (hacc : msg.header.cmd < K.LUOS_LAST_RESERVED_CMD ∨ Robus_IsNodeDetected w = DETECTION_OK)
    (hsmall : K.sizeof_header_t + K.MAX_DATA_MSG_SIZE + K.CRC_SIZE + K.sizeof_time_luos_t + 1
      < 65536) :
    (Robus_SetTxTask K E ll_service msg w).2.log = w.log ++
      Call.SetTxTask ll_service msg
        (E.ll_crc_compute msg (K.sizeof_header_t + min msg.header.size K.MAX_DATA_MSG_SIZE)
          0xFFFF)
        (K.sizeof_header_t + min msg.header.size K.MAX_DATA_MSG_SIZE + K.CRC_SIZE
          + (if E.Timestamp_IsTimestampMsg msg = true then K.sizeof_time_luos_t else 0)
          + (if ack_appended E msg w.ctx then 1 else 0))
        (E.Recep_NodeConcerned w.ctx msg.header)
        (if ack_appended E msg w.ctx then w.ctx.rx_status else 0)
      :: (if K.VERBOSE_LOCALHOST = true ∨ E.Recep_NodeConcerned w.ctx msg.header ≠ LOCALHOST
          then [Call.Transmit_Process] else []) := by
  have hnp : ¬ (msg.header.cmd ≥ K.LUOS_LAST_RESERVED_CMD ∧
      Robus_IsNodeDetected w ≠ DETECTION_OK) := by
    rintro ⟨h1, h2⟩
    rcases hacc with h | h
    · omega
    · exact h2 h
  have hds : (if msg.header.size > K.MAX_DATA_MSG_SIZE then K.MAX_DATA_MSG_SIZE
      else msg.header.size) = min msg.header.size K.MAX_DATA_MSG_SIZE := by
    split <;> omega
  have hmin : min msg.header.size K.MAX_DATA_MSG_SIZE ≤ K.MAX_DATA_MSG_SIZE :=
    Nat.min_le_right _ _
  unfold Robus_SetTxTask
  rw [if_neg hnp]
  simp only [hds]
  generalize min msg.header.size K.MAX_DATA_MSG_SIZE = ds at hmin ⊢
  have hbase : (K.sizeof_header_t + ds + K.CRC_SIZE) % 65536
      = K.sizeof_header_t + ds + K.CRC_SIZE := by omega
  rw [hbase]
  have hcrc : K.sizeof_header_t + ds + K.CRC_SIZE - K.CRC_SIZE = K.sizeof_header_t + ds := by
    omega
  rw [hcrc]
  have hack : ((msg.header.target_mode = SERVICEIDACK ∨ msg.header.target_mode = NODEIDACK) ∧
      ((E.Recep_NodeConcerned w.ctx msg.header ≠ 0 ∧ msg.header.target ≠ DEFAULTID) ∨
        w.ctx.verbose = MULTIHOST)) = ack_appended E msg w.ctx := rfl
  simp only [hack]
  by_cases hts : E.Timestamp_IsTimestampMsg msg = true <;>
  by_cases hak : ack_appended E msg w.ctx <;>
  by_cases htr : K.VERBOSE_LOCALHOST = true ∨ E.Recep_NodeConcerned w.ctx msg.header ≠ LOCALHOST
  all_goals
    simp only [hts, hak, htr, if_true, if_false, decide_True, decide_False,
      List.append_assoc, List.singleton_append, Nat.add_zero]
  all_goals
    simp (disch := omega) only [Nat.mod_eq_of_lt, Bool.false_eq_true, if_false, if_true,
      Nat.add_zero]

/-- C13, counterexample: in an environment where every message is timestamped and the CRC
unit returns the seed plus the number of bytes covered, a 2-byte message is staged with the
CRC of `sizeof(header_t) + 2 = 9` bytes (value 8), not of the 17 bytes that header, data and
timestamp trailer make (value 16), while the frame length 19 does count the trailer. -/
theorem Robus_SetTxTask_crc_example :
    (Robus_SetTxTask exampleConfig timestampExt (some 0) (exampleMsg SERVICEID 2 2)
        (exampleWorld exampleConfig 1 0)).2.log
      = [Call.SetTxTask (some 0) (exampleMsg SERVICEID 2 2) 8 19 EXTERNALHOST 0,
         Call.Transmit_Process] ∧
    timestampExt.Timestamp_IsTimestampMsg (exampleMsg SERVICEID 2 2) = true ∧
    timestampExt.ll_crc_compute (exampleMsg SERVICEID 2 2)
      (exampleConfig.sizeof_header_t + 2) 0xFFFF = 8 ∧
    timestampExt.ll_crc_compute (exampleMsg SERVICEID 2 2)
      (exampleConfig.sizeof_header_t + 2 + exampleConfig.sizeof_time_luos_t) 0xFFFF ≠ 8 := by
  decide

/-- C13, amended: for every message that `Robus_SetTxTask` accepts, the CRC value it passes to
`MsgAlloc_SetTxTask` is the CRC with seed `0xFFFF` over the first
`sizeof(header_t) + min(size, MAX_DATA_MSG_SIZE)` bytes of the message, the header and the
(possibly truncated) data; the timestamp trailer is not covered, whether or not the message
is a timestamped one.  The sizes fit a `uint16_t`. -/
theorem Robus_SetTxTask_crc_covers_header_and_data {X : Type} (K : Config) (E : Ext X)
    (ll_service : service_ptr) (msg : msg_t) (w : World X)
    (hacc : msg.header.cmd < K.LUOS_LAST_RESERVED_CMD ∨ Robus_IsNodeDetected w = DETECTION_OK)
    (hsmall : K.sizeof_header_t + K.MAX_DATA_MSG_SIZE + K.CRC_SIZE + K.sizeof_time_luos_t + 1
      < 65536) :
    ∃ size localhost ack tail,
      (Robus_SetTxTask K E ll_service msg w).2.log = w.log ++
        Call.SetTxTask ll_service msg
          (E.ll_crc_compute msg (K.sizeof_header_t + min msg.header.size K.MAX_DATA_MSG_SIZE)
            0xFFFF)
          size localhost ack :: tail ∧
      (tail = [] ∨ tail = [Call.Transmit_Process]) := by
  refine ⟨_, _, _, _, Robus_SetTxTask_accepted_log K E ll_service msg w hacc hsmall, ?_⟩
  split
  · exact Or.inr rfl
  · exact Or.inl rfl

/-- C13, amended, on the timestamped example message. -/
theorem Robus_SetTxTask_crc_covers_header_and_data_witness :
    ∃ size localhost ack tail,
      (Robus_SetTxTask exampleConfig timestampExt (some 0) (exampleMsg SERVICEID 2 2)
          (exampleWorld exampleConfig 1 0)).2.log = (exampleWorld exampleConfig 1 0).log ++
        Call.SetTxTask (some 0) (exampleMsg SERVICEID 2 2)
          (timestampExt.ll_crc_compute (exampleMsg SERVICEID 2 2)
            (exampleConfig.sizeof_header_t
              + min (exampleMsg SERVICEID 2 2).header.size exampleConfig.MAX_DATA_MSG_SIZE)
            0xFFFF)
          size localhost ack :: tail ∧
      (tail = [] ∨ tail = [Call.Transmit_Process]) :=
  Robus_SetTxTask_crc_covers_header_and_data exampleConfig timestampExt (some 0)
    (exampleMsg SERVICEID 2 2) (exampleWorld exampleConfig 1 0) (Or.inl (by decide))
    (by decide)

/-- C14, counterexample: with `ctx.verbose = MULTIHOST`, a `NODEIDACK` message to
`DEFAULTID` (the bootstrap message has this shape) gets the ACK byte: the frame length is
`7 + 4 + 2 + 1 = 14` and `ack` is the RX status byte `0xF0`. -/
theorem Robus_SetTxTask_ack_example :
    (Robus_SetTxTask exampleConfig exampleExt (some 0) (exampleMsg NODEIDACK DEFAULTID 4)
        { exampleWorld exampleConfig 1 0 with
          ctx := { exampleCtx exampleConfig 1 with verbose := MULTIHOST, rx_status := 240 } }).2.log
      = [Call.SetTxTask (some 0) (exampleMsg NODEIDACK DEFAULTID 4) 0xFFFF 14 EXTERNALHOST 240,
         Call.Transmit_Process] ∧
    (exampleMsg NODEIDACK DEFAULTID 4).header.target = DEFAULTID ∧
    exampleConfig.sizeof_header_t + 4 + exampleConfig.CRC_SIZE + 1 = 14 := by
  decide

/-- C14, amended: `Robus_SetTxTask` appends the ACK byte (frame length + 1, `ack` = the RX
status byte) exactly when the target mode is `SERVICEIDACK` or `NODEIDACK` and either the
message concerns this node (`Recep_NodeConcerned` is non-zero) with a target other than
`DEFAULTID`, or `ctx.verbose` is `MULTIHOST`; in every other case `ack = 0` and the length is
not incremented.  So an appended ACK byte implies a `*ACK` target mode, and implies
`target != DEFAULTID` whenever the verbose mode is not `MULTIHOST`. -/
theorem Robus_SetTxTask_ack_byte {X : Type} (K : Config) (E : Ext X)
    (ll_service : service_ptr) (msg : msg_t) (w : World X)
    (hacc : msg.header.cmd < K.LUOS_LAST_RESERVED_CMD ∨ Robus_IsNodeDetected w = DETECTION_OK)
    (hsmall : K.sizeof_header_t + K.MAX_DATA_MSG_SIZE + K.CRC_SIZE + K.sizeof_time_luos_t + 1
      < 65536) :
    ∃ crc size localhost ack tail,
      (Robus_SetTxTask K E ll_service msg w).2.log = w.log ++
        Call.SetTxTask ll_service msg crc size localhost ack :: tail ∧
      (ack_appended E msg w.ctx →
        ack = w.ctx.rx_status ∧
        size = K.sizeof_header_t + min msg.header.size K.MAX_DATA_MSG_SIZE + K.CRC_SIZE
          + (if E.Timestamp_IsTimestampMsg msg = true then K.sizeof_time_luos_t else 0) + 1 ∧
        (msg.header.target_mode = SERVICEIDACK ∨ msg.header.target_mode = NODEIDACK) ∧
        (w.ctx.verbose ≠ MULTIHOST → msg.header.target ≠ DEFAULTID)) ∧
      (¬ ack_appended E msg w.ctx →
        ack = 0 ∧
        size = K.sizeof_header_t + min msg.header.size K.MAX_DATA_MSG_SIZE + K.CRC_SIZE
          + (if E.Timestamp_IsTimestampMsg msg = true then K.sizeof_time_luos_t else 0)) := by
  refine ⟨_, _, _, _, _, Robus_SetTxTask_accepted_log K E ll_service msg w hacc hsmall, ?_, ?_⟩
  · intro hak
    refine ⟨by rw [if_pos hak], by rw [if_pos hak], hak.1, fun hv => ?_⟩
    rcases hak.2 with h | h
    · exact h.2
    · exact absurd h hv
  · intro hak
    exact ⟨by rw [if_neg hak], by rw [if_neg hak, Nat.add_zero]⟩

/-- C14, amended, on the example node in verbose mode `MULTIHOST`. -/
theorem Robus_SetTxTask_ack_byte_witness :
    ∃ crc size localhost ack tail,
      (Robus_SetTxTask exampleConfig exampleExt (some 0) (exampleMsg NODEIDACK DEFAULTID 4)
        { exampleWorld exampleConfig 1 0 with
          ctx := { exampleCtx exampleConfig 1 with verbose := MULTIHOST, rx_status := 240 } }).2.log
        = [] ++ Call.SetTxTask (some 0) (exampleMsg NODEIDACK DEFAULTID 4) crc size localhost ack
          :: tail ∧
      ack = 240 ∧ size = 14 := by
  obtain ⟨crc, size, localhost, ack, tail, hlog, hyes, _⟩ :=
    Robus_SetTxTask_ack_byte exampleConfig exampleExt (some 0)
      (exampleMsg NODEIDACK DEFAULTID 4)
      { exampleWorld exampleConfig 1 0 with
        ctx := { exampleCtx exampleConfig 1 with verbose := MULTIHOST, rx_status := 240 } }
      (Or.inl (by decide)) (by decide)
  obtain ⟨h1, h2, _, _⟩ := hyes (by decide)
  exact ⟨crc, size, localhost, ack, tail, hlog, h1, h2⟩

/-- C15, counterexample: a message whose size field is 200 is staged with the frame length
`7 + 128 + 2 = 137`, and the header handed to the allocator still has `size = 200`, not
`MAX_DATA_MSG_SIZE = 128`. -/
theorem Robus_SetTxTask_truncation_example :
    (Robus_SetTxTask exampleConfig exampleExt (some 0) (exampleMsg SERVICEID 2 200)
        (exampleWorld exampleConfig 1 0)).2.log
      = [Call.SetTxTask (some 0) (exampleMsg SERVICEID 2 200) 0xFFFF 137 EXTERNALHOST 0,
         Call.Transmit_Process] ∧
    (staged (Robus_SetTxTask exampleConfig exampleExt (some 0) (exampleMsg SERVICEID 2 200)
        (exampleWorld exampleConfig 1 0)).2.log).map (fun m => m.header.size) = [200] ∧
    200 ≠ exampleConfig.MAX_DATA_MSG_SIZE := by
  decide

/-- C15, amended: for an accepted message the frame length handed to the allocator is
`sizeof(header_t) + MAX_DATA_MSG_SIZE + CRC_SIZE` when the size field exceeds
`MAX_DATA_MSG_SIZE` and `sizeof(header_t) + size + CRC_SIZE` otherwise, plus the timestamp and
ACK bytes when applicable; the message handed over is the caller's message as it is, so its
size field is the original one (`Robus_SetTxTask` does not rewrite it to
`MAX_DATA_MSG_SIZE`). -/
theorem Robus_SetTxTask_frame_length {X : Type} (K : Config) (E : Ext X)
    (ll_service : service_ptr) (msg : msg_t) (w : World X)
    (hacc : msg.header.cmd < K.LUOS_LAST_RESERVED_CMD ∨ Robus_IsNodeDetected w = DETECTION_OK)
    (hsmall : K.sizeof_header_t + K.MAX_DATA_MSG_SIZE + K.CRC_SIZE + K.sizeof_time_luos_t + 1
      < 65536) :
    ∃ crc size localhost ack tail,
      (Robus_SetTxTask K E ll_service msg w).2.log = w.log ++
        Call.SetTxTask ll_service msg crc size localhost ack :: tail ∧
      (msg.header.size > K.MAX_DATA_MSG_SIZE →
        size = K.sizeof_header_t + K.MAX_DATA_MSG_SIZE + K.CRC_SIZE
          + (if E.Timestamp_IsTimestampMsg msg = true then K.sizeof_time_luos_t else 0)
          + (if ack_appended E msg w.ctx then 1 else 0)) ∧
      (msg.header.size ≤ K.MAX_DATA_MSG_SIZE →
        size = K.sizeof_header_t + msg.header.size + K.CRC_SIZE
          + (if E.Timestamp_IsTimestampMsg msg = true then K.sizeof_time_luos_t else 0)
          + (if ack_appended E msg w.ctx then 1 else 0)) ∧
      (staged (Robus_SetTxTask K E ll_service msg w).2.log = staged w.log ++ [msg]) := by
  refine ⟨_, _, _, _, _, Robus_SetTxTask_accepted_log K E ll_service msg w hacc hsmall,
    ?_, ?_, ?_⟩
  · intro h
    rw [Nat.min_eq_right (Nat.le_of_lt h)]
  · intro h
    rw [Nat.min_eq_left h]
  · rw [Robus_SetTxTask_accepted_log K E ll_service msg w hacc hsmall, staged_append]
    split <;> simp [staged]

/-- C15, amended, on the example message of size field 200. -/
theorem Robus_SetTxTask_frame_length_witness :
    ∃ crc size localhost ack tail,
      (Robus_SetTxTask exampleConfig exampleExt (some 0) (exampleMsg SERVICEID 2 200)
          (exampleWorld exampleConfig 1 0)).2.log
        = [] ++ Call.SetTxTask (some 0) (exampleMsg SERVICEID 2 200) crc size localhost ack
          :: tail ∧
      size = 137 := by
  obtain ⟨crc, size, localhost, ack, tail, hlog, hbig, _, _⟩ :=
    Robus_SetTxTask_frame_length exampleConfig exampleExt (some 0)
      (exampleMsg SERVICEID 2 200) (exampleWorld exampleConfig 1 0)
      (Or.inl (by decide)) (by decide)
  exact ⟨crc, size, localhost, ack, tail, hlog, hbig (by decide)⟩

/-! ## Unsubscribing a topic whose node bit is clear -/

/-- C20, evaluated at the failing input: after a service subscribed to topic 3 and
`Robus_Init` ran again, the topic mask is all zero while the service still lists topic 3;
`Robus_TopicUnsubscribe` for topic 3 then succeeds and subtracts `1 << 3` from the zero byte,
which leaves `0xF8`: bits 4 to 7 (topics 4 to 7) change from clear to set, and bit 3 itself
ends up set. -/
theorem Robus_TopicUnsubscribe_borrows_example :
    ∃ ctx ctx2, exampleReinitCtx = .ok ctx ∧
      ctx.TopicMask = [0, 0, 0, 0] ∧
      Robus_TopicUnsubscribe exampleExt (some 0) 3 ctx = .ok (SUCCEED, ctx2) ∧
      ctx2.TopicMask = [248, 0, 0, 0] ∧
      maskBit ctx.TopicMask 4 = false ∧ maskBit ctx2.TopicMask 4 = true ∧
      maskBit ctx.TopicMask 7 = false ∧ maskBit ctx2.TopicMask 7 = true := by
  refine ⟨_, _, rfl, rfl, rfl, rfl, ?_, ?_, ?_, ?_⟩ <;> rfl

/-! ## The reset loop when the allocator never gets empty -/

theorem Robus_SendMsg_ok_ctx {X : Type} (K : Config) (E : Ext X) (ll_service : service_ptr)
    (msg : msg_t) (w : World X) (r : error_return_t × msg_t × World X)
    (h : Robus_SendMsg K E ll_service msg w = .ok r) : r.2.2.ctx = w.ctx := by
  unfold Robus_SendMsg at h
  cases hd : deref w.ctx ll_service with
  | error e => simp [hd, bind, Except.bind] at h
  | ok sv =>
    simp only [hd, bind, Except.bind] at h
    split at h <;> split at h <;> cases h <;> exact (Robus_SetTxTask_frame K E _ _ _).1

theorem Robus_ResetNetworkDetection_loop_never_leaves {X : Type} (K : Config) (E : Ext X)
    (ll_service : service_ptr) (fuel : Nat)
    (hne : ∀ x, (E.MsgAlloc_IsEmpty x).1 ≠ SUCCEED) :
    ∀ (n : Nat) (msg : msg_t) (try_nbr : Nat) (w : World X),
      Robus_IsNodeDetected w < LOCAL_DETECTION →
      ∃ e, Robus_ResetNetworkDetection_loop K E ll_service fuel n msg try_nbr w = .error e := by
  intro n
  induction n with
  | zero => intro msg t w _; exact ⟨_, rfl⟩
  | succ n ih =>
    intro msg t w hst
    rw [Robus_ResetNetworkDetection_loop]
    simp only [if_neg (Nat.not_le.mpr hst), bind, Except.bind]
    cases hs : Robus_SendMsg K E ll_service msg w with
    | error e => exact ⟨_, rfl⟩
    | ok sent =>
      have hctx := Robus_SendMsg_ok_ctx K E ll_service msg w sent hs
      simp only []
      cases hw1 : wait_TxAllComplete_ne_SUCCEED E fuel sent.2.2.env with
      | error e => exact ⟨_, rfl⟩
      | ok x2 =>
        simp only []
        cases hw2 : wait_2ms E (LuosHAL_GetSystick E (E.MsgAlloc_Init false x2)).1 fuel
            (LuosHAL_GetSystick E (E.MsgAlloc_Init false x2)).2 with
        | error e => exact ⟨_, rfl⟩
        | ok x4 =>
          simp only [hne, ne_eq, not_false_eq_true, true_or, if_true]
          exact ih _ _ _ (by simpa [Robus_IsNodeDetected, hctx] using hst)

theorem Robus_ResetNetworkDetection_loop_pass {X : Type} (K : Config) (E : Ext X)
    (ll_service : service_ptr) (fuel n : Nat) (msg : msg_t) (try_nbr : Nat) (w : World X)
    (sv : ll_service_t)
    (hstate : Robus_IsNodeDetected w < LOCAL_DETECTION)
    (hsv : deref w.ctx ll_service = .ok sv)
    (hcmd : msg.header.cmd < K.LUOS_LAST_RESERVED_CMD)
    (hne : ∀ x, (E.MsgAlloc_IsEmpty x).1 ≠ SUCCEED)
    (htx : ∀ x, ∃ x2, wait_TxAllComplete_ne_SUCCEED E fuel x = .ok x2)
    (h2ms : ∀ start x, ∃ x4, wait_2ms E start fuel x = .ok x4) :
    ∃ msg2 w2,
      Robus_ResetNetworkDetection_loop K E ll_service fuel (n + 1) msg try_nbr w
        = Robus_ResetNetworkDetection_loop K E ll_service fuel n msg2
            ((try_nbr + 1) % 256) w2 ∧
      w2.ctx = w.ctx ∧ staged w2.log = staged w.log ++ [msg2] ∧
      msg2.header.cmd = msg.header.cmd := by
  obtain ⟨r, hsend⟩ := Robus_SendMsg_eq K E ll_service msg w sv hsv
  obtain ⟨x2, hx2⟩ := htx (Robus_SetTxTask K E ll_service
    { msg with header := { msg.header with source := sender_id sv w.ctx } } w).2.env
  obtain ⟨x4, hx4⟩ := h2ms (LuosHAL_GetSystick E (E.MsgAlloc_Init false x2)).1
    (LuosHAL_GetSystick E (E.MsgAlloc_Init false x2)).2
  refine ⟨{ msg with header := { msg.header with source := sender_id sv w.ctx } },
    { (Robus_SetTxTask K E ll_service
        { msg with header := { msg.header with source := sender_id sv w.ctx } } w).2 with
      env := (E.MsgAlloc_IsEmpty x4).2 }, ?_, ?_, ?_, rfl⟩
  · rw [Robus_ResetNetworkDetection_loop]
    simp only [if_neg (Nat.not_le.mpr hstate), bind, Except.bind, hsend, hx2, hx4, hne, ne_eq,
      not_false_eq_true, true_or, if_true]
  · exact (Robus_SetTxTask_frame K E _ _ _).1
  · exact Robus_SetTxTask_staged K E _ _ _ hcmd

theorem Robus_ResetNetworkDetection_loop_passes {X : Type} (K : Config) (E : Ext X)
    (ll_service : service_ptr) (fuel : Nat) (c : context_t) (sv : ll_service_t)
    (hstate : c.node_connected.state < LOCAL_DETECTION)
    (hsv : deref c ll_service = .ok sv)
    (hne : ∀ x, (E.MsgAlloc_IsEmpty x).1 ≠ SUCCEED)
    (htx : ∀ x, ∃ x2, wait_TxAllComplete_ne_SUCCEED E fuel x = .ok x2)
    (h2ms : ∀ start x, ∃ x4, wait_2ms E start fuel x = .ok x4) :
    ∀ (k n : Nat) (msg : msg_t) (try_nbr : Nat) (w : World X), try_nbr < 256 → w.ctx = c →
      msg.header.cmd < K.LUOS_LAST_RESERVED_CMD →
      ∃ msgk wk,
        Robus_ResetNetworkDetection_loop K E ll_service fuel (k + n) msg try_nbr w
          = Robus_ResetNetworkDetection_loop K E ll_service fuel n msgk
              ((try_nbr + k) % 256) wk ∧
        wk.ctx = c ∧ (staged wk.log).length = (staged w.log).length + k := by
  intro k
  induction k with
  | zero =>
    intro n msg t w ht hc hcmd
    refine ⟨msg, w, ?_, hc, rfl⟩
    rw [Nat.zero_add, Nat.add_zero, Nat.mod_eq_of_lt ht]
  | succ k ih =>
    intro n msg t w ht hc hcmd
    obtain ⟨msg2, w2, hrun, hc2, hst2, hcmd2⟩ := Robus_ResetNetworkDetection_loop_pass K E
      ll_service fuel (k + n) msg t w sv
      (by simpa [Robus_IsNodeDetected, hc] using hstate) (by rw [hc]; exact hsv) hcmd hne htx
      h2ms
    obtain ⟨msgk, wk, hrunk, hck, hlenk⟩ := ih n msg2 ((t + 1) % 256) w2
      (Nat.mod_lt _ (by norm_num)) (hc2.trans hc)
      (by rw [hcmd2]; exact hcmd)
    refine ⟨msgk, wk, ?_, hck, ?_⟩
    · rw [show k + 1 + n = k + n + 1 by omega, hrun, hrunk]
      congr 1
      omega
    · rw [hlenk, hst2]
      simp
      omega

theorem neverEmptyExt_tick_polls (n x : Nat) : tick_polls neverEmptyExt n x = x + n := by
  induction n generalizing x with
  | zero => rfl
  | succ n ih =>
    unfold tick_polls
    rw [show (LuosHAL_GetSystick neverEmptyExt x).2 = x + 1 from rfl, ih]
    omega

theorem neverEmptyExt_wait_2ms (start x : Nat) :
    ∃ x4, wait_2ms neverEmptyExt start 3 x = .ok x4 := by
  have h : ∀ n, (LuosHAL_GetSystick neverEmptyExt (tick_polls neverEmptyExt n x)).1
      = (x + n) % 4294967296 := by
    intro n
    rw [neverEmptyExt_tick_polls]
    rfl
  have hex : ∃ n, n < 3 ∧
      ¬ sub32 (LuosHAL_GetSystick neverEmptyExt (tick_polls neverEmptyExt n x)).1 start < 2 := by
    by_contra hall
    have h0 := not_and.mp (not_exists.mp hall 0) (by decide)
    have h1 := not_and.mp (not_exists.mp hall 1) (by decide)
    have h2 := not_and.mp (not_exists.mp hall 2) (by decide)
    rw [h] at h0 h1 h2
    unfold sub32 at h0 h1 h2
    norm_num at h0 h1 h2
    omega
  obtain ⟨n, hn, hpoll⟩ := hex
  exact wait_2ms_returns neverEmptyExt start n x 3 hn hpoll

/-- C18, evaluated at the failing input: on the example node in `NO_DETECTION`, with TX
always drained, the tick advancing and `MsgAlloc_IsEmpty` never reporting empty,
`Robus_ResetNetworkDetection` returns for no amount of fuel (so it never returns `FAILED`),
and its loop is still running after any number `k` of passes, each of which stages one
`START_DETECTION` broadcast: the bound `try_nbr > 5` is or-ed into the loop condition and
never ends the loop. -/
theorem Robus_ResetNetworkDetection_never_bails_out :
    (∀ fuel, ∃ e, Robus_ResetNetworkDetection exampleConfig neverEmptyExt fuel (some 0)
      (exampleWorld exampleConfig 1 0) = .error e) ∧
    (∀ k n, ∃ msgk wk,
      Robus_ResetNetworkDetection_loop exampleConfig neverEmptyExt (some 0) 3 (k + n)
          (start_detection_msg exampleConfig) 0 (exampleWorld exampleConfig 1 0)
        = Robus_ResetNetworkDetection_loop exampleConfig neverEmptyExt (some 0) 3 n msgk
            (k % 256) wk ∧
      (staged wk.log).length = k ∧ Robus_IsNodeDetected wk = NO_DETECTION) := by
  have hne : ∀ x, (neverEmptyExt.MsgAlloc_IsEmpty x).1 ≠ SUCCEED :=
    fun _ => (by decide : FAILED ≠ SUCCEED)
  constructor
  · intro fuel
    obtain ⟨e, he⟩ := Robus_ResetNetworkDetection_loop_never_leaves exampleConfig neverEmptyExt
      (some 0) fuel hne fuel (start_detection_msg exampleConfig) 0
      (exampleWorld exampleConfig 1 0) (by decide)
    refine ⟨e, ?_⟩
    unfold Robus_ResetNetworkDetection
    simp only [he, bind, Except.bind]
  · intro k n
    obtain ⟨msgk, wk, hrun, hctx, hlen⟩ := Robus_ResetNetworkDetection_loop_passes
      exampleConfig neverEmptyExt (some 0) 3 (exampleCtx exampleConfig 1)
      (ll_service_zero exampleConfig) (by decide) rfl hne (fun x => ⟨x, rfl⟩)
      neverEmptyExt_wait_2ms k n (start_detection_msg exampleConfig) 0
      (exampleWorld exampleConfig 1 0) (by decide) rfl (by decide)
    refine ⟨msgk, wk, ?_, ?_, ?_⟩
    · rw [hrun, Nat.zero_add]
    · rw [hlen]
      simp [exampleWorld, staged]
    · rw [Robus_IsNodeDetected, hctx]
      rfl

/-! ## Topology detection: retries and the fatal assert -/

theorem Robus_TopologyDetection_loop_failed {X : Type} (K : Config) (E : Ext X)
    (ll_service : service_ptr) (fuel n redetect_nb : Nat) (w w2 : World X)
    (h : Robus_TopologyDetection_attempt K E fuel ll_service w = .ok (some FAILED, w2)) :
    Robus_TopologyDetection_loop K E ll_service fuel (n + 1) redetect_nb w =
      if ¬ (redetect_nb ≤ 4) then .error .assert
      else Robus_TopologyDetection_loop K E ll_service fuel n ((redetect_nb + 1) % 256) w2 := by
  unfold Robus_TopologyDetection_attempt at h
  rw [Robus_TopologyDetection_loop]
  simp only [bind, Except.bind, pure, Except.pure] at h ⊢
  cases hreset : Robus_ResetNetworkDetection K E fuel ll_service w with
  | error e => simp [hreset] at h
  | ok reset =>
    simp only [hreset] at h ⊢
    by_cases hext : Robus_IsNodeDetected reset.2 = EXTERNAL_DETECTION
    · simp [hext] at h
    · simp only [if_neg hext] at h ⊢
      cases hd : deref { reset.2.ctx with node := { reset.2.ctx.node with node_id := 1 } }
          ll_service with
      | error e => simp [hd] at h
      | ok sv =>
        simp only [hd] at h ⊢
        cases hs : store { reset.2.ctx with node := { reset.2.ctx.node with node_id := 1 } }
            ll_service { sv with id := 1 } with
        | error e => simp [hs] at h
        | ok ctx =>
          simp only [hs] at h ⊢
          cases hw : Robus_DetectNextNodes K E fuel ll_service
              { reset.2 with ctx := ctx, last_node := 1 } with
          | error e => simp [hw] at h
          | ok r =>
            simp only [hw, Except.ok.injEq, Prod.mk.injEq, Option.some.injEq] at h ⊢
            obtain ⟨h1, h2⟩ := h
            simp [h1, h2]

theorem Robus_TopologyDetection_loop_failures {X : Type} (K : Config) (E : Ext X)
    (ll_service : service_ptr) (fuel : Nat) (ws : Nat → World X) :
    ∀ (k : Nat), k ≤ 5 →
      (∀ i, i < k →
        Robus_TopologyDetection_attempt K E fuel ll_service (ws i) = .ok (some FAILED, ws (i + 1))) →
      ∀ m, Robus_TopologyDetection_loop K E ll_service fuel (k + m) 0 (ws 0)
        = Robus_TopologyDetection_loop K E ll_service fuel m k (ws k) := by
  intro k
  induction k with
  | zero => intro _ _ m; rw [Nat.zero_add]
  | succ k ih =>
    intro hk hfail m
    rw [show k + 1 + m = k + (m + 1) by omega,
      ih (by omega) (fun i hi => hfail i (by omega)) (m + 1),
      Robus_TopologyDetection_loop_failed K E ll_service fuel m k (ws k) (ws (k + 1))
        (hfail k (by omega)),
      if_neg (by omega), Nat.mod_eq_of_lt (by omega)]

/-- C11, amended: when the walks keep failing (turn `i + 1` of the loop of
`Robus_TopologyDetection` takes world `ws i` to `ws (i + 1)` with a walk that returns
`FAILED`), then after `k ≤ 5` consecutive failed walks no assert has fired and the loop goes
on with `redetect_nb = k`, up to a fifth retry; the fatal assert fires on the sixth
consecutive failed walk, the one that follows the fifth retry.  The second argument of the
loop is the number of turns it may take. -/
theorem Robus_TopologyDetection_asserts_on_sixth_failure {X : Type} (K : Config) (E : Ext X)
    (ll_service : service_ptr) (fuel nfail : Nat) (ws : Nat → World X)
    (hfail : ∀ i, i < nfail →
      Robus_TopologyDetection_attempt K E fuel ll_service (ws i) = .ok (some FAILED, ws (i + 1))) :
    (∀ k, k ≤ nfail → k ≤ 5 → ∀ m,
      Robus_TopologyDetection_loop K E ll_service fuel (k + m) 0 (ws 0)
        = Robus_TopologyDetection_loop K E ll_service fuel m k (ws k)) ∧
    (6 ≤ nfail → ∀ m,
      Robus_TopologyDetection_loop K E ll_service fuel (6 + m) 0 (ws 0) = .error .assert) ∧
    (6 ≤ nfail → 6 ≤ fuel → Robus_IsNodeDetected (ws 0) < LOCAL_DETECTION →
      Robus_TopologyDetection K E fuel ll_service (ws 0) = .error .assert) := by
  have h6 : 6 ≤ nfail → ∀ m,
      Robus_TopologyDetection_loop K E ll_service fuel (6 + m) 0 (ws 0) = .error .assert := by
    intro hn m
    rw [show 6 + m = 5 + (m + 1) by omega,
      Robus_TopologyDetection_loop_failures K E ll_service fuel ws 5 (by omega)
        (fun i hi => hfail i (by omega)) (m + 1),
      Robus_TopologyDetection_loop_failed K E ll_service fuel m 5 (ws 5) (ws 6)
        (hfail 5 (by omega)),
      if_pos (by omega)]
  refine ⟨fun k hk hk5 m => ?_, h6, fun hn hf hst => ?_⟩
  · exact Robus_TopologyDetection_loop_failures K E ll_service fuel ws k hk5
      (fun i hi => hfail i (by omega)) m
  · unfold Robus_TopologyDetection
    rw [if_neg (Nat.not_le.mpr hst)]
    obtain ⟨m, rfl⟩ : ∃ m, fuel = 6 + m := ⟨fuel - 6, by omega⟩
    exact h6 hn m

theorem stuckWorlds_attempt (i : Nat)
    (h : (Robus_TopologyDetection_attempt exampleConfig stuckExt 6 (some 0)
      (stuckWorlds i)).toOption.map Prod.fst = some (some FAILED)) :
    Robus_TopologyDetection_attempt exampleConfig stuckExt 6 (some 0) (stuckWorlds i)
      = .ok (some FAILED, stuckWorlds (i + 1)) := by
  cases hres : Robus_TopologyDetection_attempt exampleConfig stuckExt 6 (some 0)
      (stuckWorlds i) with
  | error e => simp [hres, Except.toOption] at h
  | ok r =>
    have h1 : r.1 = some FAILED := by simpa [hres, Except.toOption] using h
    have h2 : stuckWorlds (i + 1) = r.2 := by
      rw [stuckWorlds]
      simp only [hres]
    rw [h2, ← h1]

theorem stuckWorlds_fail : ∀ i, i < 6 →
    Robus_TopologyDetection_attempt exampleConfig stuckExt 6 (some 0) (stuckWorlds i)
      = .ok (some FAILED, stuckWorlds (i + 1)) := by
  intro i hi
  apply stuckWorlds_attempt
  interval_cases i <;> decide!

/-- C11, counterexample: in `stuckExt` the first five walks of a detection on the example
node all fail, and no assert fires on the fifth failure: the loop, allowed five turns, ends
by lack of turns and not by the assert, being about to take a sixth turn with
`redetect_nb = 5`; the assert fires in the sixth turn. -/
theorem Robus_TopologyDetection_fifth_failure_example :
    (∀ i, i < 5 →
      Robus_TopologyDetection_attempt exampleConfig stuckExt 6 (some 0) (stuckWorlds i)
        = .ok (some FAILED, stuckWorlds (i + 1))) ∧
    Robus_TopologyDetection_loop exampleConfig stuckExt (some 0) 6 5 0 (stuckWorlds 0)
      = .error .fuel ∧
    (∀ m, Robus_TopologyDetection_loop exampleConfig stuckExt (some 0) 6 (5 + m) 0
        (stuckWorlds 0)
      = Robus_TopologyDetection_loop exampleConfig stuckExt (some 0) 6 m 5 (stuckWorlds 5)) ∧
    Robus_TopologyDetection_loop exampleConfig stuckExt (some 0) 6 6 0 (stuckWorlds 0)
      = .error .assert := by
  have h5 := Robus_TopologyDetection_loop_failures exampleConfig stuckExt (some 0) 6
    stuckWorlds 5 (by omega) (fun i hi => stuckWorlds_fail i (by omega))
  refine ⟨fun i hi => stuckWorlds_fail i (by omega), ?_, h5, ?_⟩
  · rw [h5 0]
    rfl
  · rw [h5 1, Robus_TopologyDetection_loop_failed exampleConfig stuckExt (some 0) 6 0 5
      (stuckWorlds 5) (stuckWorlds 6) (stuckWorlds_fail 5 (by omega))]
    rfl

/-- C11, amended, in `stuckExt`: six walks fail in a row and `Robus_TopologyDetection`
asserts. -/
theorem Robus_TopologyDetection_asserts_on_sixth_failure_witness :
    Robus_TopologyDetection exampleConfig stuckExt 6 (some 0) (stuckWorlds 0)
      = .error .assert :=
  (Robus_TopologyDetection_asserts_on_sixth_failure exampleConfig stuckExt (some 0) 6 6
    stuckWorlds stuckWorlds_fail).2.2 (by decide) (by decide) (by decide)

/-! ## The timer and the network state -/

theorem Robus_SetNodeDetected_timer {X : Type} (E : Ext X) (state : Nat)
    (w : World X) (hst : state ≤ DETECTION_OK) :
    timer_matches_state (Robus_SetNodeDetected E state w).ctx.node_connected := by
  have hst3 : state ≤ 3 := hst
  have h : state = 0 ∨ state = 1 ∨ state = 2 ∨ state = 3 := by omega
  unfold Robus_SetNodeDetected timer_matches_state
  rcases h with h | h | h | h <;> subst h <;>
    simp [NO_DETECTION, LOCAL_DETECTION, EXTERNAL_DETECTION, DETECTION_OK]

theorem Robus_RunNetworkTimeout_timer {X : Type} (E : Ext X) (w : World X)
    (h : timer_matches_state w.ctx.node_connected) :
    timer_matches_state (Robus_RunNetworkTimeout E w).ctx.node_connected := by
  unfold Robus_RunNetworkTimeout
  split
  · dsimp only
    split
    · exact Robus_SetNodeDetected_timer E NO_DETECTION _ (by decide)
    · exact h
  · exact h

theorem Robus_MsgHandler_timer_step {X : Type} (K : Config) (E : Ext X) (fuel : Nat)
    (ih : ∀ f, f < fuel → ∀ (ll : service_ptr) (w : World X) (r : error_return_t × World X),
      timer_matches_state w.ctx.node_connected →
      Robus_DetectNextNodes K E f ll w = .ok r → timer_matches_state r.2.ctx.node_connected)
    (input : msg_t) (w : World X) (r : error_return_t × World X)
    (hw : timer_matches_state w.ctx.node_connected)
    (h : Robus_MsgHandler K E fuel input w = .ok r) :
    timer_matches_state r.2.ctx.node_connected := by
  unfold Robus_MsgHandler at h
  simp only [bind, Except.bind, pure, Except.pure] at h
  split at h
  · split at h
    · -- size 0
      split at h
      · cases h
      · rename_i sent hs
        cases h
        rw [Robus_SendMsg_ok_ctx K E _ _ _ sent hs]
        exact hw
    · split at h
      · -- size 2
        repeat' split at h
        all_goals first
          | (cases h; done)
          | (rename_i sent hs
             cases h
             rw [Robus_SendMsg_ok_ctx K E _ _ _ sent hs]
             exact hw)
      · split at h
        · -- size 4
          repeat' split at h
          all_goals first
            | (cases h; done)
            | (rename_i v hd
               cases h
               refine ih _ (Nat.lt_succ_self _) _ _ v ?_ hd
               first | exact hw | (split <;> exact hw))
        · cases h; exact hw
  · split at h
    · cases h; exact hw
    · split at h
      · cases h
        exact Robus_SetNodeDetected_timer E DETECTION_OK w (by decide)
      · split at h
        · repeat' split at h
          all_goals first
            | (cases h; done)
            | (cases h; exact hw)
        · cases h; exact hw

theorem store_node_connected (ctx ctx2 : context_t) (ll_service : service_ptr)
    (sv : ll_service_t) (h : store ctx ll_service sv = .ok ctx2) :
    ctx2.node_connected = ctx.node_connected := by
  unfold store at h
  split at h
  · cases h
  · split at h
    · cases h; rfl
    · cases h

theorem Robus_DetectNextNodes_timer_step {X : Type} (K : Config) (E : Ext X) (fuel : Nat)
    (ihd : ∀ f, f < fuel → ∀ (ll : service_ptr) (w : World X) (r : error_return_t × World X),
      timer_matches_state w.ctx.node_connected →
      Robus_DetectNextNodes K E f ll w = .ok r → timer_matches_state r.2.ctx.node_connected)
    (ihw : ∀ f, f < fuel → ∀ (start_tick : Nat) (w : World X) (r : Bool × World X),
      timer_matches_state w.ctx.node_connected →
      Robus_DetectNextNodes_wait K E f start_tick w = .ok r →
      timer_matches_state r.2.ctx.node_connected)
    (ll : service_ptr) (w : World X) (r : error_return_t × World X)
    (hw : timer_matches_state w.ctx.node_connected)
    (h : Robus_DetectNextNodes K E fuel ll w = .ok r) :
    timer_matches_state r.2.ctx.node_connected := by
  unfold Robus_DetectNextNodes at h
  simp only [bind, Except.bind, pure, Except.pure] at h
  split at h
  · split at h
    · cases h
    · rename_i f
      split at h
      · cases h
      · rename_i sv hsv
        split at h
        · cases h
        · rename_i ctx1 hst
          have hc1 := store_node_connected _ _ _ _ hst
          split at h
          · cases h
          · rename_i sent hs
            have hc2 := Robus_SendMsg_ok_ctx K E _ _ _ sent hs
            split at h
            · cases h
            · rename_i x hx
              split at h
              · cases h
              · rename_i sv2 hsv2
                split at h
                · split at h
                  · cases h
                  · rename_i pt hpt
                    refine ihd f (Nat.lt_succ_self _) _ _ r ?_ h
                    show timer_matches_state sent.2.2.ctx.node_connected
                    rw [hc2]
                    show timer_matches_state ctx1.node_connected
                    rw [hc1]
                    exact hw
                · split at h
                  · cases h
                  · rename_i rw hrw
                    have hr := ihw f (Nat.lt_succ_self _) _ _ rw (by
                      show timer_matches_state sent.2.2.ctx.node_connected
                      rw [hc2]
                      show timer_matches_state ctx1.node_connected
                      rw [hc1]
                      exact hw) hrw
                    split at h
                    · cases h; exact hr
                    · exact ihd f (Nat.lt_succ_self _) _ _ r hr h
  · cases h; exact hw

theorem Robus_DetectNextNodes_wait_timer_step {X : Type} (K : Config) (E : Ext X) (fuel : Nat)
    (ihl : ∀ f, f < fuel → ∀ (w w2 : World X),
      timer_matches_state w.ctx.node_connected →
      Robus_Loop K E f w = .ok w2 → timer_matches_state w2.ctx.node_connected)
    (ihw : ∀ f, f < fuel → ∀ (start_tick : Nat) (w : World X) (r : Bool × World X),
      timer_matches_state w.ctx.node_connected →
      Robus_DetectNextNodes_wait K E f start_tick w = .ok r →
      timer_matches_state r.2.ctx.node_connected)
    (start_tick : Nat) (w : World X) (r : Bool × World X)
    (hw : timer_matches_state w.ctx.node_connected)
    (h : Robus_DetectNextNodes_wait K E fuel start_tick w = .ok r) :
    timer_matches_state r.2.ctx.node_connected := by
  unfold Robus_DetectNextNodes_wait at h
  simp only [bind, Except.bind, pure, Except.pure] at h
  split at h
  · split at h
    · cases h
    · rename_i f
      split at h
      · cases h
      · rename_i w1 hl
        have h1 := ihl f (Nat.lt_succ_self _) _ _ hw hl
        split at h
        · cases h; exact h1
        · exact ihw f (Nat.lt_succ_self _) _ _ r (by exact h1) h
  · cases h; exact hw

theorem Robus_Loop_timer_step {X : Type} (K : Config) (E : Ext X) (fuel : Nat)
    (ihp : ∀ f, f < fuel → ∀ (w w2 : World X),
      timer_matches_state w.ctx.node_connected →
      Robus_Loop_pull K E f w = .ok w2 → timer_matches_state w2.ctx.node_connected)
    (w w2 : World X)
    (hw : timer_matches_state w.ctx.node_connected)
    (h : Robus_Loop K E fuel w = .ok w2) :
    timer_matches_state w2.ctx.node_connected := by
  unfold Robus_Loop at h
  split at h
  · cases h
  · rename_i f
    simp only [bind, Except.bind, pure, Except.pure] at h
    split at h
    · cases h
    · rename_i w1 hp
      cases h
      exact ihp f (Nat.lt_succ_self _) _ w1 (by exact Robus_RunNetworkTimeout_timer E _ hw) hp

theorem Robus_Loop_pull_timer_step {X : Type} (K : Config) (E : Ext X) (fuel : Nat)
    (ihh : ∀ f, f < fuel → ∀ (input : msg_t) (w : World X) (r : error_return_t × World X),
      timer_matches_state w.ctx.node_connected →
      Robus_MsgHandler K E f input w = .ok r → timer_matches_state r.2.ctx.node_connected)
    (ihp : ∀ f, f < fuel → ∀ (w w2 : World X),
      timer_matches_state w.ctx.node_connected →
      Robus_Loop_pull K E f w = .ok w2 → timer_matches_state w2.ctx.node_connected)
    (w w2 : World X)
    (hw : timer_matches_state w.ctx.node_connected)
    (h : Robus_Loop_pull K E fuel w = .ok w2) :
    timer_matches_state w2.ctx.node_connected := by
  unfold Robus_Loop_pull at h
  simp only [bind, Except.bind, pure, Except.pure] at h
  split at h
  · cases h; exact hw
  · split at h
    · cases h
    · rename_i f
      split at h
      · cases h
      · rename_i r hr
        have h1 := ihh f (Nat.lt_succ_self _) _ _ r (by exact hw) hr
        refine ihp f (Nat.lt_succ_self _) _ _ ?_ h
        split
        · exact h1
        · exact h1

theorem Robus_mutual_timer {X : Type} (K : Config) (E : Ext X) (fuel : Nat) :
    (∀ (input : msg_t) (w : World X) (r : error_return_t × World X),
      timer_matches_state w.ctx.node_connected →
      Robus_MsgHandler K E fuel input w = .ok r → timer_matches_state r.2.ctx.node_connected) ∧
    (∀ (ll : service_ptr) (w : World X) (r : error_return_t × World X),
      timer_matches_state w.ctx.node_connected →
      Robus_DetectNextNodes K E fuel ll w = .ok r →
      timer_matches_state r.2.ctx.node_connected) ∧
    (∀ (start_tick : Nat) (w : World X) (r : Bool × World X),
      timer_matches_state w.ctx.node_connected →
      Robus_DetectNextNodes_wait K E fuel start_tick w = .ok r →
      timer_matches_state r.2.ctx.node_connected) ∧
    (∀ (w w2 : World X),
      timer_matches_state w.ctx.node_connected →
      Robus_Loop K E fuel w = .ok w2 → timer_matches_state w2.ctx.node_connected) ∧
    (∀ (w w2 : World X),
      timer_matches_state w.ctx.node_connected →
      Robus_Loop_pull K E fuel w = .ok w2 → timer_matches_state w2.ctx.node_connected) := by
  induction fuel using Nat.strong_induction_on with
  | _ fuel ih =>
    have hd := Robus_DetectNextNodes_timer_step K E fuel
      (fun f hf => (ih f hf).2.1) (fun f hf => (ih f hf).2.2.1)
    refine ⟨Robus_MsgHandler_timer_step K E fuel (fun f hf => (ih f hf).2.1), hd,
      Robus_DetectNextNodes_wait_timer_step K E fuel
        (fun f hf => (ih f hf).2.2.2.1) (fun f hf => (ih f hf).2.2.1),
      Robus_Loop_timer_step K E fuel (fun f hf => (ih f hf).2.2.2.2),
      Robus_Loop_pull_timer_step K E fuel
        (fun f hf => (ih f hf).1) (fun f hf => (ih f hf).2.2.2.2)⟩

theorem Reachable_timer {X : Type} (K : Config) (E : Ext X) (w : World X)
    (h : Reachable K E w) : timer_matches_state w.ctx.node_connected := by
  induction h with
  | init w0 =>
    unfold Robus_Init
    exact Robus_SetNodeDetected_timer E NO_DETECTION _ (by decide)
  | set w state _ hst ih => exact Robus_SetNodeDetected_timer E state w hst
  | timeout w _ ih => exact Robus_RunNetworkTimeout_timer E w ih
  | handle w fuel input r w2 _ hh ih =>
    exact (Robus_mutual_timer K E fuel).1 input w (r, w2) ih hh

theorem Robus_RunNetworkTimeout_idle {X : Type} (E : Ext X) (w : World X)
    (h : timer_matches_state w.ctx.node_connected)
    (hst : Robus_IsNodeDetected w = DETECTION_OK ∨ Robus_IsNodeDetected w = NO_DETECTION) :
    Robus_RunNetworkTimeout E w = w := by
  have hrun : w.ctx.node_connected.timeout_run = false := by
    cases hb : w.ctx.node_connected.timeout_run with
    | false => rfl
    | true =>
      exfalso
      have h2 := h.mp hb
      unfold Robus_IsNodeDetected at hst
      rcases hst with h1 | h1 <;> rcases h2 with h3 | h3 <;> rw [h1] at h3 <;>
        exact absurd h3 (by decide)
  unfold Robus_RunNetworkTimeout
  simp [hrun]

/-- C19: in every world reachable from `Robus_Init` by calls of
`Robus_SetNodeDetected` with one of the four network states, of
`Robus_RunNetworkTimeout` and of `Robus_MsgHandler`, the detection timer runs
exactly when the state is `LOCAL_DETECTION` or `EXTERNAL_DETECTION`; so in
`DETECTION_OK` and in `NO_DETECTION` the routine `Robus_RunNetworkTimeout`
leaves the world as it is, whatever the tick source answers. -/
theorem Robus_timer_runs_iff_detecting {X : Type} (K : Config) (E : Ext X) (w : World X)
    (h : Reachable K E w) :
    (w.ctx.node_connected.timeout_run = true ↔
      (Robus_IsNodeDetected w = LOCAL_DETECTION ∨
        Robus_IsNodeDetected w = EXTERNAL_DETECTION)) ∧
    (Robus_IsNodeDetected w = DETECTION_OK ∨ Robus_IsNodeDetected w = NO_DETECTION →
      ∀ E2 : Ext X, Robus_RunNetworkTimeout E2 w = w ∧
        Robus_IsNodeDetected (Robus_RunNetworkTimeout E2 w) = Robus_IsNodeDetected w) := by
  have ht := Reachable_timer K E w h
  refine ⟨ht, fun hst E2 => ?_⟩
  have hid := Robus_RunNetworkTimeout_idle E2 w ht hst
  exact ⟨hid, by rw [hid]⟩

theorem Robus_timer_runs_iff_detecting_witness :
    Reachable exampleConfig exampleExt exampleDetected ∧
    Robus_IsNodeDetected exampleDetected = DETECTION_OK ∧
    ((exampleDetected.ctx.node_connected.timeout_run = true ↔
      (Robus_IsNodeDetected exampleDetected = LOCAL_DETECTION ∨
        Robus_IsNodeDetected exampleDetected = EXTERNAL_DETECTION)) ∧
    (Robus_IsNodeDetected exampleDetected = DETECTION_OK ∨
        Robus_IsNodeDetected exampleDetected = NO_DETECTION →
      ∀ E2 : Ext Nat, Robus_RunNetworkTimeout E2 exampleDetected = exampleDetected ∧
        Robus_IsNodeDetected (Robus_RunNetworkTimeout E2 exampleDetected)
          = Robus_IsNodeDetected exampleDetected)) :=
  have hreach : Reachable exampleConfig exampleExt exampleDetected :=
    Reachable.handle _ 0 exampleEndDetection FAILED exampleDetected
      (Reachable.set _ LOCAL_DETECTION (Reachable.init (exampleWorld exampleConfig 0 0))
        (by decide))
      (Robus_MsgHandler_END exampleConfig exampleExt 0 exampleEndDetection _ (by decide) rfl)
  ⟨hreach, rfl, Robus_timer_runs_iff_detecting exampleConfig exampleExt exampleDetected hreach⟩

/-! ## The source and the status of `Robus_SendMsg` -/

/-- C21: for a valid service pointer, `Robus_SendMsg` writes the source of the message (the
id of the service when it is not zero, the node id otherwise), hands that message to
`Robus_SetTxTask`, and returns `FAILED` exactly when `Robus_SetTxTask` does, `SUCCEED`
otherwise; so for a user command sent while the network state is not `DETECTION_OK`,
where `Robus_SetTxTask` answers `PROHIBITED` and leaves the world (and its log) as it was,
`Robus_SendMsg` returns `SUCCEED`. -/
theorem Robus_SendMsg_source_and_status {X : Type} (K : Config) (E : Ext X)
    (ll_service : service_ptr) (msg : msg_t) (w : World X) (sv : ll_service_t)
    (hsv : deref w.ctx ll_service = .ok sv) :
    ∃ (r : error_return_t) (out : msg_t) (w2 : World X),
      Robus_SendMsg K E ll_service msg w = .ok (r, out, w2) ∧
      out = { msg with header := { msg.header with
                source := if sv.id ≠ 0 then sv.id else w.ctx.node.node_id } } ∧
      w2 = (Robus_SetTxTask K E ll_service out w).2 ∧
      (r = FAILED ↔ (Robus_SetTxTask K E ll_service out w).1 = FAILED) ∧
      (r ≠ FAILED → r = SUCCEED) ∧
      (msg.header.cmd ≥ K.LUOS_LAST_RESERVED_CMD → Robus_IsNodeDetected w ≠ DETECTION_OK →
        Robus_SetTxTask K E ll_service out w = (PROHIBITED, w) ∧ r = SUCCEED ∧ w2 = w ∧
        staged w2.log = staged w.log) := by
  have hout : ∀ out : msg_t,
      out = { msg with header := { msg.header with
                source := if sv.id ≠ 0 then sv.id else w.ctx.node.node_id } } →
      (if (Robus_SetTxTask K E ll_service out w).1 = FAILED
        then (pure (FAILED, out, (Robus_SetTxTask K E ll_service out w).2) :
          Except Fault (error_return_t × msg_t × World X))
        else pure (SUCCEED, out, (Robus_SetTxTask K E ll_service out w).2))
        = Robus_SendMsg K E ll_service msg w := by
    intro out ho
    subst ho
    unfold Robus_SendMsg
    simp only [hsv, bind, Except.bind]
    by_cases hid : sv.id ≠ 0
    · simp only [if_pos hid]
    · simp only [if_neg hid]
  have hpro : ∀ out : msg_t, out.header.cmd = msg.header.cmd →
      msg.header.cmd ≥ K.LUOS_LAST_RESERVED_CMD → Robus_IsNodeDetected w ≠ DETECTION_OK →
      Robus_SetTxTask K E ll_service out w = (PROHIBITED, w) := by
    intro out hc hcmd hst
    unfold Robus_SetTxTask
    rw [if_pos ⟨by rw [hc]; exact hcmd, hst⟩]
  obtain ⟨out, ho⟩ : ∃ out : msg_t, out = { msg with header := { msg.header with
      source := if sv.id ≠ 0 then sv.id else w.ctx.node.node_id } } := ⟨_, rfl⟩
  refine ⟨if (Robus_SetTxTask K E ll_service out w).1 = FAILED then FAILED else SUCCEED,
    out, (Robus_SetTxTask K E ll_service out w).2, ?_, ho, rfl, ?_, ?_, ?_⟩
  · rw [← hout out ho]
    split <;> rfl
  · split
    · rename_i h; simp [h]
    · rename_i h; simp [h]
  · split
    · intro h; exact absurd rfl h
    · intro _; rfl
  · intro hcmd hst
    have hp := hpro out (by rw [ho]) hcmd hst
    refine ⟨hp, ?_, ?_, ?_⟩
    · rw [hp]; rfl
    · rw [hp]
    · rw [hp]

/-- C21 on the example node in `NO_DETECTION`: a user command (42) sent by the first
service is refused by `Robus_SetTxTask` with `PROHIBITED`, nothing is staged, and
`Robus_SendMsg` returns `SUCCEED` with the source set to the node id. -/
theorem Robus_SendMsg_source_and_status_witness :
    deref (exampleWorld exampleConfig 1 0).ctx (some 0) = .ok (ll_service_zero exampleConfig) ∧
    Robus_SendMsg exampleConfig exampleExt (some 0)
        { header := { config := 0, target_mode := SERVICEID, target := 1, source := 9,
                      cmd := 42, size := 0 }, data := [] }
        (exampleWorld exampleConfig 1 0)
      = .ok (SUCCEED,
          { header := { config := 0, target_mode := SERVICEID, target := 1, source := 0,
                        cmd := 42, size := 0 }, data := [] },
          exampleWorld exampleConfig 1 0) := by
  refine ⟨rfl, ?_⟩
  obtain ⟨r, out, w2, hrun, hout, _, _, _, hpro⟩ :=
    Robus_SendMsg_source_and_status exampleConfig exampleExt (some 0)
      { header := { config := 0, target_mode := SERVICEID, target := 1, source := 9,
                    cmd := 42, size := 0 }, data := [] }
      (exampleWorld exampleConfig 1 0) (ll_service_zero exampleConfig) rfl
  obtain ⟨_, hr, hw, _⟩ := hpro (by decide) (by decide)
  rw [hrun, hr, hw, hout]
  rfl
end Robus
